import Mathlib

/-!
# Via DSP core (`modules/inc/dsp.hpp`): fixed-point arithmetic, circular buffers,
interpolation, the quintic-spline wavetable evaluator, fold/wrap and the sine oscillator;
the envelope render of `modules/atsr/atsr_helpers.cpp` and the scale tables of
`modules/sync3/sync3scales.cpp`

Shallow embedding of the integer routines of `dsp.hpp`, of the DAC outputs of
`ViaAtsr::render` and of the `Sync3Scale` initialisers.  A C `int32_t` is a Lean `Int`
in `[-2^31, 2^31)`; every operation that can leave that range is followed by an explicit
reduction modulo `2^32` (`toI32`), which is what both targets of the firmware do.  Bitwise
operators act on the 32-bit pattern (`bits32`) of their operands.  Definitions without a
build tag are common to both builds or belong to the portable build (`BUILD_VIRTUAL`); the
hardware build (`BUILD_F373`) lives in the namespace `Via.F373`.
-/

namespace Via

/-! ## Machine integers -/

/-- Conversion to `int32_t`: the value congruent to `x` modulo `2^32` in `[-2^31, 2^31)`. -/
def toI32 (x : Int) : Int := (x + 2 ^ 31) % 2 ^ 32 - 2 ^ 31

/-- Conversion to `uint32_t`: the value congruent to `x` modulo `2^32` in `[0, 2^32)`. -/
def toU32 (x : Int) : Int := x % 2 ^ 32

/-- Conversion to `int64_t`: the value congruent to `x` modulo `2^64` in `[-2^63, 2^63)`. -/
def toI64 (x : Int) : Int := (x + 2 ^ 63) % 2 ^ 64 - 2 ^ 63

/-- Conversion to `uint64_t`: the value congruent to `x` modulo `2^64` in `[0, 2^64)`. -/
def toU64 (x : Int) : Int := x % 2 ^ 64

/-- Membership in the `int32_t` range. -/
def isI32 (x : Int) : Prop := -2 ^ 31 ≤ x ∧ x < 2 ^ 31

instance (x : Int) : Decidable (isI32 x) := by unfold isI32; infer_instance

/-- The 32-bit pattern of `x`, as a natural number below `2^32`. -/
def bits32 (x : Int) : Nat := (toU32 x).toNat

/-- C `a + b` on `int32_t`. -/
def add32 (a b : Int) : Int := toI32 (a + b)

/-- C `a - b` on `int32_t`. -/
def sub32 (a b : Int) : Int := toI32 (a - b)

/-- C `a * b` on `int32_t`. -/
def mul32 (a b : Int) : Int := toI32 (a * b)

/-- C `-a` on `int32_t`. -/
def neg32 (a : Int) : Int := toI32 (-a)

/-- C `a << n` on `int32_t`. -/
def shl32 (a : Int) (n : Nat) : Int := toI32 (a * 2 ^ n)

/-- C `a >> n` on a signed integer: arithmetic shift, rounding towards minus infinity. -/
def asr (a : Int) (n : Nat) : Int := Int.shiftRight a n

/-- C `a & b` on `int32_t`. -/
def and32 (a b : Int) : Int := toI32 (Int.ofNat (bits32 a &&& bits32 b))

/-- C `a | b` on `int32_t`. -/
def or32 (a b : Int) : Int := toI32 (Int.ofNat (bits32 a ||| bits32 b))

/-- C `a ^ b` on `int32_t`. -/
def xor32 (a b : Int) : Int := toI32 (Int.ofNat (bits32 a ^^^ bits32 b))

/-- C `~a` on `int32_t`. -/
def not32 (a : Int) : Int := toI32 (~~~a)

/-- C `w & m` used as an array subscript, for a non-negative mask constant `m`: the 32-bit
pattern of `w` ANDed with `m`, which never exceeds `m`. -/
def andIdx (w : Int) (m : Nat) : Fin (m + 1) :=
  ⟨bits32 w &&& m, Nat.lt_succ_of_le Nat.and_le_right⟩

/-! ## Circular buffers -/

/-- Source `lilBuffer`: circular buffer of 8 words and a write head. -/
structure lilBuffer where
  buff : Fin 8 → Int
  writeIndex : Int

/-- Source `buffer`: circular buffer of 32 words and a write head. -/
structure buffer where
  buff : Fin 32 → Int
  writeIndex : Int

/-- Source `longBuffer`: circular buffer of 256 words and a write head. -/
structure longBuffer where
  buff : Fin 256 → Int
  writeIndex : Int

/-- Source `writeLilBuffer`: `buffer->buff[(buffer->writeIndex++) & 7] = value`. -/
def writeLilBuffer (b : lilBuffer) (value : Int) : lilBuffer :=
  { buff := Function.update b.buff (andIdx b.writeIndex 7) value
    writeIndex := add32 b.writeIndex 1 }

/-- Source `readLilBuffer`: `buffer->buff[(buffer->writeIndex + (~Xn)) & 7]`. -/
def readLilBuffer (b : lilBuffer) (Xn : Int) : Int :=
  b.buff (andIdx (add32 b.writeIndex (not32 Xn)) 7)

/-- Source `writeBuffer`: `buffer->buff[(buffer->writeIndex++) & 31] = value`. -/
def writeBuffer (b : buffer) (value : Int) : buffer :=
  { buff := Function.update b.buff (andIdx b.writeIndex 31) value
    writeIndex := add32 b.writeIndex 1 }

/-- Source `readBuffer`: `buffer->buff[(buffer->writeIndex + (~Xn)) & 31]`. -/
def readBuffer (b : buffer) (Xn : Int) : Int :=
  b.buff (andIdx (add32 b.writeIndex (not32 Xn)) 31)

/-- Source `writeLongBuffer`: `buffer->buff[(buffer->writeIndex++) & 255] = value`. -/
def writeLongBuffer (b : longBuffer) (value : Int) : longBuffer :=
  { buff := Function.update b.buff (andIdx b.writeIndex 255) value
    writeIndex := add32 b.writeIndex 1 }

/-- Source `readLongBuffer`: `buffer->buff[(buffer->writeIndex + (~Xn)) & 255]`. -/
def readLongBuffer (b : longBuffer) (Xn : Int) : Int :=
  b.buff (andIdx (add32 b.writeIndex (not32 Xn)) 255)

/-! ## Saturation (`BUILD_VIRTUAL`) -/

/-- Source `__USAT(X, Y)`: returns `(1 << Y) - 1` when `X` exceeds it, `0` when `X < 0`,
and `X` otherwise. -/
def __USAT (X : Int) (Y : Nat) : Int :=
  if X > sub32 (shl32 1 Y) 1 then
    sub32 (shl32 1 Y) 1
  else if X < 0 then
    0
  else
    X

/-- Source `#define __MAX ((1 << (Y - 1)) - 1)` inside `__SSAT`, with `Y - 1` computed on
`uint32_t`. -/
def __MAX (Y : Nat) : Int := sub32 (shl32 1 (toU32 ((Y : Int) - 1)).toNat) 1

/-- Source `__SSAT(X, Y)`: returns `__MAX` when `X` exceeds it, `-__MAX` when `X` is below
it, and `X` otherwise. -/
def __SSAT (X : Int) (Y : Nat) : Int :=
  if X > __MAX Y then
    __MAX Y
  else if X < neg32 (__MAX Y) then
    neg32 (__MAX Y)
  else
    X

/-! ## Absolute value -/

/-- Source `int32_abs(n)`: `mask = n >> 31; return ((n + mask) ^ mask);`. -/
def int32_abs (n : Int) : Int :=
  let mask := asr n 31
  xor32 (add32 n mask) mask

/-! ## Fixed-point multiplication (`BUILD_VIRTUAL`) -/

/-- Source `fix16_mul`: `int64_t result = (uint64_t) in0 * in1; return result >> 16;`. -/
def fix16_mul (in0 in1 : Int) : Int :=
  let result := toI64 (toU64 (toU64 in0 * toU64 in1))
  toI32 (asr result 16)

/-- Source `fix24_mul`: `int64_t result = (uint64_t) in0 * in1; return result >> 24;`. -/
def fix24_mul (in0 in1 : Int) : Int :=
  let result := toI64 (toU64 (toU64 in0 * toU64 in1))
  toI32 (asr result 24)

/-! ## Linear interpolation (`BUILD_VIRTUAL`) -/

/-- Source `fix16_lerp`: `in0 + fix16_mul(in1 - in0, frac)`. -/
def fix16_lerp (in0 in1 frac : Int) : Int :=
  add32 in0 (fix16_mul (sub32 in1 in0) frac)

/-- Source `fast_fix15_lerp`: `in0 + fix16_mul(in1 - in0, frac << 1)`. -/
def fast_fix15_lerp (in0 in1 frac : Int) : Int :=
  add32 in0 (fix16_mul (sub32 in1 in0) (shl32 frac 1))

/-- Source `fast_15_16_lerp`: `in0 + (((in1 - in0) * frac) >> 16)`. -/
def fast_15_16_lerp (in0 in1 frac : Int) : Int :=
  add32 in0 (asr (mul32 (sub32 in1 in0) frac) 16)

/-- C `x >> n` on `uint32_t`: logical shift of the 32-bit pattern of `x`. -/
def lsr32 (x : Int) (n : Nat) : Int := toU32 x / 2 ^ n

/-- Source `fast_15_16_lerp_prediff`: `(in0 & 0xFFFF) + (((in0 >> 16)*frac) >> 16)`. -/
def fast_15_16_lerp_prediff (in0 frac : Int) : Int :=
  add32 (and32 in0 0xFFFF) (asr (mul32 (asr in0 16) frac) 16)

/-! ## Bilinear interpolation (`BUILD_VIRTUAL`) -/

/-- Source `fix15_bilerp`: `in0 = fast_fix15_lerp(in0, in1, frac0);`
`in2 = fast_fix15_lerp(in2, in3, frac0); return fast_fix15_lerp(in0, in2, frac1);`. -/
def fix15_bilerp (in0 in1 in2 in3 frac0 frac1 : Int) : Int :=
  let in0 := fast_fix15_lerp in0 in1 frac0
  let in2 := fast_fix15_lerp in2 in3 frac0
  fast_fix15_lerp in0 in2 frac1

/-- Source `fast_15_16_bilerp_prediff`:
`in0 = (in0 & 0xFFFF) + (((in0 >> 16)*frac0) >> 16);`
`in1 = (in1 & 0xFFFF) + (((in1 >> 16)*frac0) >> 16);`
`return in0 + ((in1 - in0)*frac1 >> 16);`. -/
def fast_15_16_bilerp_prediff (in0 in1 frac0 frac1 : Int) : Int :=
  let in0 := add32 (and32 in0 0xFFFF) (asr (mul32 (asr in0 16) frac0) 16)
  let in1 := add32 (and32 in1 0xFFFF) (asr (mul32 (asr in1 16) frac0) 16)
  add32 in0 (asr (mul32 (sub32 in1 in0) frac1) 16)

/-- Source `fast_15_16_bilerp_prediff_delta`: as `fast_15_16_bilerp_prediff`, with
`*delta = ((uint32_t) in1 - in0) >> 31;` between the two stages.  Returns the sample and
the value written to `*delta`. -/
def fast_15_16_bilerp_prediff_delta (in0 in1 frac0 frac1 : Int) : Int × Int :=
  let in0 := add32 (and32 in0 0xFFFF) (asr (mul32 (asr in0 16) frac0) 16)
  let in1 := add32 (and32 in1 0xFFFF) (asr (mul32 (asr in1 16) frac0) 16)
  let delta := toI32 (lsr32 (toU32 in1 - toU32 in0) 31)
  (add32 in0 (asr (mul32 (sub32 in1 in0) frac1) 16), delta)

/-- Source `fast_15_16_bilerp_prediff_deltaValue`: as `fast_15_16_bilerp_prediff`, with
`*delta = in1 - in0;` between the two stages.  Returns the sample and the value written to
`*delta`. -/
def fast_15_16_bilerp_prediff_deltaValue (in0 in1 frac0 frac1 : Int) : Int × Int :=
  let in0 := add32 (and32 in0 0xFFFF) (asr (mul32 (asr in0 16) frac0) 16)
  let in1 := add32 (and32 in1 0xFFFF) (asr (mul32 (asr in1 16) frac0) 16)
  let delta := sub32 in1 in0
  (add32 in0 (asr (mul32 (sub32 in1 in0) frac1) 16), delta)

/-! ## Quintic spline wavetable evaluator (`BUILD_VIRTUAL`) -/

/-- Source line 754 of `getSampleQuinticSpline`, first coefficient group of the nested
quintic: `(sample3-sample1)*16 + (sample0-sample4)*2`. -/
def quinticC1 (sample0 sample1 sample3 sample4 : Int) : Int :=
  add32 (mul32 (sub32 sample3 sample1) 16) (mul32 (sub32 sample0 sample4) 2)

/-- Source line 755, second coefficient group:
`(sample3+sample1)*16 - sample0 - sample2*30 - sample4`. -/
def quinticC2 (sample0 sample1 sample2 sample3 sample4 : Int) : Int :=
  sub32 (sub32 (sub32 (mul32 (add32 sample3 sample1) 16) sample0) (mul32 sample2 30)) sample4

/-- Source line 756, third coefficient group:
`sample3*66 - sample2*70 - sample4*33 + sample1*39 + sample5*7 - sample0*9`. -/
def quinticC3 (sample0 sample1 sample2 sample3 sample4 sample5 : Int) : Int :=
  sub32 (add32 (add32 (sub32 (sub32 (mul32 sample3 66) (mul32 sample2 70))
    (mul32 sample4 33)) (mul32 sample1 39)) (mul32 sample5 7)) (mul32 sample0 9)

/-- Source line 757, fourth coefficient group:
`sample2*126 - sample3*124 + sample4*61 - sample1*64 - sample5*12 + sample0*13`. -/
def quinticC4 (sample0 sample1 sample2 sample3 sample4 sample5 : Int) : Int :=
  add32 (sub32 (sub32 (add32 (sub32 (mul32 sample2 126) (mul32 sample3 124))
    (mul32 sample4 61)) (mul32 sample1 64)) (mul32 sample5 12)) (mul32 sample0 13)

/-- Source line 758, fifth coefficient group:
`(sample3-sample2)*50 + (sample1-sample4)*25 + (sample5-sample0) * 5`. -/
def quinticC5 (sample0 sample1 sample2 sample3 sample4 sample5 : Int) : Int :=
  add32 (add32 (mul32 (sub32 sample3 sample2) 50) (mul32 (sub32 sample1 sample4) 25))
    (mul32 (sub32 sample5 sample0) 5)

/-- Source lines 754-764 of `getSampleQuinticSpline` (the same text at 818-828 of
`getSampleQuinticSplineDeltaValue`): the nested quintic
`sample2 + fix24_mul(699051, fix16_mul(phaseFrac, C1 + fix16_mul(phaseFrac, C2 + ...)))`,
every `+`, `-` and `*` on `int32_t`. -/
def quinticOut (sample0 sample1 sample2 sample3 sample4 sample5 phaseFrac : Int) : Int :=
  let g5 := quinticC5 sample0 sample1 sample2 sample3 sample4 sample5
  let g4 := add32 (quinticC4 sample0 sample1 sample2 sample3 sample4 sample5)
    (fix16_mul phaseFrac g5)
  let g3 := add32 (quinticC3 sample0 sample1 sample2 sample3 sample4 sample5)
    (fix16_mul phaseFrac g4)
  let g2 := add32 (quinticC2 sample0 sample1 sample2 sample3 sample4) (fix16_mul phaseFrac g3)
  let g1 := add32 (quinticC1 sample0 sample1 sample3 sample4) (fix16_mul phaseFrac g2)
  add32 sample2 (fix24_mul 699051 (fix16_mul phaseFrac g1))

/-- Source `getSampleQuinticSpline(phase, morph, fullTableHoldArray, delta)`.  The table is
a list of `uint32_t` words; a read outside it has no defined result and yields `none`.
Returns the sample and the value written to `*delta`. -/
def getSampleQuinticSpline (phase morph : Int) (fullTableHoldArray : List Int) :
    Option (Int × Int) := do
  let LnSample := lsr32 phase 16
  let LnFamily := lsr32 morph 16
  let leftIndex := (LnFamily * 517 + LnSample).toNat
  let phaseFrac := and32 0xFFFF phase
  let morphFrac := and32 morph 0xFFFF
  let sample0 := fast_15_16_lerp_prediff (toI32 (← fullTableHoldArray[leftIndex]?)) morphFrac
  let sample1 :=
    fast_15_16_lerp_prediff (toI32 (← fullTableHoldArray[leftIndex + 1]?)) morphFrac
  let sample2 :=
    fast_15_16_lerp_prediff (toI32 (← fullTableHoldArray[leftIndex + 2]?)) morphFrac
  let sample3 :=
    fast_15_16_lerp_prediff (toI32 (← fullTableHoldArray[leftIndex + 3]?)) morphFrac
  let sample4 :=
    fast_15_16_lerp_prediff (toI32 (← fullTableHoldArray[leftIndex + 4]?)) morphFrac
  let sample5 :=
    fast_15_16_lerp_prediff (toI32 (← fullTableHoldArray[leftIndex + 5]?)) morphFrac
  let out := quinticOut sample0 sample1 sample2 sample3 sample4 sample5 phaseFrac
  let delta := toI32 (lsr32 (sub32 sample3 sample2) 31)
  pure (__USAT out 15, delta)

/-- Source `getSampleQuinticSplineDeltaValue(phase, morph, fullTableHoldArray, delta,
interpOff)`: as `getSampleQuinticSpline`, with `out += (sample2 - out) * interpOff;`
(the product on `uint32_t`) and `*delta = (sample3 - sample2);`. -/
def getSampleQuinticSplineDeltaValue (phase morph : Int) (fullTableHoldArray : List Int)
    (interpOff : Int) : Option (Int × Int) := do
  let LnSample := lsr32 phase 16
  let LnFamily := lsr32 morph 16
  let leftIndex := (LnFamily * 517 + LnSample).toNat
  let phaseFrac := and32 0xFFFF phase
  let morphFrac := and32 morph 0xFFFF
  let sample0 := fast_15_16_lerp_prediff (toI32 (← fullTableHoldArray[leftIndex]?)) morphFrac
  let sample1 :=
    fast_15_16_lerp_prediff (toI32 (← fullTableHoldArray[leftIndex + 1]?)) morphFrac
  let sample2 :=
    fast_15_16_lerp_prediff (toI32 (← fullTableHoldArray[leftIndex + 2]?)) morphFrac
  let sample3 :=
    fast_15_16_lerp_prediff (toI32 (← fullTableHoldArray[leftIndex + 3]?)) morphFrac
  let sample4 :=
    fast_15_16_lerp_prediff (toI32 (← fullTableHoldArray[leftIndex + 4]?)) morphFrac
  let sample5 :=
    fast_15_16_lerp_prediff (toI32 (← fullTableHoldArray[leftIndex + 5]?)) morphFrac
  let out := quinticOut sample0 sample1 sample2 sample3 sample4 sample5 phaseFrac
  let out := toI32 (toU32 out + toU32 (toU32 (sub32 sample2 out) * toU32 interpOff))
  let delta := sub32 sample3 sample2
  pure (__USAT out 15, delta)

/-- Index of the left-most word read by the spline evaluator:
`LnFamily * 517 + LnSample` with `LnSample = phase >> 16` and `LnFamily = morph >> 16`. -/
def leftIndex (phase morph : Int) : Nat := (lsr32 morph 16 * 517 + lsr32 phase 16).toNat

/-- The `j`-th morphed sample of the spline evaluator,
`fast_15_16_lerp_prediff(*(leftIndex + j), morphFrac)`, for a read inside the table. -/
def morphedSample (phase morph : Int) (fullTableHoldArray : List Int) (j : Nat) : Int :=
  fast_15_16_lerp_prediff (toI32 (fullTableHoldArray.getD (leftIndex phase morph + j) 0))
    (and32 morph 0xFFFF)

/-! ## Fold and wrap (`BUILD_VIRTUAL`) -/

/-- Source `foldSignal16Bit`:
`((phaseIn >> 16) & 1) ? (65535 - (phaseIn & 0xFFFF)) : (phaseIn & 0xFFFF)`. -/
def foldSignal16Bit (phaseIn : Int) : Int :=
  if and32 (asr phaseIn 16) 1 ≠ 0 then
    sub32 65535 (and32 phaseIn 0xFFFF)
  else
    and32 phaseIn 0xFFFF

/-- Source `foldSignal25Bit` (`BUILD_VIRTUAL`):
`((phaseIn >> 25) & 1) ? (0x1FFFFFF - (phaseIn & 0x1FFFFFF)) : (phaseIn & 0x1FFFFFF)`. -/
def foldSignal25Bit (phaseIn : Int) : Int :=
  if and32 (asr phaseIn 25) 1 ≠ 0 then
    sub32 0x1FFFFFF (and32 phaseIn 0x1FFFFFF)
  else
    and32 phaseIn 0x1FFFFFF

/-- Source `wrapSignal16Bit`: `phaseIn & 0xFFFF`. -/
def wrapSignal16Bit (phaseIn : Int) : Int :=
  and32 phaseIn 0xFFFF

/-! ## Sine oscillator -/

/-- Source `class Sine`: the table pointer `tableRead` (a list of `int32_t` words; a read
outside it has no defined result), `freq`, the `uint32_t` accumulator `phase`, `pm` and
`lastPM`. -/
structure Sine where
  tableRead : List Int
  freq : Int
  phase : Int
  pm : Int
  lastPM : Int

/-- Source `Sine::updatePM`: `pm = pmInput - lastPM; lastPM = pmInput;`. -/
def Sine.updatePM (s : Sine) (pmInput : Int) : Sine :=
  { s with pm := sub32 pmInput s.lastPM, lastPM := pmInput }

/-- Source `Sine::evaluatePM`: `phase += freq + pm; index = phase >> 20;`
`frac = (phase >> 4) & 0xFFFF; return fast_15_16_lerp_prediff(tableRead[index], frac);`.
Returns the new state and the returned sample, `none` when the read is outside the table. -/
def Sine.evaluatePM (s : Sine) : Sine × Option Int :=
  let phase := toU32 (s.phase + toU32 (add32 s.freq s.pm))
  let index := toI32 (lsr32 phase 20)
  let frac := and32 (toI32 (lsr32 phase 4)) 0xFFFF
  ({ s with phase := phase },
    (s.tableRead[index.toNat]?).map (fun w => fast_15_16_lerp_prediff w frac))

/-- Source `Sine::evaluatePMFM`: as `evaluatePM` with `phase += fix16_mul(freq, fm) + pm;`. -/
def Sine.evaluatePMFM (s : Sine) (fm : Int) : Sine × Option Int :=
  let phase := toU32 (s.phase + toU32 (add32 (fix16_mul s.freq fm) s.pm))
  let index := toI32 (lsr32 phase 20)
  let frac := and32 (toI32 (lsr32 phase 4)) 0xFFFF
  ({ s with phase := phase },
    (s.tableRead[index.toNat]?).map (fun w => fast_15_16_lerp_prediff w frac))

/-- Source `Sine::evaluateSineBeat`: `phase = newIndex * freq; index = phase >> 20;`
`frac = (phase >> 4) & 0xFFFF; return fast_15_16_lerp_prediff(tableRead[index], frac) >> 7;`. -/
def Sine.evaluateSineBeat (s : Sine) (newIndex : Int) : Sine × Option Int :=
  let phase := toU32 (mul32 newIndex s.freq)
  let index := toI32 (lsr32 phase 20)
  let frac := and32 (toI32 (lsr32 phase 4)) 0xFFFF
  ({ s with phase := phase },
    (s.tableRead[index.toNat]?).map (fun w => asr (fast_15_16_lerp_prediff w frac) 7))

/-! ## Flash sine table (`Sine::big_sine`) -/

/-- Entries 0 to 255 of the source initialiser of `big_sine`. -/
def big_sine_0 : List Int := [
  16383, 16408, 16433, 16458, 16484, 16509, 16534, 16559, 16584, 16609, 16634, 16659, 16685,
  16710, 16735, 16760, 16785, 16810, 16835, 16860, 16886, 16911, 16936, 16961, 16986, 17011,
  17036, 17061, 17086, 17112, 17137, 17162, 17187, 17212, 17237, 17262, 17287, 17312, 17337,
  17363, 17388, 17413, 17438, 17463, 17488, 17513, 17538, 17563, 17588, 17613, 17638, 17663,
  17688, 17714, 17739, 17764, 17789, 17814, 17839, 17864, 17889, 17914, 17939, 17964, 17989,
  18014, 18039, 18064, 18089, 18114, 18139, 18164, 18189, 18214, 18239, 18264, 18289, 18314,
  18339, 18364, 18389, 18413, 18438, 18463, 18488, 18513, 18538, 18563, 18588, 18613, 18638,
  18663, 18687, 18712, 18737, 18762, 18787, 18812, 18837, 18862, 18886, 18911, 18936, 18961,
  18986, 19010, 19035, 19060, 19085, 19110, 19134, 19159, 19184, 19209, 19233, 19258, 19283,
  19308, 19332, 19357, 19382, 19407, 19431, 19456, 19481, 19505, 19530, 19555, 19579, 19604,
  19629, 19653, 19678, 19702, 19727, 19752, 19776, 19801, 19825, 19850, 19874, 19899, 19924,
  19948, 19973, 19997, 20022, 20046, 20071, 20095, 20120, 20144, 20169, 20193, 20217, 20242,
  20266, 20291, 20315, 20339, 20364, 20388, 20413, 20437, 20461, 20486, 20510, 20534, 20559,
  20583, 20607, 20631, 20656, 20680, 20704, 20728, 20753, 20777, 20801, 20825, 20849, 20874,
  20898, 20922, 20946, 20970, 20994, 21018, 21043, 21067, 21091, 21115, 21139, 21163, 21187,
  21211, 21235, 21259, 21283, 21307, 21331, 21355, 21379, 21403, 21427, 21451, 21474, 21498,
  21522, 21546, 21570, 21594, 21618, 21641, 21665, 21689, 21713, 21736, 21760, 21784, 21808,
  21831, 21855, 21879, 21902, 21926, 21950, 21973, 21997, 22021, 22044, 22068, 22091, 22115,
  22138, 22162, 22185, 22209, 22232, 22256, 22279, 22303, 22326, 22350, 22373, 22396, 22420,
  22443, 22466, 22490, 22513, 22536, 22560, 22583, 22606, 22629]

/-- Entries 256 to 511 of the source initialiser of `big_sine`. -/
def big_sine_1 : List Int := [
  22653, 22676, 22699, 22722, 22745, 22769, 22792, 22815, 22838, 22861, 22884, 22907, 22930,
  22953, 22976, 22999, 23022, 23045, 23068, 23091, 23114, 23137, 23160, 23183, 23206, 23228,
  23251, 23274, 23297, 23320, 23342, 23365, 23388, 23411, 23433, 23456, 23479, 23501, 23524,
  23546, 23569, 23592, 23614, 23637, 23659, 23682, 23704, 23727, 23749, 23772, 23794, 23816,
  23839, 23861, 23884, 23906, 23928, 23951, 23973, 23995, 24017, 24040, 24062, 24084, 24106,
  24128, 24150, 24173, 24195, 24217, 24239, 24261, 24283, 24305, 24327, 24349, 24371, 24393,
  24415, 24437, 24458, 24480, 24502, 24524, 24546, 24567, 24589, 24611, 24633, 24654, 24676,
  24698, 24719, 24741, 24763, 24784, 24806, 24827, 24849, 24870, 24892, 24913, 24935, 24956,
  24978, 24999, 25020, 25042, 25063, 25084, 25106, 25127, 25148, 25169, 25191, 25212, 25233,
  25254, 25275, 25296, 25317, 25338, 25359, 25380, 25401, 25422, 25443, 25464, 25485, 25506,
  25527, 25548, 25569, 25589, 25610, 25631, 25652, 25672, 25693, 25714, 25734, 25755, 25776,
  25796, 25817, 25837, 25858, 25878, 25899, 25919, 25940, 25960, 25980, 26001, 26021, 26041,
  26062, 26082, 26102, 26122, 26143, 26163, 26183, 26203, 26223, 26243, 26263, 26283, 26303,
  26323, 26343, 26363, 26383, 26403, 26423, 26443, 26463, 26482, 26502, 26522, 26542, 26561,
  26581, 26601, 26620, 26640, 26660, 26679, 26699, 26718, 26738, 26757, 26777, 26796, 26815,
  26835, 26854, 26873, 26893, 26912, 26931, 26950, 26970, 26989, 27008, 27027, 27046, 27065,
  27084, 27103, 27122, 27141, 27160, 27179, 27198, 27217, 27236, 27255, 27273, 27292, 27311,
  27330, 27348, 27367, 27385, 27404, 27423, 27441, 27460, 27478, 27497, 27515, 27534, 27552,
  27570, 27589, 27607, 27625, 27644, 27662, 27680, 27698, 27716, 27735, 27753, 27771, 27789,
  27807, 27825, 27843, 27861, 27879, 27897, 27914, 27932, 27950]

/-- Entries 512 to 767 of the source initialiser of `big_sine`. -/
def big_sine_2 : List Int := [
  27968, 27986, 28003, 28021, 28039, 28056, 28074, 28092, 28109, 28127, 28144, 28162, 28179,
  28197, 28214, 28231, 28249, 28266, 28283, 28301, 28318, 28335, 28352, 28369, 28386, 28404,
  28421, 28438, 28455, 28472, 28489, 28505, 28522, 28539, 28556, 28573, 28590, 28606, 28623,
  28640, 28656, 28673, 28690, 28706, 28723, 28739, 28756, 28772, 28789, 28805, 28822, 28838,
  28854, 28870, 28887, 28903, 28919, 28935, 28951, 28968, 28984, 29000, 29016, 29032, 29048,
  29064, 29079, 29095, 29111, 29127, 29143, 29158, 29174, 29190, 29206, 29221, 29237, 29252,
  29268, 29283, 29299, 29314, 29330, 29345, 29360, 29376, 29391, 29406, 29422, 29437, 29452,
  29467, 29482, 29497, 29512, 29527, 29542, 29557, 29572, 29587, 29602, 29617, 29632, 29646,
  29661, 29676, 29691, 29705, 29720, 29734, 29749, 29763, 29778, 29792, 29807, 29821, 29836,
  29850, 29864, 29878, 29893, 29907, 29921, 29935, 29949, 29963, 29977, 29991, 30005, 30019,
  30033, 30047, 30061, 30075, 30089, 30102, 30116, 30130, 30143, 30157, 30171, 30184, 30198,
  30211, 30225, 30238, 30251, 30265, 30278, 30291, 30305, 30318, 30331, 30344, 30357, 30371,
  30384, 30397, 30410, 30423, 30436, 30449, 30461, 30474, 30487, 30500, 30513, 30525, 30538,
  30551, 30563, 30576, 30588, 30601, 30613, 30626, 30638, 30650, 30663, 30675, 30687, 30700,
  30712, 30724, 30736, 30748, 30760, 30772, 30784, 30796, 30808, 30820, 30832, 30844, 30856,
  30867, 30879, 30891, 30902, 30914, 30926, 30937, 30949, 30960, 30972, 30983, 30994, 31006,
  31017, 31028, 31040, 31051, 31062, 31073, 31084, 31095, 31106, 31117, 31128, 31139, 31150,
  31161, 31172, 31183, 31194, 31204, 31215, 31226, 31236, 31247, 31257, 31268, 31278, 31289,
  31299, 31310, 31320, 31330, 31341, 31351, 31361, 31371, 31381, 31391, 31401, 31411, 31421,
  31431, 31441, 31451, 31461, 31471, 31481, 31490, 31500, 31510]

/-- Entries 768 to 1023 of the source initialiser of `big_sine`. -/
def big_sine_3 : List Int := [
  31519, 31529, 31539, 31548, 31558, 31567, 31576, 31586, 31595, 31604, 31614, 31623, 31632,
  31641, 31651, 31660, 31669, 31678, 31687, 31696, 31705, 31713, 31722, 31731, 31740, 31749,
  31757, 31766, 31775, 31783, 31792, 31800, 31809, 31817, 31826, 31834, 31842, 31851, 31859,
  31867, 31875, 31884, 31892, 31900, 31908, 31916, 31924, 31932, 31940, 31947, 31955, 31963,
  31971, 31979, 31986, 31994, 32001, 32009, 32017, 32024, 32032, 32039, 32046, 32054, 32061,
  32068, 32076, 32083, 32090, 32097, 32104, 32111, 32118, 32125, 32132, 32139, 32146, 32153,
  32160, 32166, 32173, 32180, 32186, 32193, 32200, 32206, 32213, 32219, 32225, 32232, 32238,
  32245, 32251, 32257, 32263, 32269, 32276, 32282, 32288, 32294, 32300, 32306, 32311, 32317,
  32323, 32329, 32335, 32340, 32346, 32352, 32357, 32363, 32368, 32374, 32379, 32385, 32390,
  32395, 32401, 32406, 32411, 32416, 32422, 32427, 32432, 32437, 32442, 32447, 32452, 32457,
  32461, 32466, 32471, 32476, 32480, 32485, 32490, 32494, 32499, 32503, 32508, 32512, 32517,
  32521, 32525, 32530, 32534, 32538, 32542, 32546, 32550, 32554, 32558, 32562, 32566, 32570,
  32574, 32578, 32582, 32585, 32589, 32593, 32596, 32600, 32604, 32607, 32611, 32614, 32617,
  32621, 32624, 32627, 32631, 32634, 32637, 32640, 32643, 32646, 32649, 32652, 32655, 32658,
  32661, 32664, 32667, 32669, 32672, 32675, 32677, 32680, 32683, 32685, 32688, 32690, 32692,
  32695, 32697, 32699, 32702, 32704, 32706, 32708, 32710, 32712, 32714, 32716, 32718, 32720,
  32722, 32724, 32726, 32727, 32729, 32731, 32733, 32734, 32736, 32737, 32739, 32740, 32742,
  32743, 32744, 32746, 32747, 32748, 32749, 32750, 32751, 32752, 32753, 32754, 32755, 32756,
  32757, 32758, 32759, 32760, 32760, 32761, 32762, 32762, 32763, 32763, 32764, 32764, 32765,
  32765, 32765, 32766, 32766, 32766, 32766, 32766, 32766, 32766]

/-- Entries 1024 to 1279 of the source initialiser of `big_sine`. -/
def big_sine_4 : List Int := [
  32767, 32766, 32766, 32766, 32766, 32766, 32766, 32766, 32765, 32765, 32765, 32764, 32764,
  32763, 32763, 32762, 32762, 32761, 32760, 32760, 32759, 32758, 32757, 32756, 32755, 32754,
  32753, 32752, 32751, 32750, 32749, 32748, 32747, 32746, 32744, 32743, 32742, 32740, 32739,
  32737, 32736, 32734, 32733, 32731, 32729, 32727, 32726, 32724, 32722, 32720, 32718, 32716,
  32714, 32712, 32710, 32708, 32706, 32704, 32702, 32699, 32697, 32695, 32692, 32690, 32688,
  32685, 32683, 32680, 32677, 32675, 32672, 32669, 32667, 32664, 32661, 32658, 32655, 32652,
  32649, 32646, 32643, 32640, 32637, 32634, 32631, 32627, 32624, 32621, 32617, 32614, 32611,
  32607, 32604, 32600, 32596, 32593, 32589, 32585, 32582, 32578, 32574, 32570, 32566, 32562,
  32558, 32554, 32550, 32546, 32542, 32538, 32534, 32530, 32525, 32521, 32517, 32512, 32508,
  32503, 32499, 32494, 32490, 32485, 32480, 32476, 32471, 32466, 32461, 32457, 32452, 32447,
  32442, 32437, 32432, 32427, 32422, 32416, 32411, 32406, 32401, 32395, 32390, 32385, 32379,
  32374, 32368, 32363, 32357, 32352, 32346, 32340, 32335, 32329, 32323, 32317, 32311, 32306,
  32300, 32294, 32288, 32282, 32276, 32269, 32263, 32257, 32251, 32245, 32238, 32232, 32225,
  32219, 32213, 32206, 32200, 32193, 32186, 32180, 32173, 32166, 32160, 32153, 32146, 32139,
  32132, 32125, 32118, 32111, 32104, 32097, 32090, 32083, 32076, 32068, 32061, 32054, 32046,
  32039, 32032, 32024, 32017, 32009, 32001, 31994, 31986, 31979, 31971, 31963, 31955, 31947,
  31940, 31932, 31924, 31916, 31908, 31900, 31892, 31884, 31875, 31867, 31859, 31851, 31842,
  31834, 31826, 31817, 31809, 31800, 31792, 31783, 31775, 31766, 31757, 31749, 31740, 31731,
  31722, 31713, 31705, 31696, 31687, 31678, 31669, 31660, 31651, 31641, 31632, 31623, 31614,
  31604, 31595, 31586, 31576, 31567, 31558, 31548, 31539, 31529]

/-- Entries 1280 to 1535 of the source initialiser of `big_sine`. -/
def big_sine_5 : List Int := [
  31519, 31510, 31500, 31490, 31481, 31471, 31461, 31451, 31441, 31431, 31421, 31411, 31401,
  31391, 31381, 31371, 31361, 31351, 31341, 31330, 31320, 31310, 31299, 31289, 31278, 31268,
  31257, 31247, 31236, 31226, 31215, 31204, 31194, 31183, 31172, 31161, 31150, 31139, 31128,
  31117, 31106, 31095, 31084, 31073, 31062, 31051, 31040, 31028, 31017, 31006, 30994, 30983,
  30972, 30960, 30949, 30937, 30926, 30914, 30902, 30891, 30879, 30867, 30856, 30844, 30832,
  30820, 30808, 30796, 30784, 30772, 30760, 30748, 30736, 30724, 30712, 30700, 30687, 30675,
  30663, 30650, 30638, 30626, 30613, 30601, 30588, 30576, 30563, 30551, 30538, 30525, 30513,
  30500, 30487, 30474, 30461, 30449, 30436, 30423, 30410, 30397, 30384, 30371, 30357, 30344,
  30331, 30318, 30305, 30291, 30278, 30265, 30251, 30238, 30225, 30211, 30198, 30184, 30171,
  30157, 30143, 30130, 30116, 30102, 30089, 30075, 30061, 30047, 30033, 30019, 30005, 29991,
  29977, 29963, 29949, 29935, 29921, 29907, 29893, 29878, 29864, 29850, 29836, 29821, 29807,
  29792, 29778, 29763, 29749, 29734, 29720, 29705, 29691, 29676, 29661, 29646, 29632, 29617,
  29602, 29587, 29572, 29557, 29542, 29527, 29512, 29497, 29482, 29467, 29452, 29437, 29422,
  29406, 29391, 29376, 29360, 29345, 29330, 29314, 29299, 29283, 29268, 29252, 29237, 29221,
  29206, 29190, 29174, 29158, 29143, 29127, 29111, 29095, 29079, 29064, 29048, 29032, 29016,
  29000, 28984, 28968, 28951, 28935, 28919, 28903, 28887, 28870, 28854, 28838, 28822, 28805,
  28789, 28772, 28756, 28739, 28723, 28706, 28690, 28673, 28656, 28640, 28623, 28606, 28590,
  28573, 28556, 28539, 28522, 28505, 28489, 28472, 28455, 28438, 28421, 28404, 28386, 28369,
  28352, 28335, 28318, 28301, 28283, 28266, 28249, 28231, 28214, 28197, 28179, 28162, 28144,
  28127, 28109, 28092, 28074, 28056, 28039, 28021, 28003, 27986]

/-- Entries 1536 to 1791 of the source initialiser of `big_sine`. -/
def big_sine_6 : List Int := [
  27968, 27950, 27932, 27914, 27897, 27879, 27861, 27843, 27825, 27807, 27789, 27771, 27753,
  27735, 27716, 27698, 27680, 27662, 27644, 27625, 27607, 27589, 27570, 27552, 27534, 27515,
  27497, 27478, 27460, 27441, 27423, 27404, 27385, 27367, 27348, 27330, 27311, 27292, 27273,
  27255, 27236, 27217, 27198, 27179, 27160, 27141, 27122, 27103, 27084, 27065, 27046, 27027,
  27008, 26989, 26970, 26950, 26931, 26912, 26893, 26873, 26854, 26835, 26815, 26796, 26777,
  26757, 26738, 26718, 26699, 26679, 26660, 26640, 26620, 26601, 26581, 26561, 26542, 26522,
  26502, 26482, 26463, 26443, 26423, 26403, 26383, 26363, 26343, 26323, 26303, 26283, 26263,
  26243, 26223, 26203, 26183, 26163, 26143, 26122, 26102, 26082, 26062, 26041, 26021, 26001,
  25980, 25960, 25940, 25919, 25899, 25878, 25858, 25837, 25817, 25796, 25776, 25755, 25734,
  25714, 25693, 25672, 25652, 25631, 25610, 25589, 25569, 25548, 25527, 25506, 25485, 25464,
  25443, 25422, 25401, 25380, 25359, 25338, 25317, 25296, 25275, 25254, 25233, 25212, 25191,
  25169, 25148, 25127, 25106, 25084, 25063, 25042, 25020, 24999, 24978, 24956, 24935, 24913,
  24892, 24870, 24849, 24827, 24806, 24784, 24763, 24741, 24719, 24698, 24676, 24654, 24633,
  24611, 24589, 24567, 24546, 24524, 24502, 24480, 24458, 24437, 24415, 24393, 24371, 24349,
  24327, 24305, 24283, 24261, 24239, 24217, 24195, 24173, 24150, 24128, 24106, 24084, 24062,
  24040, 24017, 23995, 23973, 23951, 23928, 23906, 23884, 23861, 23839, 23816, 23794, 23772,
  23749, 23727, 23704, 23682, 23659, 23637, 23614, 23592, 23569, 23546, 23524, 23501, 23479,
  23456, 23433, 23411, 23388, 23365, 23342, 23320, 23297, 23274, 23251, 23228, 23206, 23183,
  23160, 23137, 23114, 23091, 23068, 23045, 23022, 22999, 22976, 22953, 22930, 22907, 22884,
  22861, 22838, 22815, 22792, 22769, 22745, 22722, 22699, 22676]

/-- Entries 1792 to 2047 of the source initialiser of `big_sine`. -/
def big_sine_7 : List Int := [
  22653, 22629, 22606, 22583, 22560, 22536, 22513, 22490, 22466, 22443, 22420, 22396, 22373,
  22350, 22326, 22303, 22279, 22256, 22232, 22209, 22185, 22162, 22138, 22115, 22091, 22068,
  22044, 22021, 21997, 21973, 21950, 21926, 21902, 21879, 21855, 21831, 21808, 21784, 21760,
  21736, 21713, 21689, 21665, 21641, 21618, 21594, 21570, 21546, 21522, 21498, 21474, 21451,
  21427, 21403, 21379, 21355, 21331, 21307, 21283, 21259, 21235, 21211, 21187, 21163, 21139,
  21115, 21091, 21067, 21043, 21018, 20994, 20970, 20946, 20922, 20898, 20874, 20849, 20825,
  20801, 20777, 20753, 20728, 20704, 20680, 20656, 20631, 20607, 20583, 20559, 20534, 20510,
  20486, 20461, 20437, 20413, 20388, 20364, 20339, 20315, 20291, 20266, 20242, 20217, 20193,
  20169, 20144, 20120, 20095, 20071, 20046, 20022, 19997, 19973, 19948, 19924, 19899, 19874,
  19850, 19825, 19801, 19776, 19752, 19727, 19702, 19678, 19653, 19629, 19604, 19579, 19555,
  19530, 19505, 19481, 19456, 19431, 19407, 19382, 19357, 19332, 19308, 19283, 19258, 19233,
  19209, 19184, 19159, 19134, 19110, 19085, 19060, 19035, 19010, 18986, 18961, 18936, 18911,
  18886, 18862, 18837, 18812, 18787, 18762, 18737, 18712, 18687, 18663, 18638, 18613, 18588,
  18563, 18538, 18513, 18488, 18463, 18438, 18413, 18389, 18364, 18339, 18314, 18289, 18264,
  18239, 18214, 18189, 18164, 18139, 18114, 18089, 18064, 18039, 18014, 17989, 17964, 17939,
  17914, 17889, 17864, 17839, 17814, 17789, 17764, 17739, 17714, 17688, 17663, 17638, 17613,
  17588, 17563, 17538, 17513, 17488, 17463, 17438, 17413, 17388, 17363, 17337, 17312, 17287,
  17262, 17237, 17212, 17187, 17162, 17137, 17112, 17086, 17061, 17036, 17011, 16986, 16961,
  16936, 16911, 16886, 16860, 16835, 16810, 16785, 16760, 16735, 16710, 16685, 16659, 16634,
  16609, 16584, 16559, 16534, 16509, 16484, 16458, 16433, 16408]

/-- Entries 2048 to 2303 of the source initialiser of `big_sine`. -/
def big_sine_8 : List Int := [
  16383, 16358, 16333, 16308, 16282, 16257, 16232, 16207, 16182, 16157, 16132, 16107, 16081,
  16056, 16031, 16006, 15981, 15956, 15931, 15906, 15880, 15855, 15830, 15805, 15780, 15755,
  15730, 15705, 15680, 15654, 15629, 15604, 15579, 15554, 15529, 15504, 15479, 15454, 15429,
  15403, 15378, 15353, 15328, 15303, 15278, 15253, 15228, 15203, 15178, 15153, 15128, 15103,
  15078, 15052, 15027, 15002, 14977, 14952, 14927, 14902, 14877, 14852, 14827, 14802, 14777,
  14752, 14727, 14702, 14677, 14652, 14627, 14602, 14577, 14552, 14527, 14502, 14477, 14452,
  14427, 14402, 14377, 14353, 14328, 14303, 14278, 14253, 14228, 14203, 14178, 14153, 14128,
  14103, 14079, 14054, 14029, 14004, 13979, 13954, 13929, 13904, 13880, 13855, 13830, 13805,
  13780, 13756, 13731, 13706, 13681, 13656, 13632, 13607, 13582, 13557, 13533, 13508, 13483,
  13458, 13434, 13409, 13384, 13359, 13335, 13310, 13285, 13261, 13236, 13211, 13187, 13162,
  13137, 13113, 13088, 13064, 13039, 13014, 12990, 12965, 12941, 12916, 12892, 12867, 12842,
  12818, 12793, 12769, 12744, 12720, 12695, 12671, 12646, 12622, 12597, 12573, 12549, 12524,
  12500, 12475, 12451, 12427, 12402, 12378, 12353, 12329, 12305, 12280, 12256, 12232, 12207,
  12183, 12159, 12135, 12110, 12086, 12062, 12038, 12013, 11989, 11965, 11941, 11917, 11892,
  11868, 11844, 11820, 11796, 11772, 11748, 11723, 11699, 11675, 11651, 11627, 11603, 11579,
  11555, 11531, 11507, 11483, 11459, 11435, 11411, 11387, 11363, 11339, 11315, 11292, 11268,
  11244, 11220, 11196, 11172, 11148, 11125, 11101, 11077, 11053, 11030, 11006, 10982, 10958,
  10935, 10911, 10887, 10864, 10840, 10816, 10793, 10769, 10745, 10722, 10698, 10675, 10651,
  10628, 10604, 10581, 10557, 10534, 10510, 10487, 10463, 10440, 10416, 10393, 10370, 10346,
  10323, 10300, 10276, 10253, 10230, 10206, 10183, 10160, 10137]

/-- Entries 2304 to 2559 of the source initialiser of `big_sine`. -/
def big_sine_9 : List Int := [
  10113, 10090, 10067, 10044, 10021, 9997, 9974, 9951, 9928, 9905, 9882, 9859, 9836, 9813, 9790,
  9767, 9744, 9721, 9698, 9675, 9652, 9629, 9606, 9583, 9560, 9538, 9515, 9492, 9469, 9446,
  9424, 9401, 9378, 9355, 9333, 9310, 9287, 9265, 9242, 9220, 9197, 9174, 9152, 9129, 9107,
  9084, 9062, 9039, 9017, 8994, 8972, 8950, 8927, 8905, 8882, 8860, 8838, 8815, 8793, 8771,
  8749, 8726, 8704, 8682, 8660, 8638, 8616, 8593, 8571, 8549, 8527, 8505, 8483, 8461, 8439,
  8417, 8395, 8373, 8351, 8329, 8308, 8286, 8264, 8242, 8220, 8199, 8177, 8155, 8133, 8112,
  8090, 8068, 8047, 8025, 8003, 7982, 7960, 7939, 7917, 7896, 7874, 7853, 7831, 7810, 7788,
  7767, 7746, 7724, 7703, 7682, 7660, 7639, 7618, 7597, 7575, 7554, 7533, 7512, 7491, 7470,
  7449, 7428, 7407, 7386, 7365, 7344, 7323, 7302, 7281, 7260, 7239, 7218, 7197, 7177, 7156,
  7135, 7114, 7094, 7073, 7052, 7032, 7011, 6990, 6970, 6949, 6929, 6908, 6888, 6867, 6847,
  6826, 6806, 6786, 6765, 6745, 6725, 6704, 6684, 6664, 6644, 6623, 6603, 6583, 6563, 6543,
  6523, 6503, 6483, 6463, 6443, 6423, 6403, 6383, 6363, 6343, 6323, 6303, 6284, 6264, 6244,
  6224, 6205, 6185, 6165, 6146, 6126, 6106, 6087, 6067, 6048, 6028, 6009, 5989, 5970, 5951,
  5931, 5912, 5893, 5873, 5854, 5835, 5816, 5796, 5777, 5758, 5739, 5720, 5701, 5682, 5663,
  5644, 5625, 5606, 5587, 5568, 5549, 5530, 5511, 5493, 5474, 5455, 5436, 5418, 5399, 5381,
  5362, 5343, 5325, 5306, 5288, 5269, 5251, 5232, 5214, 5196, 5177, 5159, 5141, 5122, 5104,
  5086, 5068, 5050, 5031, 5013, 4995, 4977, 4959, 4941, 4923, 4905, 4887, 4869, 4852, 4834, 4816]

/-- Entries 2560 to 2815 of the source initialiser of `big_sine`. -/
def big_sine_10 : List Int := [
  4798, 4780, 4763, 4745, 4727, 4710, 4692, 4674, 4657, 4639, 4622, 4604, 4587, 4569, 4552,
  4535, 4517, 4500, 4483, 4465, 4448, 4431, 4414, 4397, 4380, 4362, 4345, 4328, 4311, 4294,
  4277, 4261, 4244, 4227, 4210, 4193, 4176, 4160, 4143, 4126, 4110, 4093, 4076, 4060, 4043,
  4027, 4010, 3994, 3977, 3961, 3944, 3928, 3912, 3896, 3879, 3863, 3847, 3831, 3815, 3798,
  3782, 3766, 3750, 3734, 3718, 3702, 3687, 3671, 3655, 3639, 3623, 3608, 3592, 3576, 3560,
  3545, 3529, 3514, 3498, 3483, 3467, 3452, 3436, 3421, 3406, 3390, 3375, 3360, 3344, 3329,
  3314, 3299, 3284, 3269, 3254, 3239, 3224, 3209, 3194, 3179, 3164, 3149, 3134, 3120, 3105,
  3090, 3075, 3061, 3046, 3032, 3017, 3003, 2988, 2974, 2959, 2945, 2930, 2916, 2902, 2888,
  2873, 2859, 2845, 2831, 2817, 2803, 2789, 2775, 2761, 2747, 2733, 2719, 2705, 2691, 2677,
  2664, 2650, 2636, 2623, 2609, 2595, 2582, 2568, 2555, 2541, 2528, 2515, 2501, 2488, 2475,
  2461, 2448, 2435, 2422, 2409, 2395, 2382, 2369, 2356, 2343, 2330, 2317, 2305, 2292, 2279,
  2266, 2253, 2241, 2228, 2215, 2203, 2190, 2178, 2165, 2153, 2140, 2128, 2116, 2103, 2091,
  2079, 2066, 2054, 2042, 2030, 2018, 2006, 1994, 1982, 1970, 1958, 1946, 1934, 1922, 1910,
  1899, 1887, 1875, 1864, 1852, 1840, 1829, 1817, 1806, 1794, 1783, 1772, 1760, 1749, 1738,
  1726, 1715, 1704, 1693, 1682, 1671, 1660, 1649, 1638, 1627, 1616, 1605, 1594, 1583, 1572,
  1562, 1551, 1540, 1530, 1519, 1509, 1498, 1488, 1477, 1467, 1456, 1446, 1436, 1425, 1415,
  1405, 1395, 1385, 1375, 1365, 1355, 1345, 1335, 1325, 1315, 1305, 1295, 1285, 1276, 1266, 1256]

/-- Entries 2816 to 3071 of the source initialiser of `big_sine`. -/
def big_sine_11 : List Int := [
  1247, 1237, 1227, 1218, 1208, 1199, 1190, 1180, 1171, 1162, 1152, 1143, 1134, 1125, 1115,
  1106, 1097, 1088, 1079, 1070, 1061, 1053, 1044, 1035, 1026, 1017, 1009, 1000, 991, 983, 974,
  966, 957, 949, 940, 932, 924, 915, 907, 899, 891, 882, 874, 866, 858, 850, 842, 834, 826, 819,
  811, 803, 795, 787, 780, 772, 765, 757, 749, 742, 734, 727, 720, 712, 705, 698, 690, 683, 676,
  669, 662, 655, 648, 641, 634, 627, 620, 613, 606, 600, 593, 586, 580, 573, 566, 560, 553, 547,
  541, 534, 528, 521, 515, 509, 503, 497, 490, 484, 478, 472, 466, 460, 455, 449, 443, 437, 431,
  426, 420, 414, 409, 403, 398, 392, 387, 381, 376, 371, 365, 360, 355, 350, 344, 339, 334, 329,
  324, 319, 314, 309, 305, 300, 295, 290, 286, 281, 276, 272, 267, 263, 258, 254, 249, 245, 241,
  236, 232, 228, 224, 220, 216, 212, 208, 204, 200, 196, 192, 188, 184, 181, 177, 173, 170, 166,
  162, 159, 155, 152, 149, 145, 142, 139, 135, 132, 129, 126, 123, 120, 117, 114, 111, 108, 105,
  102, 99, 97, 94, 91, 89, 86, 83, 81, 78, 76, 74, 71, 69, 67, 64, 62, 60, 58, 56, 54, 52, 50,
  48, 46, 44, 42, 40, 39, 37, 35, 33, 32, 30, 29, 27, 26, 24, 23, 22, 20, 19, 18, 17, 16, 15,
  14, 13, 12, 11, 10, 9, 8, 7, 6, 6, 5, 4, 4, 3, 3, 2, 2, 1, 1, 1, 0, 0, 0, 0, 0, 0, 0]

/-- Entries 3072 to 3327 of the source initialiser of `big_sine`. -/
def big_sine_12 : List Int := [
  0, 0, 0, 0, 0, 0, 0, 0, 1, 1, 1, 2, 2, 3, 3, 4, 4, 5, 6, 6, 7, 8, 9, 10, 11, 12, 13, 14, 15,
  16, 17, 18, 19, 20, 22, 23, 24, 26, 27, 29, 30, 32, 33, 35, 37, 39, 40, 42, 44, 46, 48, 50,
  52, 54, 56, 58, 60, 62, 64, 67, 69, 71, 74, 76, 78, 81, 83, 86, 89, 91, 94, 97, 99, 102, 105,
  108, 111, 114, 117, 120, 123, 126, 129, 132, 135, 139, 142, 145, 149, 152, 155, 159, 162, 166,
  170, 173, 177, 181, 184, 188, 192, 196, 200, 204, 208, 212, 216, 220, 224, 228, 232, 236, 241,
  245, 249, 254, 258, 263, 267, 272, 276, 281, 286, 290, 295, 300, 305, 309, 314, 319, 324, 329,
  334, 339, 344, 350, 355, 360, 365, 371, 376, 381, 387, 392, 398, 403, 409, 414, 420, 426, 431,
  437, 443, 449, 455, 460, 466, 472, 478, 484, 490, 497, 503, 509, 515, 521, 528, 534, 541, 547,
  553, 560, 566, 573, 580, 586, 593, 600, 606, 613, 620, 627, 634, 641, 648, 655, 662, 669, 676,
  683, 690, 698, 705, 712, 720, 727, 734, 742, 749, 757, 765, 772, 780, 787, 795, 803, 811, 819,
  826, 834, 842, 850, 858, 866, 874, 882, 891, 899, 907, 915, 924, 932, 940, 949, 957, 966, 974,
  983, 991, 1000, 1009, 1017, 1026, 1035, 1044, 1053, 1061, 1070, 1079, 1088, 1097, 1106, 1115,
  1125, 1134, 1143, 1152, 1162, 1171, 1180, 1190, 1199, 1208, 1218, 1227, 1237]

/-- Entries 3328 to 3583 of the source initialiser of `big_sine`. -/
def big_sine_13 : List Int := [
  1247, 1256, 1266, 1276, 1285, 1295, 1305, 1315, 1325, 1335, 1345, 1355, 1365, 1375, 1385,
  1395, 1405, 1415, 1425, 1436, 1446, 1456, 1467, 1477, 1488, 1498, 1509, 1519, 1530, 1540,
  1551, 1562, 1572, 1583, 1594, 1605, 1616, 1627, 1638, 1649, 1660, 1671, 1682, 1693, 1704,
  1715, 1726, 1738, 1749, 1760, 1772, 1783, 1794, 1806, 1817, 1829, 1840, 1852, 1864, 1875,
  1887, 1899, 1910, 1922, 1934, 1946, 1958, 1970, 1982, 1994, 2006, 2018, 2030, 2042, 2054,
  2066, 2079, 2091, 2103, 2116, 2128, 2140, 2153, 2165, 2178, 2190, 2203, 2215, 2228, 2241,
  2253, 2266, 2279, 2292, 2305, 2317, 2330, 2343, 2356, 2369, 2382, 2395, 2409, 2422, 2435,
  2448, 2461, 2475, 2488, 2501, 2515, 2528, 2541, 2555, 2568, 2582, 2595, 2609, 2623, 2636,
  2650, 2664, 2677, 2691, 2705, 2719, 2733, 2747, 2761, 2775, 2789, 2803, 2817, 2831, 2845,
  2859, 2873, 2888, 2902, 2916, 2930, 2945, 2959, 2974, 2988, 3003, 3017, 3032, 3046, 3061,
  3075, 3090, 3105, 3120, 3134, 3149, 3164, 3179, 3194, 3209, 3224, 3239, 3254, 3269, 3284,
  3299, 3314, 3329, 3344, 3360, 3375, 3390, 3406, 3421, 3436, 3452, 3467, 3483, 3498, 3514,
  3529, 3545, 3560, 3576, 3592, 3608, 3623, 3639, 3655, 3671, 3687, 3702, 3718, 3734, 3750,
  3766, 3782, 3798, 3815, 3831, 3847, 3863, 3879, 3896, 3912, 3928, 3944, 3961, 3977, 3994,
  4010, 4027, 4043, 4060, 4076, 4093, 4110, 4126, 4143, 4160, 4176, 4193, 4210, 4227, 4244,
  4261, 4277, 4294, 4311, 4328, 4345, 4362, 4380, 4397, 4414, 4431, 4448, 4465, 4483, 4500,
  4517, 4535, 4552, 4569, 4587, 4604, 4622, 4639, 4657, 4674, 4692, 4710, 4727, 4745, 4763, 4780]

/-- Entries 3584 to 3839 of the source initialiser of `big_sine`. -/
def big_sine_14 : List Int := [
  4798, 4816, 4834, 4852, 4869, 4887, 4905, 4923, 4941, 4959, 4977, 4995, 5013, 5031, 5050,
  5068, 5086, 5104, 5122, 5141, 5159, 5177, 5196, 5214, 5232, 5251, 5269, 5288, 5306, 5325,
  5343, 5362, 5381, 5399, 5418, 5436, 5455, 5474, 5493, 5511, 5530, 5549, 5568, 5587, 5606,
  5625, 5644, 5663, 5682, 5701, 5720, 5739, 5758, 5777, 5796, 5816, 5835, 5854, 5873, 5893,
  5912, 5931, 5951, 5970, 5989, 6009, 6028, 6048, 6067, 6087, 6106, 6126, 6146, 6165, 6185,
  6205, 6224, 6244, 6264, 6284, 6303, 6323, 6343, 6363, 6383, 6403, 6423, 6443, 6463, 6483,
  6503, 6523, 6543, 6563, 6583, 6603, 6623, 6644, 6664, 6684, 6704, 6725, 6745, 6765, 6786,
  6806, 6826, 6847, 6867, 6888, 6908, 6929, 6949, 6970, 6990, 7011, 7032, 7052, 7073, 7094,
  7114, 7135, 7156, 7177, 7197, 7218, 7239, 7260, 7281, 7302, 7323, 7344, 7365, 7386, 7407,
  7428, 7449, 7470, 7491, 7512, 7533, 7554, 7575, 7597, 7618, 7639, 7660, 7682, 7703, 7724,
  7746, 7767, 7788, 7810, 7831, 7853, 7874, 7896, 7917, 7939, 7960, 7982, 8003, 8025, 8047,
  8068, 8090, 8112, 8133, 8155, 8177, 8199, 8220, 8242, 8264, 8286, 8308, 8329, 8351, 8373,
  8395, 8417, 8439, 8461, 8483, 8505, 8527, 8549, 8571, 8593, 8616, 8638, 8660, 8682, 8704,
  8726, 8749, 8771, 8793, 8815, 8838, 8860, 8882, 8905, 8927, 8950, 8972, 8994, 9017, 9039,
  9062, 9084, 9107, 9129, 9152, 9174, 9197, 9220, 9242, 9265, 9287, 9310, 9333, 9355, 9378,
  9401, 9424, 9446, 9469, 9492, 9515, 9538, 9560, 9583, 9606, 9629, 9652, 9675, 9698, 9721,
  9744, 9767, 9790, 9813, 9836, 9859, 9882, 9905, 9928, 9951, 9974, 9997, 10021, 10044, 10067,
  10090]

/-- Entries 3840 to 4095 of the source initialiser of `big_sine`. -/
def big_sine_15 : List Int := [
  10113, 10137, 10160, 10183, 10206, 10230, 10253, 10276, 10300, 10323, 10346, 10370, 10393,
  10416, 10440, 10463, 10487, 10510, 10534, 10557, 10581, 10604, 10628, 10651, 10675, 10698,
  10722, 10745, 10769, 10793, 10816, 10840, 10864, 10887, 10911, 10935, 10958, 10982, 11006,
  11030, 11053, 11077, 11101, 11125, 11148, 11172, 11196, 11220, 11244, 11268, 11292, 11315,
  11339, 11363, 11387, 11411, 11435, 11459, 11483, 11507, 11531, 11555, 11579, 11603, 11627,
  11651, 11675, 11699, 11723, 11748, 11772, 11796, 11820, 11844, 11868, 11892, 11917, 11941,
  11965, 11989, 12013, 12038, 12062, 12086, 12110, 12135, 12159, 12183, 12207, 12232, 12256,
  12280, 12305, 12329, 12353, 12378, 12402, 12427, 12451, 12475, 12500, 12524, 12549, 12573,
  12597, 12622, 12646, 12671, 12695, 12720, 12744, 12769, 12793, 12818, 12842, 12867, 12892,
  12916, 12941, 12965, 12990, 13014, 13039, 13064, 13088, 13113, 13137, 13162, 13187, 13211,
  13236, 13261, 13285, 13310, 13335, 13359, 13384, 13409, 13434, 13458, 13483, 13508, 13533,
  13557, 13582, 13607, 13632, 13656, 13681, 13706, 13731, 13756, 13780, 13805, 13830, 13855,
  13880, 13904, 13929, 13954, 13979, 14004, 14029, 14054, 14079, 14103, 14128, 14153, 14178,
  14203, 14228, 14253, 14278, 14303, 14328, 14353, 14377, 14402, 14427, 14452, 14477, 14502,
  14527, 14552, 14577, 14602, 14627, 14652, 14677, 14702, 14727, 14752, 14777, 14802, 14827,
  14852, 14877, 14902, 14927, 14952, 14977, 15002, 15027, 15052, 15078, 15103, 15128, 15153,
  15178, 15203, 15228, 15253, 15278, 15303, 15328, 15353, 15378, 15403, 15429, 15454, 15479,
  15504, 15529, 15554, 15579, 15604, 15629, 15654, 15680, 15705, 15730, 15755, 15780, 15805,
  15830, 15855, 15880, 15906, 15931, 15956, 15981, 16006, 16031, 16056, 16081, 16107, 16132,
  16157, 16182, 16207, 16232, 16257, 16282, 16308, 16333, 16358]

/-- Entries 4096 to 4096 of the source initialiser of `big_sine`. -/
def big_sine_16 : List Int := [
  16383]

/-- Source `static constexpr int32_t big_sine[4097]` of `class Sine`: the initialiser of the
source, written as the concatenation of its consecutive 256-entry pieces. -/
def big_sine : List Int :=
  big_sine_0 ++ big_sine_1 ++ big_sine_2 ++ big_sine_3 ++ big_sine_4 ++ big_sine_5 ++ big_sine_6 ++ big_sine_7 ++ big_sine_8 ++
  big_sine_9 ++ big_sine_10 ++ big_sine_11 ++ big_sine_12 ++ big_sine_13 ++ big_sine_14 ++ big_sine_15 ++ big_sine_16

/-- Source `Sine::evaluateFromFlash` (`BUILD_VIRTUAL`): `int32_t index = phase >> 20;`
`int32_t frac = (phase >> 4) & 0xFFFF;`
`return fast_15_16_lerp(big_sine[index], big_sine[index + 1], frac);` on a `uint32_t`
argument; `none` when one of the two reads is outside the table. -/
def Sine.evaluateFromFlash (phase : Int) : Option Int :=
  let index := toI32 (lsr32 phase 20)
  let frac := and32 (toI32 (lsr32 phase 4)) 0xFFFF
  match big_sine[index.toNat]?, big_sine[(add32 index 1).toNat]? with
  | some in0, some in1 => some (fast_15_16_lerp in0 in1 frac)
  | _, _ => none

/-- The successive values of `pm` left by the calls `updatePM(x_1)`, ..., `updatePM(x_n)` of
the source, made in this order on the state `s`. -/
def Sine.pmTrace (s : Sine) : List Int → List Int
  | [] => []
  | x :: xs => (s.updatePM x).pm :: Sine.pmTrace (s.updatePM x) xs

/-- The state after the calls `updatePM(x); evaluatePM();` of the source, made for each entry
`x` of the list in order. -/
def Sine.runPM (s : Sine) (xs : List Int) : Sine :=
  xs.foldl (fun t x => (t.updatePM x).evaluatePM.1) s

/-- The nested quintic of source lines 754-764 of `getSampleQuinticSpline` read in exact
rational arithmetic at the fraction `t`: every `+`, `-` and `*` exact, `fix16_mul(phaseFrac, x)`
read as `t * x` and `fix24_mul(699051, x)`, the scale constant, read as `x / 24`. -/
def quinticExact (sample0 sample1 sample2 sample3 sample4 sample5 t : ℚ) : ℚ :=
  sample2 + (1 / 24) * (t * ((sample3 - sample1) * 16 + (sample0 - sample4) * 2
    + t * ((sample3 + sample1) * 16 - sample0 - sample2 * 30 - sample4
    + t * (sample3 * 66 - sample2 * 70 - sample4 * 33 + sample1 * 39 + sample5 * 7 - sample0 * 9
    + t * (sample2 * 126 - sample3 * 124 + sample4 * 61 - sample1 * 64 - sample5 * 12
      + sample0 * 13
    + t * ((sample3 - sample2) * 50 + (sample1 - sample4) * 25 + (sample5 - sample0) * 5))))))

/-! ## Sync3 scale tables (`sync3scales.cpp`) -/

/-- Modelled from the spec: the declaration of `ViaSync3::Sync3Scale` (sync3.hpp) is not
under src/. Each initialiser of sync3scales.cpp gives four arrays of 32 unsigned integers and
a final integer; the fields are named here by position and use: first array `numerators`,
second array `denominators`, third array `reciprocals`, fourth array `keys`, and the final
integer `last`. Each array is written below as its first 16 entries followed by its last 16
entries. -/
structure Sync3Scale where
  numerators : List Nat
  denominators : List Nat
  reciprocals : List Nat
  keys : List Nat
  last : Nat

/-- Source `ViaSync3::perfect`. -/
def ViaSync3.perfect : Sync3Scale where
  numerators :=
    [1, 1, 1, 1, 1, 1, 1, 1, 1, 1, 1, 1, 1, 1, 1, 1] ++
    [1, 1, 2, 2, 3, 3, 4, 4, 6, 6, 8, 8, 12, 12, 16, 16]
  denominators :=
    [32, 32, 16, 16, 12, 12, 8, 8, 6, 6, 4, 4, 3, 3, 2, 2] ++
    [1, 1, 1, 1, 1, 1, 1, 1, 1, 1, 1, 1, 1, 1, 1, 1]
  reciprocals :=
    [134217727, 134217727, 268435455, 268435455, 357913941, 357913941, 536870911, 536870911,
     715827882, 715827882, 1073741823, 1073741823, 1431655765, 1431655765, 2147483647,
     2147483647] ++
    [4294967295, 4294967295, 4294967295, 4294967295, 4294967295, 4294967295, 4294967295,
     4294967295, 4294967295, 4294967295, 4294967295, 4294967295, 4294967295, 4294967295,
     4294967295, 4294967295]
  keys :=
    [1, 1, 2, 2, 3, 3, 4, 4, 5, 5, 6, 6, 7, 7, 8, 8] ++
    [9, 9, 10, 10, 11, 11, 12, 12, 13, 13, 14, 14, 15, 15, 16, 16]
  last := 0

/-- Source `ViaSync3::simpleRhythms`. -/
def ViaSync3.simpleRhythms : Sync3Scale where
  numerators :=
    [1, 1, 1, 1, 1, 1, 1, 1, 1, 1, 1, 1, 1, 1, 2, 2] ++
    [1, 1, 4, 4, 3, 3, 2, 2, 8, 8, 3, 3, 4, 4, 8, 8]
  denominators :=
    [32, 32, 16, 16, 8, 8, 6, 6, 4, 4, 3, 3, 2, 2, 3, 3] ++
    [1, 1, 3, 3, 2, 2, 1, 1, 3, 3, 1, 1, 1, 1, 1, 1]
  reciprocals :=
    [134217727, 134217727, 268435455, 268435455, 536870911, 536870911, 715827882, 715827882,
     1073741823, 1073741823, 1431655765, 1431655765, 2147483647, 2147483647, 1431655765,
     1431655765] ++
    [4294967295, 4294967295, 1431655765, 1431655765, 2147483647, 2147483647, 4294967295,
     4294967295, 1431655765, 1431655765, 4294967295, 4294967295, 4294967295, 4294967295,
     4294967295, 4294967295]
  keys :=
    [1, 1, 2, 2, 3, 3, 4, 4, 5, 5, 6, 6, 7, 7, 8, 8] ++
    [9, 9, 10, 10, 11, 11, 12, 12, 13, 13, 14, 14, 15, 15, 16, 16]
  last := 0

/-- Source `ViaSync3::ints`. -/
def ViaSync3.ints : Sync3Scale where
  numerators :=
    [1, 1, 1, 1, 1, 1, 1, 1, 1, 1, 1, 1, 1, 1, 1, 1] ++
    [1, 2, 3, 4, 5, 6, 7, 8, 9, 10, 11, 12, 13, 14, 15, 16]
  denominators :=
    [16, 15, 14, 13, 12, 11, 10, 9, 8, 7, 6, 5, 4, 3, 2, 1] ++
    [1, 1, 1, 1, 1, 1, 1, 1, 1, 1, 1, 1, 1, 1, 1, 1]
  reciprocals :=
    [268435455, 286331153, 306783378, 330382099, 357913941, 390451572, 429496729, 477218588,
     536870911, 613566756, 715827882, 858993459, 1073741823, 1431655765, 2147483647, 4294967295] ++
    [4294967295, 4294967295, 4294967295, 4294967295, 4294967295, 4294967295, 4294967295,
     4294967295, 4294967295, 4294967295, 4294967295, 4294967295, 4294967295, 4294967295,
     4294967295, 4294967295]
  keys :=
    [1, 2, 3, 4, 5, 6, 7, 8, 9, 10, 11, 12, 13, 14, 15, 16] ++
    [16, 17, 18, 19, 20, 21, 22, 23, 24, 25, 26, 27, 28, 29, 30, 31]
  last := 0

/-- Source `ViaSync3::circleFifths`. -/
def ViaSync3.circleFifths : Sync3Scale where
  numerators :=
    [1, 1, 16, 16, 1, 1, 8, 8, 4, 4, 1, 1, 2, 2, 1, 1] ++
    [1, 1, 3, 3, 2, 2, 9, 9, 27, 27, 4, 4, 81, 81, 8, 8]
  denominators :=
    [8, 8, 81, 81, 4, 4, 27, 27, 9, 9, 2, 2, 3, 3, 1, 1] ++
    [1, 1, 2, 2, 1, 1, 4, 4, 8, 8, 1, 1, 16, 16, 1, 1]
  reciprocals :=
    [536870911, 536870911, 53024287, 53024287, 1073741823, 1073741823, 159072862, 159072862,
     477218588, 477218588, 2147483647, 2147483647, 1431655765, 1431655765, 4294967295,
     4294967295] ++
    [4294967295, 4294967295, 2147483647, 2147483647, 4294967295, 4294967295, 1073741823,
     1073741823, 536870911, 536870911, 4294967295, 4294967295, 268435455, 268435455, 4294967295,
     4294967295]
  keys :=
    [1, 1, 2, 2, 3, 3, 4, 4, 5, 5, 6, 6, 7, 7, 8, 8] ++
    [8, 8, 9, 9, 10, 10, 11, 11, 12, 12, 13, 13, 14, 14, 15, 15]
  last := 0

/-- Source `ViaSync3::fourthsFifths`. -/
def ViaSync3.fourthsFifths : Sync3Scale where
  numerators :=
    [1, 1, 3, 2, 1, 9, 1, 3, 1, 1, 3, 4, 1, 9, 2, 3] ++
    [1, 4, 3, 16, 2, 9, 8, 3, 4, 16, 6, 64, 8, 9, 32, 12]
  denominators :=
    [8, 6, 16, 9, 4, 32, 3, 8, 4, 3, 8, 9, 2, 16, 3, 4] ++
    [1, 3, 2, 9, 1, 4, 3, 1, 1, 3, 1, 9, 1, 1, 3, 1]
  reciprocals :=
    [536870911, 715827882, 268435455, 477218588, 1073741823, 134217727, 1431655765, 536870911,
     1073741823, 1431655765, 536870911, 477218588, 2147483647, 268435455, 1431655765, 1073741823] ++
    [4294967295, 1431655765, 2147483647, 477218588, 4294967295, 1073741823, 1431655765,
     4294967295, 4294967295, 1431655765, 4294967295, 477218588, 4294967295, 4294967295,
     1431655765, 4294967295]
  keys :=
    [1, 2, 3, 4, 5, 6, 7, 8, 8, 8, 8, 9, 10, 11, 12, 13] ++
    [14, 15, 16, 17, 18, 19, 20, 21, 22, 23, 24, 25, 26, 27, 28, 29]
  last := 0

/-- Source `ViaSync3::minorArp`. -/
def ViaSync3.minorArp : Sync3Scale where
  numerators :=
    [1, 3, 3, 9, 1, 9, 3, 2, 1, 3, 3, 9, 1, 9, 3, 4] ++
    [1, 6, 3, 9, 2, 9, 3, 16, 4, 24, 6, 36, 8, 9, 12, 64]
  denominators :=
    [8, 20, 16, 40, 4, 32, 8, 5, 4, 10, 8, 20, 2, 16, 4, 5] ++
    [1, 5, 2, 5, 1, 4, 1, 5, 1, 5, 1, 5, 1, 1, 1, 5]
  reciprocals :=
    [536870911, 214748364, 268435455, 107374182, 1073741823, 134217727, 536870911, 858993459,
     1073741823, 429496729, 536870911, 214748364, 2147483647, 268435455, 1073741823, 858993459] ++
    [4294967295, 858993459, 2147483647, 858993459, 4294967295, 1073741823, 4294967295,
     858993459, 4294967295, 858993459, 4294967295, 858993459, 4294967295, 4294967295,
     4294967295, 858993459]
  keys :=
    [1, 2, 3, 4, 5, 6, 7, 8, 8, 9, 9, 10, 11, 12, 13, 14] ++
    [15, 16, 17, 18, 19, 20, 21, 22, 23, 24, 25, 26, 27, 28, 29, 30]
  last := 0

/-- Source `ViaSync3::evenOdds`. -/
def ViaSync3.evenOdds : Sync3Scale where
  numerators :=
    [1, 9, 7, 5, 11, 3, 5, 7, 1, 9, 7, 5, 11, 3, 5, 7] ++
    [1, 9, 7, 5, 11, 3, 5, 7, 2, 9, 7, 5, 11, 3, 10, 7]
  denominators :=
    [4, 32, 24, 16, 32, 8, 12, 16, 2, 16, 12, 8, 16, 4, 6, 8] ++
    [1, 8, 6, 4, 8, 2, 3, 4, 1, 4, 3, 2, 4, 1, 3, 2]
  reciprocals :=
    [1073741823, 134217727, 178956970, 268435455, 134217727, 536870911, 357913941, 268435455,
     2147483647, 268435455, 357913941, 536870911, 268435455, 1073741823, 715827882, 536870911] ++
    [4294967295, 536870911, 715827882, 1073741823, 536870911, 2147483647, 1431655765,
     1073741823, 4294967295, 1073741823, 1431655765, 2147483647, 1073741823, 4294967295,
     1431655765, 2147483647]
  keys :=
    [1, 2, 3, 4, 5, 6, 7, 8, 9, 10, 11, 12, 13, 14, 15, 16] ++
    [17, 18, 19, 20, 21, 22, 23, 24, 25, 26, 27, 28, 29, 30, 31, 32]
  last := 0

/-- Source `ViaSync3::bP`. -/
def ViaSync3.bP : Sync3Scale where
  numerators :=
    [1, 1, 7, 5, 1, 5, 7, 25, 1, 3, 7, 5, 3, 5, 7, 25] ++
    [1, 9, 7, 5, 9, 15, 7, 25, 3, 27, 21, 5, 27, 45, 7, 25]
  denominators :=
    [9, 7, 45, 27, 5, 21, 27, 81, 3, 7, 15, 9, 5, 7, 9, 27] ++
    [1, 7, 5, 3, 5, 7, 3, 9, 1, 7, 5, 1, 5, 7, 1, 3]
  reciprocals :=
    [477218588, 613566756, 95443717, 159072862, 858993459, 204522252, 159072862, 53024287,
     1431655765, 613566756, 286331153, 477218588, 858993459, 613566756, 477218588, 159072862] ++
    [4294967295, 613566756, 858993459, 1431655765, 858993459, 613566756, 1431655765, 477218588,
     4294967295, 613566756, 858993459, 4294967295, 858993459, 613566756, 4294967295, 1431655765]
  keys :=
    [1, 2, 3, 4, 5, 6, 7, 8, 9, 10, 11, 12, 13, 14, 15, 16] ++
    [17, 18, 19, 20, 21, 22, 23, 24, 25, 26, 27, 28, 29, 30, 31, 32]
  last := 0

/-! ## Envelope render (`ViaAtsr::render`) -/

/-- Logical negation `!x` of C, as an `int`. -/
def lnot (x : Int) : Int := if x = 0 then 1 else 0

/-- Modelled from the spec: class `ViaAtsr` is declared in atsr.hpp, which is not under
src/. These are the members that `render` uses for the DAC outputs, read after
`atsrState->step()` and `gateDelayProcess()` have run: the levels `atsrState->aLevel` and
`atsrState->bLevel` (taken as unsigned 32-bit words), the `int32_t` members `releasing`,
`sustaining`, `startup`, `gateOn`, `lastLoop`, `gateLowCountdown`, `dac3Calibration`, and the
three sample arrays of `outputs`, as maps from the position to the stored value. -/
structure ViaAtsr where
  aLevel : Int
  bLevel : Int
  releasing : Int
  sustaining : Int
  startup : Int
  gateOn : Int
  lastLoop : Int
  gateLowCountdown : Int
  dac3Calibration : Int
  dac1Samples : Int → Int
  dac2Samples : Int → Int
  dac3Samples : Int → Int

/-- Source `ViaAtsr::render`, lines 30 to 34: `int32_t loopGate = !releasing & !sustaining;`
`gateLowCountdown += ((lastLoop > loopGate) & gateOn) * 8; lastLoop = loopGate;`
`loopGate |= (gateLowCountdown > 0); loopGate &= !startup;`. Returns the updated members and
the final `loopGate`. -/
def ViaAtsr.loopGate (v : ViaAtsr) : ViaAtsr × Int :=
  let loopGate := and32 (lnot v.releasing) (lnot v.sustaining)
  let gateLowCountdown := add32 v.gateLowCountdown
    (mul32 (and32 (if v.lastLoop > loopGate then 1 else 0) v.gateOn) 8)
  let lastLoop := loopGate
  let loopGate := or32 loopGate (if gateLowCountdown > 0 then 1 else 0)
  let loopGate := and32 loopGate (lnot v.startup)
  ({ v with gateLowCountdown := gateLowCountdown, lastLoop := lastLoop }, loopGate)

/-- Source `ViaAtsr::render` (`BUILD_VIRTUAL`), the DAC outputs:
`loopGateOut = __USAT((2048 - dac3Calibration) - (loopGate * 2048), 12);`
`outputs.dac1Samples[0] = atsrState->aLevel >> 1; outputs.dac2Samples[0] = atsrState->bLevel >> 1;`
`outputs.dac3Samples[0] = loopGateOut;`. -/
def ViaAtsr.render (v : ViaAtsr) : ViaAtsr :=
  let r := v.loopGate
  let loopGate := r.2
  let loopGateOut := __USAT (sub32 (sub32 2048 v.dac3Calibration) (mul32 loopGate 2048)) 12
  { r.1 with
    dac1Samples := Function.update v.dac1Samples 0 (lsr32 v.aLevel 1)
    dac2Samples := Function.update v.dac2Samples 0 (lsr32 v.bLevel 1)
    dac3Samples := Function.update v.dac3Samples 0 loopGateOut }

/-! ## Hardware build (`BUILD_F373`) -/

namespace F373

/-- Modelled from the spec: the ARM instruction `SMULL` used by the inline assembly of
`fix16_mul` is not defined under src/; it forms the exact 64-bit product of two signed
32-bit registers and returns its bottom word (`lsb`, first component) and its top word
(`msb`, second component), each read back as an `int32_t`. -/
def SMULL (in0 in1 : Int) : Int × Int :=
  (toI32 (toI64 (in0 * in1)), toI32 (asr (toI64 (in0 * in1)) 32))

/-- Modelled from the spec: the CMSIS intrinsic `__PKHBT(ARG1, ARG2, ARG3)` is not defined
under src/; it packs the bottom halfword of `ARG1` with the top halfword of `ARG2 << ARG3`,
`(ARG1 & 0x0000FFFF) | ((ARG2 << ARG3) & 0xFFFF0000)` on `uint32_t`. -/
def __PKHBT (ARG1 ARG2 : Int) (ARG3 : Nat) : Nat :=
  (bits32 ARG1 &&& 0x0000FFFF) ||| (((bits32 ARG2 <<< ARG3) % 2 ^ 32) &&& 0xFFFF0000)

/-- Modelled from the spec: the CMSIS intrinsic `__ROR(op1, op2)` is not defined under src/
for this build; it rotates the 32-bit word `op1` right by `op2 % 32` bits. -/
def __ROR (op1 op2 : Nat) : Nat :=
  if op2 % 32 = 0 then op1
  else (op1 >>> (op2 % 32)) ||| ((op1 <<< (32 - op2 % 32)) % 2 ^ 32)

/-- Source `fix16_mul` (`BUILD_F373`): `SMULL` into `lsb` and `msb`, then
`return __ROR(__PKHBT(msb, lsb, 0), 16);`. -/
def fix16_mul (in0 in1 : Int) : Int :=
  let r := SMULL in0 in1
  let lsb := r.1
  let msb := r.2
  toI32 (Int.ofNat (__ROR (__PKHBT msb lsb 0) 16))

/-- Bottom halfword of a register read as a signed 16-bit value. -/
def toI16 (x : Int) : Int := (x + 2 ^ 15) % 2 ^ 16 - 2 ^ 15

/-- Modelled from the spec: the ARM instruction `SMLAWB Rd, Rn, Rm, Ra` used by the inline
assembly of the lerp routines is not defined under src/; it multiplies the signed word `Rn`
by the signed bottom halfword of `Rm`, adds `Ra << 16` and returns bits 47..16 of the sum. -/
def SMLAWB (Rn Rm Ra : Int) : Int :=
  toI32 (asr (Rn * toI16 Rm + Ra * 2 ^ 16) 16)

/-- Source `fast_fix15_lerp` (`BUILD_F373`): `SMLAWB` with inputs `in1 - in0`, `frac` and
`in0 >> 1`, then `return in0 << 1;`. -/
def fast_fix15_lerp (in0 in1 frac : Int) : Int :=
  let in0 := SMLAWB (sub32 in1 in0) frac (asr in0 1)
  shl32 in0 1

/-- Modelled from the spec: the C library function `abs` used by `foldSignal25Bit` is not
defined under src/; it returns the absolute value, and the most negative value is returned
unchanged (native wraparound). -/
def stdlib_abs (n : Int) : Int :=
  if n < 0 then neg32 n else n

/-- Modelled from the spec: the CMSIS intrinsic `__USAT(x, bits)` of this build is not
defined under src/; it clamps `x` into `[0, 2^bits - 1]`. -/
def __USAT (X : Int) (Y : Nat) : Int :=
  if X > 2 ^ Y - 1 then 2 ^ Y - 1 else if X < 0 then 0 else X

/-- Source `foldSignal25Bit` (`BUILD_F373`), on a `uint32_t` argument:
`return __USAT((abs((int32_t) phaseIn << 6) - 1) >> 6, 25);`. -/
def foldSignal25Bit (phaseIn : Int) : Int :=
  toU32 (__USAT (asr (sub32 (stdlib_abs (shl32 (toI32 phaseIn) 6)) 1) 6) 25)

/-- Modelled from the spec: the ARM instruction `SMLAWT Rd, Rn, Rm, Ra` used by the inline
assembly of `fast_15_16_lerp_prediff` is not defined under src/; it multiplies the signed
word `Rn` by the signed top halfword of `Rm`, adds `Ra << 16` and returns bits 47..16 of the
sum. -/
def SMLAWT (Rn Rm Ra : Int) : Int :=
  toI32 (asr (Rn * toI16 (asr Rm 16) + Ra * 2 ^ 16) 16)

/-- Source `fast_15_16_lerp` (`BUILD_F373`): `SMLAWB` with inputs `frac`, `in1 - in0` and
`in0`, the result returned. -/
def fast_15_16_lerp (in0 in1 frac : Int) : Int :=
  SMLAWB frac (sub32 in1 in0) in0

/-- Source `fast_15_16_lerp_prediff` (`BUILD_F373`): `SMLAWT` with inputs `frac`, `in0` and
`in0 & 0xFFFF`, the result returned. -/
def fast_15_16_lerp_prediff (in0 frac : Int) : Int :=
  SMLAWT frac in0 (and32 in0 0xFFFF)

/-- Source `Sine::evaluateFromFlash` (`BUILD_F373`): the same two reads of `big_sine`, joined
by the `SMLAWB` form of `fast_15_16_lerp`. -/
def Sine.evaluateFromFlash (phase : Int) : Option Int :=
  let index := toI32 (lsr32 phase 20)
  let frac := and32 (toI32 (lsr32 phase 4)) 0xFFFF
  match big_sine[index.toNat]?, big_sine[(add32 index 1).toNat]? with
  | some in0, some in1 => some (fast_15_16_lerp in0 in1 frac)
  | _, _ => none

/-- The members of `ViaAtsr` together with the locals `writePosition`, `ditherCounter` and
`samplesRemaining` of the block loop of `ViaAtsr::render`. -/
structure RenderBlock where
  v : ViaAtsr
  writePosition : Int
  ditherCounter : Int
  samplesRemaining : Int

/-- Source `ViaAtsr::render` (`BUILD_F373`), one pass through the body of
`while (samplesRemaining)`:
`outputs.dac1Samples[writePosition] = __USAT(aLevel + (ditherCounter < aPulseWidth), 12);`
`outputs.dac2Samples[writePosition] = __USAT(bLevel + (ditherCounter < bPulseWidth), 12);`
`outputs.dac3Samples[writePosition] = loopGateOut;`
`ditherCounter ++; ditherCounter &= 7; samplesRemaining --; writePosition ++;`
with `aLevel`, `bLevel` of type `uint32_t`. -/
def renderBody (aLevel bLevel aPulseWidth bPulseWidth loopGateOut : Int)
    (st : RenderBlock) : RenderBlock :=
  { v := { st.v with
      dac1Samples := Function.update st.v.dac1Samples st.writePosition
        (__USAT (toI32 (toU32 (aLevel + (if st.ditherCounter < aPulseWidth then 1 else 0)))) 12)
      dac2Samples := Function.update st.v.dac2Samples st.writePosition
        (__USAT (toI32 (toU32 (bLevel + (if st.ditherCounter < bPulseWidth then 1 else 0)))) 12)
      dac3Samples := Function.update st.v.dac3Samples st.writePosition loopGateOut }
    writePosition := add32 st.writePosition 1
    ditherCounter := and32 (add32 st.ditherCounter 1) 7
    samplesRemaining := sub32 st.samplesRemaining 1 }

/-- Source `ViaAtsr::render` (`BUILD_F373`), the loop `while (samplesRemaining)` around
`renderBody`. The first argument bounds the number of passes through the body; the result is `none` when
the loop has not ended within that many passes. -/
def renderLoop (aLevel bLevel aPulseWidth bPulseWidth loopGateOut : Int) :
    Nat → RenderBlock → Option RenderBlock
  | 0, st => if st.samplesRemaining = 0 then some st else none
  | fuel + 1, st =>
    if st.samplesRemaining = 0 then some st
    else renderLoop aLevel bLevel aPulseWidth bPulseWidth loopGateOut fuel
      (renderBody aLevel bLevel aPulseWidth bPulseWidth loopGateOut st)

/-- Source `ViaAtsr::render` (`BUILD_F373`), the DAC outputs:
`uint32_t aLevel = atsrState->aLevel; int32_t aPulseWidth = (aLevel & 15) >> 1; aLevel >>= 4;`
(likewise for `bLevel`), the loop gate of lines 30 to 34,
`loopGateOut = __USAT((2048 - dac3Calibration) - (loopGate * 2048), 12);`
`int32_t samplesRemaining = VIA_ATSR_BUFFER_SIZE; int32_t ditherCounter = 0;` and the block
loop. The constant `VIA_ATSR_BUFFER_SIZE` is not defined under src/ and is a parameter; `fuel`
bounds the number of passes through the loop body. -/
def ViaAtsr.render (v : ViaAtsr) (VIA_ATSR_BUFFER_SIZE writePosition : Int) (fuel : Nat) :
    Option ViaAtsr :=
  let aLevel := toU32 v.aLevel
  let bLevel := toU32 v.bLevel
  let aPulseWidth := toI32 (lsr32 (and32 aLevel 15) 1)
  let bPulseWidth := toI32 (lsr32 (and32 bLevel 15) 1)
  let aLevel := lsr32 aLevel 4
  let bLevel := lsr32 bLevel 4
  let r := v.loopGate
  let loopGate := r.2
  let loopGateOut := __USAT (sub32 (sub32 2048 v.dac3Calibration) (mul32 loopGate 2048)) 12
  (renderLoop aLevel bLevel aPulseWidth bPulseWidth loopGateOut fuel
    { v := r.1, writePosition := writePosition, ditherCounter := 0,
      samplesRemaining := toI32 VIA_ATSR_BUFFER_SIZE }).map (fun st => st.v)

end F373

/-! ## Auxiliary lemmas -/

theorem toI32_eq_self {x : Int} (h : isI32 x) : toI32 x = x := by
  unfold isI32 at h
  unfold toI32
  omega

theorem isI32_toI32 (x : Int) : isI32 (toI32 x) := by
  unfold isI32 toI32
  omega

theorem toI32_emod (x : Int) : toI32 (x % 2 ^ 32) = toI32 x := by
  unfold toI32
  omega

theorem asr_eq_div (a : Int) (n : Nat) : asr a n = a / 2 ^ n := by
  have h := Int.shiftRight_eq_div_pow a n
  rw [Nat.cast_pow] at h
  exact h

theorem mul_bound {a b : Int} (ha : isI32 a) (hb : isI32 b) :
    -2 ^ 62 < a * b ∧ a * b ≤ 2 ^ 62 := by
  unfold isI32 at ha hb
  constructor <;> nlinarith [ha.1, ha.2, hb.1, hb.2]

theorem widen_mul {a b : Int} (ha : isI32 a) (hb : isI32 b) :
    toI64 (toU64 (toU64 a * toU64 b)) = a * b := by
  have hb := mul_bound ha hb
  have h1 : toU64 (toU64 a * toU64 b) = (a * b) % 2 ^ 64 := by
    unfold toU64
    rw [← Int.mul_emod]
  rw [h1]
  unfold toI64
  generalize a * b = p at hb
  omega

theorem fix16_mul_eq {a b : Int} (ha : isI32 a) (hb : isI32 b) :
    fix16_mul a b = toI32 (a * b / 2 ^ 16) := by
  unfold fix16_mul
  simp only [widen_mul ha hb]
  rw [asr_eq_div]

theorem isI32_zero : isI32 0 := by decide

theorem two_pow_le_of_le {b n : Nat} (h : b ≤ n) : (2 : Int) ^ b ≤ 2 ^ n :=
  pow_le_pow_right₀ (by norm_num) h

theorem two_pow_pos (b : Nat) : (0 : Int) < 2 ^ b := by positivity

theorem two_pow_ge_two {b : Nat} (h : 1 ≤ b) : (2 : Int) ≤ 2 ^ b := by
  have := two_pow_le_of_le h
  simpa using this

theorem usat_limit {b : Nat} (hb : b ≤ 30) : sub32 (shl32 1 b) 1 = 2 ^ b - 1 := by
  have h1 := two_pow_le_of_le hb
  have h0 := two_pow_pos b
  unfold sub32 shl32
  rw [one_mul]
  generalize (2 : Int) ^ b = p at h0 h1
  unfold toI32
  omega

theorem ssat_max {b : Nat} (hb1 : 1 ≤ b) (hb : b ≤ 31) : __MAX b = 2 ^ (b - 1) - 1 := by
  have hidx : (toU32 ((b : Int) - 1)).toNat = b - 1 := by
    unfold toU32
    omega
  unfold __MAX
  rw [hidx]
  exact usat_limit (by omega)

theorem bits32_lt (x : Int) : bits32 x < 2 ^ 32 := by
  unfold bits32 toU32
  omega

theorem bits32_cast (x : Int) : ((bits32 x : Nat) : Int) = x % 2 ^ 32 := by
  unfold bits32 toU32
  omega

theorem xor_all_ones {n : Nat} (hn : n < 2 ^ 32) : n ^^^ (2 ^ 32 - 1) = 2 ^ 32 - (n + 1) := by
  apply Nat.eq_of_testBit_eq
  intro i
  rw [Nat.testBit_xor, Nat.testBit_two_pow_sub_one, Nat.testBit_two_pow_sub_succ hn]
  by_cases hi : i < 32
  · simp [hi]
  · have hlt : n < 2 ^ i :=
      lt_of_lt_of_le hn (Nat.pow_le_pow_right (by norm_num) (by omega))
    simp [hi, Nat.testBit_lt_two_pow hlt]

theorem xor32_zero (y : Int) : xor32 y 0 = toI32 y := by
  have h0 : bits32 0 = 0 := by decide
  unfold xor32
  rw [h0, Nat.xor_zero]
  show toI32 ((bits32 y : Nat) : Int) = _
  rw [bits32_cast, toI32_emod]

theorem xor32_neg_one (y : Int) : xor32 y (-1) = toI32 (-1 - y) := by
  have h1 : bits32 (-1) = 2 ^ 32 - 1 := by decide
  have hlt := bits32_lt y
  have hc := bits32_cast y
  unfold xor32
  rw [h1, xor_all_ones hlt]
  show toI32 ((2 ^ 32 - (bits32 y + 1) : Nat) : Int) = _
  have : ((2 ^ 32 - (bits32 y + 1) : Nat) : Int) = 2 ^ 32 - 1 - y % 2 ^ 32 := by
    omega
  rw [this]
  unfold toI32
  omega

theorem asr31 {x : Int} (hx : isI32 x) : asr x 31 = if x < 0 then -1 else 0 := by
  unfold isI32 at hx
  rw [asr_eq_div]
  split_ifs <;> omega

theorem not_eq_neg_sub_one (x : Int) : ~~~x = -x - 1 := by
  cases x with
  | ofNat n =>
    show Int.negSucc n = -(n : Int) - 1
    rw [Int.negSucc_eq]; ring
  | negSucc n =>
    show (n : Int) = -(Int.negSucc n) - 1
    rw [Int.negSucc_eq]; ring

theorem andIdx_val (w : Int) (j m : Nat) (hm : m = 2 ^ j - 1) (hj : j ≤ 32) :
    (((andIdx w m : Fin (m + 1)) : Nat) : Int) = w % 2 ^ j := by
  subst hm
  show ((bits32 w &&& (2 ^ j - 1) : Nat) : Int) = _
  rw [Nat.and_pow_two_sub_one_eq_mod]
  push_cast
  rw [bits32_cast]
  exact Int.emod_emod_of_dvd w (pow_dvd_pow 2 hj)

theorem andIdx_eq_iff (w w2 : Int) (j m : Nat) (hm : m = 2 ^ j - 1) (hj : j ≤ 32) :
    andIdx w m = andIdx w2 m ↔ w % 2 ^ j = w2 % 2 ^ j := by
  rw [← andIdx_val w j m hm hj, ← andIdx_val w2 j m hm hj]
  constructor
  · intro h; rw [h]
  · intro h; exact Fin.ext (Int.ofNat_inj.mp h)

theorem update_andIdx (j m : Nat) (hm : m = 2 ^ j - 1) (hj : j ≤ 32) (f : Fin (m + 1) → Int)
    (c v : Int) :
    (∀ i : Fin (m + 1), ((i.val : Nat) : Int) = c % 2 ^ j →
      Function.update f (andIdx c m) v i = v) ∧
    (∀ i : Fin (m + 1), ((i.val : Nat) : Int) ≠ c % 2 ^ j →
      Function.update f (andIdx c m) v i = f i) := by
  have hv := andIdx_val c j m hm hj
  constructor
  · intro i hi
    have : i = andIdx c m := Fin.ext (Int.ofNat_inj.mp (hi.trans hv.symm))
    rw [this]
    exact Function.update_same _ _ _
  · intro i hi
    have : i ≠ andIdx c m := by
      intro h
      apply hi
      rw [h]
      exact hv
    exact Function.update_noteq this _ _

theorem readLilBuffer_write_zero (b : lilBuffer) (v : Int) : readLilBuffer (writeLilBuffer b v) 0 = v := by
  have h : andIdx (add32 (add32 b.writeIndex 1) (not32 0)) 7 = andIdx b.writeIndex 7 := by
    apply (andIdx_eq_iff _ _ 3 7 rfl (by norm_num)).mpr
    unfold add32 not32 toI32
    rw [not_eq_neg_sub_one]
    omega
  unfold readLilBuffer writeLilBuffer
  simp only []
  rw [h]
  exact Function.update_same _ _ _

theorem readLilBuffer_write_succ (b : lilBuffer) (v : Int) (k : Nat) (hk : k + 1 < 8) :
    readLilBuffer (writeLilBuffer b v) ((k : Int) + 1) = readLilBuffer b k := by
  have h : andIdx (add32 (add32 b.writeIndex 1) (not32 ((k : Int) + 1))) 7
      = andIdx (add32 b.writeIndex (not32 k)) 7 := by
    apply (andIdx_eq_iff _ _ 3 7 rfl (by norm_num)).mpr
    unfold add32 not32 toI32
    rw [not_eq_neg_sub_one, not_eq_neg_sub_one]
    omega
  have hne : andIdx (add32 b.writeIndex (not32 k)) 7 ≠ andIdx b.writeIndex 7 := by
    intro hc
    have hc2 := (andIdx_eq_iff _ _ 3 7 rfl (by norm_num)).mp hc
    revert hc2
    unfold add32 not32 toI32
    rw [not_eq_neg_sub_one]
    omega
  unfold readLilBuffer writeLilBuffer
  simp only []
  rw [h]
  exact Function.update_noteq hne _ _

theorem readLilBuffer_after_writes (vs : List Int) : ∀ (b : lilBuffer) (k : Nat), k < vs.length → k < 8 →
    vs.reverse[k]? = some (readLilBuffer (vs.foldl writeLilBuffer b) k) := by
  induction vs using List.reverseRecOn with
  | nil => intro b k hk; simp at hk
  | append_singleton ws v ih =>
    intro b k hk hD
    rw [List.foldl_append, List.reverse_append]
    cases k with
    | zero =>
      simp only [List.foldl_cons, List.foldl_nil, List.reverse_cons, List.reverse_nil,
        List.nil_append, List.singleton_append, List.getElem?_cons_zero]
      exact congrArg some (readLilBuffer_write_zero _ v).symm
    | succ k =>
      have hk2 : k < ws.length := by simpa using hk
      simp only [List.foldl_cons, List.foldl_nil, List.reverse_cons, List.reverse_nil,
        List.nil_append, List.singleton_append, List.getElem?_cons_succ]
      rw [ih b k hk2 (by omega)]
      have := readLilBuffer_write_succ (ws.foldl writeLilBuffer b) v k hD
      rw [← this]
      push_cast
      rfl

theorem readBuffer_write_zero (b : buffer) (v : Int) : readBuffer (writeBuffer b v) 0 = v := by
  have h : andIdx (add32 (add32 b.writeIndex 1) (not32 0)) 31 = andIdx b.writeIndex 31 := by
    apply (andIdx_eq_iff _ _ 5 31 rfl (by norm_num)).mpr
    unfold add32 not32 toI32
    rw [not_eq_neg_sub_one]
    omega
  unfold readBuffer writeBuffer
  simp only []
  rw [h]
  exact Function.update_same _ _ _

theorem readBuffer_write_succ (b : buffer) (v : Int) (k : Nat) (hk : k + 1 < 32) :
    readBuffer (writeBuffer b v) ((k : Int) + 1) = readBuffer b k := by
  have h : andIdx (add32 (add32 b.writeIndex 1) (not32 ((k : Int) + 1))) 31
      = andIdx (add32 b.writeIndex (not32 k)) 31 := by
    apply (andIdx_eq_iff _ _ 5 31 rfl (by norm_num)).mpr
    unfold add32 not32 toI32
    rw [not_eq_neg_sub_one, not_eq_neg_sub_one]
    omega
  have hne : andIdx (add32 b.writeIndex (not32 k)) 31 ≠ andIdx b.writeIndex 31 := by
    intro hc
    have hc2 := (andIdx_eq_iff _ _ 5 31 rfl (by norm_num)).mp hc
    revert hc2
    unfold add32 not32 toI32
    rw [not_eq_neg_sub_one]
    omega
  unfold readBuffer writeBuffer
  simp only []
  rw [h]
  exact Function.update_noteq hne _ _

theorem readBuffer_after_writes (vs : List Int) : ∀ (b : buffer) (k : Nat), k < vs.length → k < 32 →
    vs.reverse[k]? = some (readBuffer (vs.foldl writeBuffer b) k) := by
  induction vs using List.reverseRecOn with
  | nil => intro b k hk; simp at hk
  | append_singleton ws v ih =>
    intro b k hk hD
    rw [List.foldl_append, List.reverse_append]
    cases k with
    | zero =>
      simp only [List.foldl_cons, List.foldl_nil, List.reverse_cons, List.reverse_nil,
        List.nil_append, List.singleton_append, List.getElem?_cons_zero]
      exact congrArg some (readBuffer_write_zero _ v).symm
    | succ k =>
      have hk2 : k < ws.length := by simpa using hk
      simp only [List.foldl_cons, List.foldl_nil, List.reverse_cons, List.reverse_nil,
        List.nil_append, List.singleton_append, List.getElem?_cons_succ]
      rw [ih b k hk2 (by omega)]
      have := readBuffer_write_succ (ws.foldl writeBuffer b) v k hD
      rw [← this]
      push_cast
      rfl

theorem readLongBuffer_write_zero (b : longBuffer) (v : Int) : readLongBuffer (writeLongBuffer b v) 0 = v := by
  have h : andIdx (add32 (add32 b.writeIndex 1) (not32 0)) 255 = andIdx b.writeIndex 255 := by
    apply (andIdx_eq_iff _ _ 8 255 rfl (by norm_num)).mpr
    unfold add32 not32 toI32
    rw [not_eq_neg_sub_one]
    omega
  unfold readLongBuffer writeLongBuffer
  simp only []
  rw [h]
  exact Function.update_same _ _ _

theorem readLongBuffer_write_succ (b : longBuffer) (v : Int) (k : Nat) (hk : k + 1 < 256) :
    readLongBuffer (writeLongBuffer b v) ((k : Int) + 1) = readLongBuffer b k := by
  have h : andIdx (add32 (add32 b.writeIndex 1) (not32 ((k : Int) + 1))) 255
      = andIdx (add32 b.writeIndex (not32 k)) 255 := by
    apply (andIdx_eq_iff _ _ 8 255 rfl (by norm_num)).mpr
    unfold add32 not32 toI32
    rw [not_eq_neg_sub_one, not_eq_neg_sub_one]
    omega
  have hne : andIdx (add32 b.writeIndex (not32 k)) 255 ≠ andIdx b.writeIndex 255 := by
    intro hc
    have hc2 := (andIdx_eq_iff _ _ 8 255 rfl (by norm_num)).mp hc
    revert hc2
    unfold add32 not32 toI32
    rw [not_eq_neg_sub_one]
    omega
  unfold readLongBuffer writeLongBuffer
  simp only []
  rw [h]
  exact Function.update_noteq hne _ _

theorem readLongBuffer_after_writes (vs : List Int) : ∀ (b : longBuffer) (k : Nat), k < vs.length → k < 256 →
    vs.reverse[k]? = some (readLongBuffer (vs.foldl writeLongBuffer b) k) := by
  induction vs using List.reverseRecOn with
  | nil => intro b k hk; simp at hk
  | append_singleton ws v ih =>
    intro b k hk hD
    rw [List.foldl_append, List.reverse_append]
    cases k with
    | zero =>
      simp only [List.foldl_cons, List.foldl_nil, List.reverse_cons, List.reverse_nil,
        List.nil_append, List.singleton_append, List.getElem?_cons_zero]
      exact congrArg some (readLongBuffer_write_zero _ v).symm
    | succ k =>
      have hk2 : k < ws.length := by simpa using hk
      simp only [List.foldl_cons, List.foldl_nil, List.reverse_cons, List.reverse_nil,
        List.nil_append, List.singleton_append, List.getElem?_cons_succ]
      rw [ih b k hk2 (by omega)]
      have := readLongBuffer_write_succ (ws.foldl writeLongBuffer b) v k hD
      rw [← this]
      push_cast
      rfl

theorem range_map_eq_reverse (f : Nat → Int) (vs : List Int) (D : Nat) (hlen : vs.length = D)
    (h : ∀ k, k < D → vs.reverse[k]? = some (f k)) :
    (List.range D).map f = vs.reverse := by
  apply List.ext_getElem?
  intro k
  by_cases hk : k < D
  · rw [h k hk]
    simp [List.getElem?_range, hk]
  · have h1 : (List.map f (List.range D)).length ≤ k := by simp; omega
    have h2 : vs.reverse.length ≤ k := by simp; omega
    rw [List.getElem?_eq_none h1, List.getElem?_eq_none h2]

theorem and_top_halfword {n : Nat} (hn : n < 2 ^ 32) :
    n &&& 0xFFFF0000 = 2 ^ 16 * (n / 2 ^ 16) := by
  have hmask : (0xFFFF0000 : Nat) = 2 ^ 16 * (2 ^ 16 - 1) := by norm_num
  apply Nat.eq_of_testBit_eq
  intro i
  rw [hmask, Nat.testBit_and, Nat.testBit_mul_pow_two, Nat.testBit_mul_pow_two,
    Nat.testBit_two_pow_sub_one, ← Nat.shiftRight_eq_div_pow, Nat.testBit_shiftRight]
  by_cases h16 : 16 ≤ i
  · have hi : 16 + (i - 16) = i := by omega
    rw [hi]
    by_cases h32 : i < 32
    · have : i - 16 < 16 := by omega
      simp [h16, this]
    · have hlt : n < 2 ^ i :=
        lt_of_lt_of_le hn (Nat.pow_le_pow_right (by norm_num) (by omega))
      simp [Nat.testBit_lt_two_pow hlt]
  · simp [h16]

theorem pack_rotate {hi lo : Nat} (hlo : lo < 2 ^ 32) :
    F373.__ROR ((hi &&& 0x0000FFFF) ||| (((lo <<< 0) % 2 ^ 32) &&& 0xFFFF0000)) 16
      = 2 ^ 16 * (hi % 2 ^ 16) + lo / 2 ^ 16 := by
  have h1 : hi &&& 0x0000FFFF = hi % 2 ^ 16 := Nat.and_pow_two_sub_one_eq_mod hi 16
  have h2 : (lo <<< 0) % 2 ^ 32 = lo := by
    rw [Nat.shiftLeft_zero]; exact Nat.mod_eq_of_lt hlo
  have hr : hi % 2 ^ 16 < 2 ^ 16 := Nat.mod_lt _ (by norm_num)
  have hq : lo / 2 ^ 16 < 2 ^ 16 := by omega
  rw [h1, h2, and_top_halfword hlo, Nat.or_comm, ← Nat.mul_add_lt_is_or hr]
  unfold F373.__ROR
  rw [if_neg (by norm_num)]
  have e1 : 16 % 32 = 16 := rfl
  have e2 : 32 - 16 = 16 := rfl
  rw [e1, e2]
  have h3 : (2 ^ 16 * (lo / 2 ^ 16) + hi % 2 ^ 16) >>> 16 = lo / 2 ^ 16 := by
    rw [Nat.shiftRight_eq_div_pow]; omega
  have h4 : ((2 ^ 16 * (lo / 2 ^ 16) + hi % 2 ^ 16) <<< 16) % 2 ^ 32
      = 2 ^ 16 * (hi % 2 ^ 16) := by
    rw [Nat.shiftLeft_eq]; omega
  rw [h3, h4, Nat.or_comm, ← Nat.mul_add_lt_is_or hq]

theorem fix16_lerp_max_closed (a b : Int) :
    fix16_lerp a b 65535 = toI32 (b + (-(toI32 (b - a))) / 2 ^ 16) := by
  have hd := isI32_toI32 (b - a)
  have h65 : isI32 65535 := by decide
  unfold fix16_lerp sub32
  rw [fix16_mul_eq hd h65]
  unfold add32
  unfold isI32 at hd
  generalize hdd : toI32 (b - a) = d at hd ⊢
  have hq : d * 65535 / 2 ^ 16 = d + (-d) / 2 ^ 16 := by omega
  have hr : toI32 (d + (-d) / 2 ^ 16) = d + (-d) / 2 ^ 16 := by
    apply toI32_eq_self
    unfold isI32
    omega
  rw [hq, hr]
  generalize (-d) / 2 ^ 16 = c
  unfold toI32 at hdd ⊢
  omega

/-! ## Fixed-point multiplication -/

/-- C1: for signed 32-bit `a` and `b` the 64-bit product is exact, the portable `fix16_mul`
is that product shifted right arithmetically by 16 (floor division by `2^16`) and reduced to
its low 32 bits, `fix24_mul` is the same with a shift of 24, and whenever the floored
quotient fits in a signed 32-bit integer the result is exactly that quotient. -/
theorem fix_mul_exact (a b : Int) (ha : isI32 a) (hb : isI32 b) :
    toI64 (a * b) = a * b ∧
    fix16_mul a b = toI32 (asr (a * b) 16) ∧
    fix24_mul a b = toI32 (asr (a * b) 24) ∧
    asr (a * b) 16 = a * b / 2 ^ 16 ∧
    asr (a * b) 24 = a * b / 2 ^ 24 ∧
    (isI32 (a * b / 2 ^ 16) → fix16_mul a b = a * b / 2 ^ 16) ∧
    (isI32 (a * b / 2 ^ 24) → fix24_mul a b = a * b / 2 ^ 24) := by
  have hw := widen_mul ha hb
  have h16 : fix16_mul a b = toI32 (asr (a * b) 16) := by
    unfold fix16_mul; simp only [hw]
  have h24 : fix24_mul a b = toI32 (asr (a * b) 24) := by
    unfold fix24_mul; simp only [hw]
  refine ⟨?_, h16, h24, asr_eq_div _ _, asr_eq_div _ _, ?_, ?_⟩
  · have hm := mul_bound ha hb
    unfold toI64
    generalize a * b = p at hm
    omega
  · intro h
    rw [h16, asr_eq_div, toI32_eq_self h]
  · intro h
    rw [h24, asr_eq_div, toI32_eq_self h]

theorem fix_mul_exact_witness :
    isI32 (-196608) ∧ isI32 98304 ∧
    fix16_mul (-196608) 98304 = -196608 * 98304 / 2 ^ 16 ∧
    fix24_mul (-196608) 98304 = -196608 * 98304 / 2 ^ 24 :=
  ⟨by decide, by decide,
    (fix_mul_exact (-196608) 98304 (by decide) (by decide)).2.2.2.2.2.1 (by decide),
    (fix_mul_exact (-196608) 98304 (by decide) (by decide)).2.2.2.2.2.2 (by decide)⟩

/-- C2: for signed 32-bit `a` and `b` the hardware `fix16_mul` (`SMULL`, then
`__ROR(__PKHBT(msb, lsb, 0), 16)`) returns the same 32-bit value as the portable
`fix16_mul`. -/
theorem fix16_mul_hw_eq_portable (a b : Int) (ha : isI32 a) (hb : isI32 b) :
    F373.fix16_mul a b = fix16_mul a b := by
  have hm := mul_bound ha hb
  have hw := widen_mul ha hb
  unfold F373.fix16_mul F373.SMULL F373.__PKHBT fix16_mul
  simp only [hw]
  rw [pack_rotate (bits32_lt _), Int.ofNat_eq_coe]
  push_cast
  rw [bits32_cast, bits32_cast, asr_eq_div, asr_eq_div]
  unfold toI32 toI64
  generalize a * b = p at hm
  omega

theorem fix16_mul_hw_eq_portable_witness :
    isI32 (-2147483648) ∧ isI32 2147483647 ∧
    F373.fix16_mul (-2147483648) 2147483647 = fix16_mul (-2147483648) 2147483647 :=
  ⟨by decide, by decide,
    fix16_mul_hw_eq_portable (-2147483648) 2147483647 (by decide) (by decide)⟩

/-! ## Saturation -/

/-- C3: for every `x` and every bit count `b ≤ 30`, `__USAT(x, b)` is `x` clamped into
`[0, 2^b - 1]`: `0` when `x < 0`, `2^b - 1` when `x > 2^b - 1`, `x` itself otherwise, so the
result always lies in `[0, 2^b - 1]`. -/
theorem usat_clamp (x : Int) (b : Nat) (hb : b ≤ 30) :
    (x < 0 → __USAT x b = 0) ∧
    (x > 2 ^ b - 1 → __USAT x b = 2 ^ b - 1) ∧
    (0 ≤ x → x ≤ 2 ^ b - 1 → __USAT x b = x) ∧
    0 ≤ __USAT x b ∧ __USAT x b ≤ 2 ^ b - 1 := by
  have h0 := two_pow_pos b
  unfold __USAT
  rw [usat_limit hb]
  generalize (2 : Int) ^ b = p at h0
  refine ⟨?_, ?_, ?_, ?_, ?_⟩
  · intro h; split_ifs <;> omega
  · intro h; split_ifs <;> omega
  · intro h1 h2
    split_ifs
    all_goals omega
  · split_ifs <;> omega
  · split_ifs <;> omega

theorem usat_clamp_witness :
    12 ≤ 30 ∧ __USAT (-7) 12 = 0 ∧ __USAT 5000 12 = 2 ^ 12 - 1 ∧ __USAT 4095 12 = 4095 :=
  ⟨by decide, (usat_clamp (-7) 12 (by decide)).1 (by decide),
    (usat_clamp 5000 12 (by decide)).2.1 (by decide),
    (usat_clamp 4095 12 (by decide)).2.2.1 (by decide) (by decide)⟩

/-- C4: for every `x` and every bit count `b` with `1 ≤ b ≤ 31`, `__SSAT(x, b)` is `x`
clamped into the symmetric range `[-(2^(b-1) - 1), 2^(b-1) - 1]`: `x` itself inside the
range and the nearer bound outside, so `-2^(b-1)` is never returned for `b ≥ 2`. -/
theorem ssat_clamp (x : Int) (b : Nat) (hb1 : 1 ≤ b) (hb : b ≤ 31) :
    (-(2 ^ (b - 1) - 1) ≤ x → x ≤ 2 ^ (b - 1) - 1 → __SSAT x b = x) ∧
    (x > 2 ^ (b - 1) - 1 → __SSAT x b = 2 ^ (b - 1) - 1) ∧
    (x < -(2 ^ (b - 1) - 1) → __SSAT x b = -(2 ^ (b - 1) - 1)) ∧
    -(2 ^ (b - 1) - 1) ≤ __SSAT x b ∧ __SSAT x b ≤ 2 ^ (b - 1) - 1 ∧
    (2 ≤ b → __SSAT x b ≠ -2 ^ (b - 1)) := by
  have h0 := two_pow_pos (b - 1)
  have h1 : (2 : Int) ^ (b - 1) ≤ 2 ^ 30 := two_pow_le_of_le (by omega)
  have h2 : 2 ≤ b → (2 : Int) ≤ 2 ^ (b - 1) := fun h => two_pow_ge_two (by omega)
  have hneg : neg32 (2 ^ (b - 1) - 1) = -(2 ^ (b - 1) - 1) := by
    unfold neg32 toI32
    generalize (2 : Int) ^ (b - 1) = p at h0 h1
    omega
  unfold __SSAT
  rw [ssat_max hb1 hb, hneg]
  generalize (2 : Int) ^ (b - 1) = p at h0 h1 h2
  refine ⟨?_, ?_, ?_, ?_, ?_, ?_⟩
  · intro h1 h2
    split_ifs
    all_goals omega
  · intro h; split_ifs <;> omega
  · intro h; split_ifs <;> omega
  · split_ifs <;> omega
  · split_ifs <;> omega
  · intro hb2
    have := h2 hb2
    split_ifs <;> omega

theorem ssat_clamp_witness :
    1 ≤ 12 ∧ 12 ≤ 31 ∧ __SSAT (-2048) 12 = -(2 ^ (12 - 1) - 1) ∧
    __SSAT 2047 12 = 2047 ∧ __SSAT (-2147483648) 12 ≠ -2 ^ (12 - 1) :=
  ⟨by decide, by decide, (ssat_clamp (-2048) 12 (by decide) (by decide)).2.2.1 (by decide),
    (ssat_clamp 2047 12 (by decide) (by decide)).1 (by decide) (by decide),
    (ssat_clamp (-2147483648) 12 (by decide) (by decide)).2.2.2.2.2 (by decide)⟩

/-! ## Absolute value -/

/-- C5: for every signed 32-bit `x`, `int32_abs(x)` equals `(x ^ (x >> 31)) - (x >> 31)`
under 32-bit wraparound; it is `|x|` for every `x > -2^31` and `-2^31` for `x = -2^31`. -/
theorem int32_abs_spec (x : Int) (hx : isI32 x) :
    int32_abs x = sub32 (xor32 x (asr x 31)) (asr x 31) ∧
    (-2 ^ 31 < x → int32_abs x = |x|) ∧
    (x = -2 ^ 31 → int32_abs x = -2 ^ 31) := by
  have hm := asr31 hx
  unfold isI32 at hx
  unfold int32_abs
  simp only []
  rw [hm]
  by_cases hneg : x < 0
  · simp only [hneg, if_true]
    rw [xor32_neg_one, xor32_neg_one]
    unfold add32 sub32 toI32
    refine ⟨by omega, ?_, ?_⟩
    · intro h
      rw [abs_of_neg hneg]
      omega
    · intro h
      omega
  · simp only [hneg, if_false]
    rw [xor32_zero, xor32_zero]
    unfold add32 sub32 toI32
    refine ⟨by omega, ?_, ?_⟩
    · intro h
      rw [abs_of_nonneg (by omega)]
      omega
    · intro h
      omega

theorem int32_abs_spec_witness :
    isI32 (-2147483648) ∧ isI32 (-2147483647) ∧ int32_abs (-2147483648) = -2 ^ 31 ∧
    int32_abs (-2147483647) = |(-2147483647 : Int)| :=
  ⟨by decide, by decide, (int32_abs_spec (-2147483648) (by decide)).2.2 (by decide),
    (int32_abs_spec (-2147483647) (by decide)).2.1 (by decide)⟩

/-! ## Circular buffers -/

/-- C6: for each depth `D` in `8, 32, 256`, a write of `v` to a buffer with cursor `c` stores
`v` in slot `c mod D`, sets the cursor to `c + 1` (as an `int32_t`; exactly `c + 1` whenever
that is representable) and leaves every other slot unchanged. -/
theorem write_stores_at_cursor (bl : lilBuffer) (b : buffer) (bL : longBuffer) (v : Int) :
    ((∀ j : Fin 8, ((j.val : Nat) : Int) = bl.writeIndex % 8 → (writeLilBuffer bl v).buff j = v) ∧
    (writeLilBuffer bl v).writeIndex = toI32 (bl.writeIndex + 1) ∧
    (isI32 (bl.writeIndex + 1) → (writeLilBuffer bl v).writeIndex = bl.writeIndex + 1) ∧
    (∀ j : Fin 8, ((j.val : Nat) : Int) ≠ bl.writeIndex % 8 →
      (writeLilBuffer bl v).buff j = bl.buff j)) ∧
    ((∀ j : Fin 32, ((j.val : Nat) : Int) = b.writeIndex % 32 → (writeBuffer b v).buff j = v) ∧
    (writeBuffer b v).writeIndex = toI32 (b.writeIndex + 1) ∧
    (isI32 (b.writeIndex + 1) → (writeBuffer b v).writeIndex = b.writeIndex + 1) ∧
    (∀ j : Fin 32, ((j.val : Nat) : Int) ≠ b.writeIndex % 32 →
      (writeBuffer b v).buff j = b.buff j)) ∧
    ((∀ j : Fin 256, ((j.val : Nat) : Int) = bL.writeIndex % 256 → (writeLongBuffer bL v).buff j = v) ∧
    (writeLongBuffer bL v).writeIndex = toI32 (bL.writeIndex + 1) ∧
    (isI32 (bL.writeIndex + 1) → (writeLongBuffer bL v).writeIndex = bL.writeIndex + 1) ∧
    (∀ j : Fin 256, ((j.val : Nat) : Int) ≠ bL.writeIndex % 256 →
      (writeLongBuffer bL v).buff j = bL.buff j)) := by
  have h8 := update_andIdx 3 7 rfl (by norm_num) bl.buff bl.writeIndex v
  have h32 := update_andIdx 5 31 rfl (by norm_num) b.buff b.writeIndex v
  have h256 := update_andIdx 8 255 rfl (by norm_num) bL.buff bL.writeIndex v
  norm_num at h8 h32 h256
  refine ⟨⟨h8.1, rfl, ?_, h8.2⟩, ⟨h32.1, rfl, ?_, h32.2⟩, ⟨h256.1, rfl, ?_, h256.2⟩⟩
  · intro h; exact toI32_eq_self h
  · intro h; exact toI32_eq_self h
  · intro h; exact toI32_eq_self h

theorem write_stores_at_cursor_witness :
    (writeBuffer ⟨fun _ => 0, 37⟩ 42).buff 5 = 42 ∧
    (writeBuffer ⟨fun _ => 0, 37⟩ 42).writeIndex = 37 + 1 ∧
    (writeBuffer ⟨fun _ => 0, 37⟩ 42).buff 6 = 0 :=
  ⟨(write_stores_at_cursor ⟨fun _ => 0, 37⟩ ⟨fun _ => 0, 37⟩ ⟨fun _ => 0, 37⟩ 42).2.1.1 5
      (by decide),
    (write_stores_at_cursor ⟨fun _ => 0, 37⟩ ⟨fun _ => 0, 37⟩ ⟨fun _ => 0, 37⟩ 42).2.1.2.2.1
      (by decide),
    (write_stores_at_cursor ⟨fun _ => 0, 37⟩ ⟨fun _ => 0, 37⟩ ⟨fun _ => 0, 37⟩ 42).2.1.2.2.2 6
      (by decide)⟩

/-- C7: for each depth `D` in `8, 32, 256`, any starting contents and cursor, after writing
the values `vs = v_1, ..., v_n` the read at offset `k < min(n, D)` returns `v_(n-k)`, the
`k`-th entry of `vs` reversed; after exactly `D` writes the reads at offsets `0..D-1` are
`vs` in reverse write order, most recent first. -/
theorem read_after_writes (vs : List Int) (k : Nat) (hk : k < vs.length) :
    (∀ b : lilBuffer, k < 8 →
      vs.reverse[k]? = some (readLilBuffer (vs.foldl writeLilBuffer b) k)) ∧
    (∀ b : buffer, k < 32 →
      vs.reverse[k]? = some (readBuffer (vs.foldl writeBuffer b) k)) ∧
    (∀ b : longBuffer, k < 256 →
      vs.reverse[k]? = some (readLongBuffer (vs.foldl writeLongBuffer b) k)) ∧
    (∀ b : lilBuffer, vs.length = 8 →
      (List.range 8).map (fun i : Nat => readLilBuffer (vs.foldl writeLilBuffer b) i)
        = vs.reverse) ∧
    (∀ b : buffer, vs.length = 32 →
      (List.range 32).map (fun i : Nat => readBuffer (vs.foldl writeBuffer b) i)
        = vs.reverse) ∧
    (∀ b : longBuffer, vs.length = 256 →
      (List.range 256).map (fun i : Nat => readLongBuffer (vs.foldl writeLongBuffer b) i)
        = vs.reverse) := by
  refine ⟨?_, ?_, ?_, ?_, ?_, ?_⟩
  · intro b hD
    exact readLilBuffer_after_writes vs b k hk hD
  · intro b hD
    exact readBuffer_after_writes vs b k hk hD
  · intro b hD
    exact readLongBuffer_after_writes vs b k hk hD
  · intro b hlen
    exact range_map_eq_reverse _ vs 8 hlen
      (fun i hi => readLilBuffer_after_writes vs b i (by omega) hi)
  · intro b hlen
    exact range_map_eq_reverse _ vs 32 hlen
      (fun i hi => readBuffer_after_writes vs b i (by omega) hi)
  · intro b hlen
    exact range_map_eq_reverse _ vs 256 hlen
      (fun i hi => readLongBuffer_after_writes vs b i (by omega) hi)

theorem read_after_writes_witness :
    1 < ([11, 22, 33] : List Int).length ∧
    some (22 : Int)
      = some (readBuffer (([11, 22, 33] : List Int).foldl writeBuffer ⟨fun _ => 0, 30⟩) 1) :=
  ⟨by decide, (read_after_writes [11, 22, 33] 1 (by decide)).2.1 ⟨fun _ => 0, 30⟩ (by decide)⟩

/-- C8, as stated, fails: after writing 10 and then 20 into a zeroed buffer, the read at
offset 0 returns 20, the most recently written value, not 10, the value written one write
before it. -/
theorem read_offset_zero_counterexample :
    readBuffer (writeBuffer (writeBuffer ⟨fun _ => 0, 0⟩ 10) 20) 0 = 20 ∧
    readBuffer (writeBuffer (writeBuffer ⟨fun _ => 0, 0⟩ 10) 20) 0 ≠ 10 ∧
    readLilBuffer (writeLilBuffer (writeLilBuffer ⟨fun _ => 0, 0⟩ 10) 20) 0 = 20 ∧
    readLilBuffer (writeLilBuffer (writeLilBuffer ⟨fun _ => 0, 0⟩ 10) 20) 0 ≠ 10 := by
  decide

/-- C8, amended: the read index `cursor + ~offset` is `cursor - 1 - offset`, and each write
advances the cursor after storing, so reading at offset 0 returns the most recently written
value, and offset 1 returns the value written one write before the most recent write. -/
theorem read_offset_zero_is_latest (bl : lilBuffer) (b : buffer) (bL : longBuffer)
    (w v c k : Int) :
    add32 c (not32 k) = toI32 (c - 1 - k) ∧
    readLilBuffer (writeLilBuffer bl v) 0 = v ∧
    readBuffer (writeBuffer b v) 0 = v ∧
    readLongBuffer (writeLongBuffer bL v) 0 = v ∧
    readLilBuffer (writeLilBuffer (writeLilBuffer bl w) v) 1 = w ∧
    readBuffer (writeBuffer (writeBuffer b w) v) 1 = w ∧
    readLongBuffer (writeLongBuffer (writeLongBuffer bL w) v) 1 = w := by
  have h8 := readLilBuffer_write_succ (writeLilBuffer bl w) v 0 (by norm_num)
  have h32 := readBuffer_write_succ (writeBuffer b w) v 0 (by norm_num)
  have h256 := readLongBuffer_write_succ (writeLongBuffer bL w) v 0 (by norm_num)
  simp only [Nat.cast_zero, zero_add] at h8 h32 h256
  rw [readLilBuffer_write_zero] at h8
  rw [readBuffer_write_zero] at h32
  rw [readLongBuffer_write_zero] at h256
  refine ⟨?_, readLilBuffer_write_zero bl v, readBuffer_write_zero b v,
    readLongBuffer_write_zero bL v, h8, h32, h256⟩
  unfold add32 not32 toI32
  rw [not_eq_neg_sub_one]
  omega

/-! ## Linear interpolation -/

/-- C9: for every signed 32-bit `a` and every `b`, each portable linear interpolation
returns its first operand at fraction 0: `fix16_lerp(a, b, 0) = a`,
`fast_fix15_lerp(a, b, 0) = a` and `fast_15_16_lerp(a, b, 0) = a`. -/
theorem lerp_frac_zero (a b : Int) (ha : isI32 a) :
    fix16_lerp a b 0 = a ∧ fast_fix15_lerp a b 0 = a ∧ fast_15_16_lerp a b 0 = a := by
  have hs : shl32 0 1 = 0 := by decide
  have hd : isI32 (sub32 b a) := isI32_toI32 _
  have hz : fix16_mul (sub32 b a) 0 = 0 := by
    rw [fix16_mul_eq hd isI32_zero, mul_zero]
    decide
  have hm : asr (mul32 (sub32 b a) 0) 16 = 0 := by
    unfold mul32
    rw [mul_zero]
    decide
  unfold fix16_lerp fast_fix15_lerp fast_15_16_lerp
  rw [hs, hz, hm]
  unfold add32
  rw [add_zero, toI32_eq_self ha]
  exact ⟨rfl, rfl, rfl⟩

theorem lerp_frac_zero_witness :
    isI32 (-2147483648) ∧
    (fix16_lerp (-2147483648) 2147483647 0 = -2147483648 ∧
     fast_fix15_lerp (-2147483648) 2147483647 0 = -2147483648 ∧
     fast_15_16_lerp (-2147483648) 2147483647 0 = -2147483648) :=
  ⟨by decide, lerp_frac_zero (-2147483648) 2147483647 (by decide)⟩

/-- C10, as stated, fails: `fix16_lerp(0, 65537, 0xFFFF)` is 65535, which differs from
`b = 65537` by 2. -/
theorem fix16_lerp_max_frac_counterexample :
    fix16_lerp 0 65537 65535 = 65535 ∧ ¬ (|fix16_lerp 0 65537 65535 - 65537| ≤ 1) := by
  have h : fix16_lerp 0 65537 65535 = 65535 := by decide
  rw [h]
  refine ⟨rfl, ?_⟩
  norm_num

/-- C10, amended: for signed 32-bit `a` and `b` whose difference `b - a` is representable,
`fix16_lerp(a, b, 0xFFFF) = b - ceil((b - a) / 2^16)`; it differs from `b` by at most 1
exactly when `-131071 ≤ b - a ≤ 65536`, and by at most `2^15` in every case. -/
theorem fix16_lerp_max_frac (a b : Int) (ha : isI32 a) (hb : isI32 b) (hd : isI32 (b - a)) :
    fix16_lerp a b 65535 = b + (-(b - a)) / 2 ^ 16 ∧
    (|fix16_lerp a b 65535 - b| ≤ 1 ↔ -131071 ≤ b - a ∧ b - a ≤ 65536) ∧
    |fix16_lerp a b 65535 - b| ≤ 2 ^ 15 := by
  have h : fix16_lerp a b 65535 = b + (-(b - a)) / 2 ^ 16 := by
    rw [fix16_lerp_max_closed a b, toI32_eq_self hd]
    apply toI32_eq_self
    unfold isI32 at *
    omega
  rw [h]
  unfold isI32 at *
  refine ⟨rfl, ?_, ?_⟩
  · rw [abs_le]
    constructor
    · intro h1; omega
    · intro h1; constructor <;> omega
  · rw [abs_le]
    constructor <;> omega

theorem fix16_lerp_max_frac_witness :
    isI32 0 ∧ isI32 65536 ∧ isI32 (65536 - 0) ∧ |fix16_lerp 0 65536 65535 - 65536| ≤ 1 :=
  ⟨by decide, by decide, by decide,
    (fix16_lerp_max_frac 0 65536 (by decide) (by decide) (by decide)).2.1.mpr
      ⟨by decide, by decide⟩⟩



theorem and32_low16 (w : Int) : and32 w 0xFFFF = w % 2 ^ 16 := by
  have hm : bits32 0xFFFF = 2 ^ 16 - 1 := by decide
  unfold and32
  rw [hm, Nat.and_pow_two_sub_one_eq_mod, Int.ofNat_eq_coe]
  push_cast
  rw [bits32_cast]
  unfold toI32
  omega

theorem and32_low16_comm (w : Int) : and32 0xFFFF w = w % 2 ^ 16 := by
  have h : and32 0xFFFF w = and32 w 0xFFFF := by
    unfold and32
    rw [Nat.and_comm]
  rw [h, and32_low16]

theorem prediff_eq (w f : Int) :
    fast_15_16_lerp_prediff w f = w % 2 ^ 16 + toI32 (w / 2 ^ 16 * f) / 2 ^ 16 := by
  have h := isI32_toI32 (w / 2 ^ 16 * f)
  unfold fast_15_16_lerp_prediff add32 mul32
  rw [and32_low16, asr_eq_div, asr_eq_div]
  apply toI32_eq_self
  unfold isI32 at h ⊢
  omega

theorem prediff_bounds (w f : Int) :
    -32768 ≤ fast_15_16_lerp_prediff w f ∧ fast_15_16_lerp_prediff w f ≤ 98302 := by
  have h := isI32_toI32 (w / 2 ^ 16 * f)
  rw [prediff_eq]
  unfold isI32 at h
  omega

theorem pack_word {base delta : Int} (hb : 0 ≤ base ∧ base ≤ 65535)
    (hd : -32768 ≤ delta ∧ delta ≤ 32767) :
    or32 base (shl32 delta 16) = delta * 2 ^ 16 + base := by
  have hs : shl32 delta 16 = delta * 2 ^ 16 := by
    unfold shl32
    apply toI32_eq_self
    unfold isI32
    omega
  have hB : bits32 base < 2 ^ 16 := by
    unfold bits32 toU32
    omega
  have hD : bits32 (delta * 2 ^ 16) = 2 ^ 16 * (bits32 (delta * 2 ^ 16) / 2 ^ 16) := by
    unfold bits32 toU32
    omega
  have hcB := bits32_cast base
  have hcD := bits32_cast (delta * 2 ^ 16)
  unfold or32
  rw [hs, hD, Nat.or_comm, ← Nat.mul_add_lt_is_or hB, ← hD, Int.ofNat_eq_coe]
  generalize bits32 (delta * 2 ^ 16) = n at hcD
  generalize bits32 base = m at hcB
  push_cast
  unfold toI32
  omega

/-! ## Interpolation variants -/

/-- C12: for a packed word `w = base | (delta << 16)` with `base` in `[0, 65535]` and
`delta` in `[-32768, 32767]`, and every fraction `f` in `[0, 65535]`,
`fast_15_16_lerp_prediff(w, f) = base + floor(delta * f / 2^16)`, which is also
`fast_15_16_lerp(base, base + delta, f)`. -/
theorem prediff_eq_two_operand_lerp (base delta f : Int) (hb : 0 ≤ base ∧ base ≤ 65535)
    (hd : -32768 ≤ delta ∧ delta ≤ 32767) (hf : 0 ≤ f ∧ f ≤ 65535) :
    fast_15_16_lerp_prediff (or32 base (shl32 delta 16)) f = base + delta * f / 2 ^ 16 ∧
    fast_15_16_lerp base (base + delta) f = base + delta * f / 2 ^ 16 := by
  have hq : -32768 * 65535 ≤ delta * f ∧ delta * f ≤ 32767 * 65535 := by
    constructor <;> nlinarith [hd.1, hd.2, hf.1, hf.2]
  have hw1 : (delta * 2 ^ 16 + base) % 2 ^ 16 = base := by omega
  have hw2 : (delta * 2 ^ 16 + base) / 2 ^ 16 = delta := by omega
  have hm : toI32 (delta * f) = delta * f := by
    apply toI32_eq_self
    unfold isI32
    omega
  constructor
  · rw [pack_word hb hd, prediff_eq, hw1, hw2, hm]
  · have hsub : sub32 (base + delta) base = delta := by
      unfold sub32
      rw [add_sub_cancel_left]
      apply toI32_eq_self
      unfold isI32
      omega
    unfold fast_15_16_lerp add32 mul32
    rw [hsub, hm, asr_eq_div]
    apply toI32_eq_self
    unfold isI32
    generalize delta * f = q at hq
    omega


theorem prediff_eq_two_operand_lerp_witness :
    (0 ≤ (100 : Int) ∧ (100 : Int) ≤ 65535) ∧ (-32768 ≤ (-50 : Int) ∧ (-50 : Int) ≤ 32767) ∧
    (0 ≤ (32768 : Int) ∧ (32768 : Int) ≤ 65535) ∧
    fast_15_16_lerp_prediff (or32 100 (shl32 (-50) 16)) 32768 = 100 + -50 * 32768 / 2 ^ 16 ∧
    fast_15_16_lerp 100 (100 + -50) 32768 = 100 + -50 * 32768 / 2 ^ 16 :=
  ⟨by decide, by decide, by decide,
    prediff_eq_two_operand_lerp 100 (-50) 32768 (by decide) (by decide) (by decide)⟩

theorem fix16_lerp_small {in0 in1 g : Int} (h0 : 0 ≤ in0 ∧ in0 ≤ 65535)
    (h1 : 0 ≤ in1 ∧ in1 ≤ 65535) (hg : 0 ≤ g ∧ g ≤ 65535) :
    fix16_lerp in0 in1 g = in0 + (in1 - in0) * g / 2 ^ 16 := by
  have hq : -65535 * 65535 ≤ (in1 - in0) * g ∧ (in1 - in0) * g ≤ 65535 * 65535 := by
    constructor <;> nlinarith [h0.1, h0.2, h1.1, h1.2, hg.1, hg.2]
  have hsub : sub32 in1 in0 = in1 - in0 := by
    unfold sub32
    apply toI32_eq_self
    unfold isI32
    omega
  have hd : isI32 (in1 - in0) := by unfold isI32; omega
  have hgi : isI32 g := by unfold isI32; omega
  unfold fix16_lerp add32
  rw [hsub, fix16_mul_eq hd hgi]
  generalize (in1 - in0) * g = q at hq
  unfold toI32
  omega

theorem hw_fix15_lerp_eq {in0 in1 f : Int} (h0 : 0 ≤ in0 ∧ in0 ≤ 65535)
    (h1 : 0 ≤ in1 ∧ in1 ≤ 65535) (hf : 0 ≤ f ∧ f ≤ 32767) :
    F373.fast_fix15_lerp in0 in1 f = 2 * ((in1 - in0) * f / 2 ^ 16 + in0 / 2) := by
  have hq : -65535 * 32767 ≤ (in1 - in0) * f ∧ (in1 - in0) * f ≤ 65535 * 32767 := by
    constructor <;> nlinarith [h0.1, h0.2, h1.1, h1.2, hf.1, hf.2]
  have hsub : sub32 in1 in0 = in1 - in0 := by
    unfold sub32
    apply toI32_eq_self
    unfold isI32
    omega
  have h16 : F373.toI16 f = f := by
    unfold F373.toI16
    omega
  unfold F373.fast_fix15_lerp F373.SMLAWB shl32
  simp only []
  rw [hsub, h16, asr_eq_div, asr_eq_div]
  generalize (in1 - in0) * f = q at hq
  unfold toI32
  omega

/-- C11, as stated, fails: with `in0 = 1`, `in1 = 3` and `f = 16384` the hardware
`fast_fix15_lerp` returns 0 while `fix16_lerp(1, 3, 2*f)` is 2, a difference of two units. -/
theorem hw_fix15_lerp_counterexample :
    F373.fast_fix15_lerp 1 3 16384 = 0 ∧ fix16_lerp 1 3 (2 * 16384) = 2 ∧
    ¬ (|F373.fast_fix15_lerp 1 3 16384 - fix16_lerp 1 3 (2 * 16384)| ≤ 1) := by
  have h1 : F373.fast_fix15_lerp 1 3 16384 = 0 := by decide
  have h2 : fix16_lerp 1 3 (2 * 16384) = 2 := by decide
  rw [h1, h2]
  refine ⟨rfl, rfl, ?_⟩
  norm_num

/-- C11, amended: for 16-bit operands `in0`, `in1` in `[0, 65535]` and every fraction `f`
in `[0, 0x7FFF]`, the portable `fast_fix15_lerp` equals `fix16_lerp(in0, in1, 2*f)` exactly,
and the hardware `fast_fix15_lerp` is even, never exceeds `fix16_lerp(in0, in1, 2*f)` and is
at most 2 below it. -/
theorem fix15_lerp_vs_fix16_lerp (in0 in1 f : Int) (h0 : 0 ≤ in0 ∧ in0 ≤ 65535)
    (h1 : 0 ≤ in1 ∧ in1 ≤ 65535) (hf : 0 ≤ f ∧ f ≤ 0x7FFF) :
    fast_fix15_lerp in0 in1 f = fix16_lerp in0 in1 (2 * f) ∧
    F373.fast_fix15_lerp in0 in1 f % 2 = 0 ∧
    F373.fast_fix15_lerp in0 in1 f ≤ fix16_lerp in0 in1 (2 * f) ∧
    fix16_lerp in0 in1 (2 * f) ≤ F373.fast_fix15_lerp in0 in1 f + 2 := by
  have hs : shl32 f 1 = 2 * f := by
    unfold shl32
    rw [pow_one, mul_comm]
    apply toI32_eq_self
    unfold isI32
    omega
  have hp : fast_fix15_lerp in0 in1 f = fix16_lerp in0 in1 (2 * f) := by
    unfold fast_fix15_lerp fix16_lerp
    rw [hs]
  have hq : -65535 * 32767 ≤ (in1 - in0) * f ∧ (in1 - in0) * f ≤ 65535 * 32767 := by
    constructor <;> nlinarith [h0.1, h0.2, h1.1, h1.2, hf.1, hf.2]
  have hm : (in1 - in0) * (2 * f) = 2 * ((in1 - in0) * f) := by ring
  refine ⟨hp, ?_⟩
  rw [hw_fix15_lerp_eq h0 h1 hf, fix16_lerp_small h0 h1 (by omega), hm]
  refine ⟨?_, ?_, ?_⟩
  · omega
  · generalize (in1 - in0) * f = q at hq
    omega
  · generalize (in1 - in0) * f = q at hq
    omega

theorem fix15_lerp_vs_fix16_lerp_witness :
    (0 ≤ (1 : Int) ∧ (1 : Int) ≤ 65535) ∧ (0 ≤ (3 : Int) ∧ (3 : Int) ≤ 65535) ∧
    (0 ≤ (16384 : Int) ∧ (16384 : Int) ≤ 0x7FFF) ∧
    fast_fix15_lerp 1 3 16384 = fix16_lerp 1 3 (2 * 16384) ∧
    F373.fast_fix15_lerp 1 3 16384 % 2 = 0 ∧
    F373.fast_fix15_lerp 1 3 16384 ≤ fix16_lerp 1 3 (2 * 16384) ∧
    fix16_lerp 1 3 (2 * 16384) ≤ F373.fast_fix15_lerp 1 3 16384 + 2 :=
  ⟨by decide, by decide, by decide,
    fix15_lerp_vs_fix16_lerp 1 3 16384 (by decide) (by decide) (by decide)⟩

/-- C13: for all inputs `fix15_bilerp(a, b, c, d, f0, f1)` is
`fast_fix15_lerp(fast_fix15_lerp(a, b, f0), fast_fix15_lerp(c, d, f0), f1)`, and
`fast_15_16_bilerp_prediff(w0, w1, f0, f1)` is `fast_15_16_lerp` of the two
`fast_15_16_lerp_prediff` results of the first stage by `f1`. -/
theorem bilerp_is_two_stage (a b c d w0 w1 f0 f1 : Int) :
    fix15_bilerp a b c d f0 f1
      = fast_fix15_lerp (fast_fix15_lerp a b f0) (fast_fix15_lerp c d f0) f1 ∧
    fast_15_16_bilerp_prediff w0 w1 f0 f1
      = fast_15_16_lerp (fast_15_16_lerp_prediff w0 f0) (fast_15_16_lerp_prediff w1 f0) f1 := by
  unfold fix15_bilerp fast_15_16_bilerp_prediff fast_15_16_lerp fast_15_16_lerp_prediff
  exact ⟨rfl, rfl⟩

theorem sub32_prediff (w0 w1 f0 : Int) :
    sub32 (fast_15_16_lerp_prediff w1 f0) (fast_15_16_lerp_prediff w0 f0)
      = fast_15_16_lerp_prediff w1 f0 - fast_15_16_lerp_prediff w0 f0 := by
  have h0 := prediff_bounds w0 f0
  have h1 := prediff_bounds w1 f0
  unfold sub32
  apply toI32_eq_self
  unfold isI32
  omega

theorem sign_bit_of_diff {s0 s1 : Int} (h0 : -32768 ≤ s0 ∧ s0 ≤ 98302)
    (h1 : -32768 ≤ s1 ∧ s1 ≤ 98302) :
    toI32 (lsr32 (toU32 s1 - toU32 s0) 31) = (if s1 - s0 < 0 then 1 else 0) ∧
    toI32 (lsr32 (sub32 s1 s0) 31) = (if s1 - s0 < 0 then 1 else 0) := by
  unfold lsr32 sub32 toU32 toI32
  split_ifs <;> omega

/-- C14: for all inputs the `_delta` and `_deltaValue` variants return the same sample as
`fast_15_16_bilerp_prediff`; the `_deltaValue` variant writes `s1 - s0`, the difference of the
two first-stage results, and the `_delta` variant writes 0 or 1, and 1 exactly when
`s1 - s0` is negative. -/
theorem bilerp_prediff_delta_variants (w0 w1 f0 f1 : Int) :
    (fast_15_16_bilerp_prediff_delta w0 w1 f0 f1).1 = fast_15_16_bilerp_prediff w0 w1 f0 f1 ∧
    (fast_15_16_bilerp_prediff_deltaValue w0 w1 f0 f1).1
      = fast_15_16_bilerp_prediff w0 w1 f0 f1 ∧
    (fast_15_16_bilerp_prediff_deltaValue w0 w1 f0 f1).2
      = fast_15_16_lerp_prediff w1 f0 - fast_15_16_lerp_prediff w0 f0 ∧
    ((fast_15_16_bilerp_prediff_delta w0 w1 f0 f1).2 = 0 ∨
      (fast_15_16_bilerp_prediff_delta w0 w1 f0 f1).2 = 1) ∧
    ((fast_15_16_bilerp_prediff_delta w0 w1 f0 f1).2 = 1 ↔
      fast_15_16_lerp_prediff w1 f0 - fast_15_16_lerp_prediff w0 f0 < 0) := by
  have hv : (fast_15_16_bilerp_prediff_deltaValue w0 w1 f0 f1).2
      = sub32 (fast_15_16_lerp_prediff w1 f0) (fast_15_16_lerp_prediff w0 f0) := rfl
  have hd : (fast_15_16_bilerp_prediff_delta w0 w1 f0 f1).2
      = toI32 (lsr32 (toU32 (fast_15_16_lerp_prediff w1 f0)
          - toU32 (fast_15_16_lerp_prediff w0 f0)) 31) := rfl
  rw [hv, hd, sub32_prediff,
    (sign_bit_of_diff (prediff_bounds w0 f0) (prediff_bounds w1 f0)).1]
  refine ⟨rfl, rfl, rfl, ?_, ?_⟩
  · split_ifs
    · exact Or.inr rfl
    · exact Or.inl rfl
  · split_ifs with h
    · exact ⟨fun _ => h, fun _ => rfl⟩
    · exact ⟨fun hc => absurd hc (by norm_num), fun hc => absurd hc h⟩


theorem read_in_bounds (tbl : List Int) (i : Nat) (h : i < tbl.length) :
    tbl[i]? = some (tbl.getD i 0) := by
  rw [List.getD_eq_getElem?_getD, List.getElem?_eq_getElem h]
  rfl

theorem spline_some (phase morph : Int) (tbl : List Int)
    (h : leftIndex phase morph + 5 < tbl.length) :
    getSampleQuinticSpline phase morph tbl
      = some (__USAT (quinticOut (morphedSample phase morph tbl 0)
            (morphedSample phase morph tbl 1) (morphedSample phase morph tbl 2)
            (morphedSample phase morph tbl 3) (morphedSample phase morph tbl 4)
            (morphedSample phase morph tbl 5) (and32 0xFFFF phase)) 15,
          toI32 (lsr32 (sub32 (morphedSample phase morph tbl 3)
            (morphedSample phase morph tbl 2)) 31)) := by
  have e0 := read_in_bounds tbl (leftIndex phase morph) (by omega)
  have e1 := read_in_bounds tbl (leftIndex phase morph + 1) (by omega)
  have e2 := read_in_bounds tbl (leftIndex phase morph + 2) (by omega)
  have e3 := read_in_bounds tbl (leftIndex phase morph + 3) (by omega)
  have e4 := read_in_bounds tbl (leftIndex phase morph + 4) (by omega)
  have e5 := read_in_bounds tbl (leftIndex phase morph + 5) (by omega)
  unfold leftIndex at e0 e1 e2 e3 e4 e5
  unfold getSampleQuinticSpline morphedSample leftIndex
  simp only [e0, e1, e2, e3, e4, e5, Option.bind_eq_bind, Option.some_bind, Option.pure_def,
    bind_pure_comp, Option.map_some', Function.comp, add_zero]

theorem splineDeltaValue_some (phase morph interpOff : Int) (tbl : List Int)
    (h : leftIndex phase morph + 5 < tbl.length) :
    getSampleQuinticSplineDeltaValue phase morph tbl interpOff
      = some (__USAT (toI32 (toU32 (quinticOut (morphedSample phase morph tbl 0)
            (morphedSample phase morph tbl 1) (morphedSample phase morph tbl 2)
            (morphedSample phase morph tbl 3) (morphedSample phase morph tbl 4)
            (morphedSample phase morph tbl 5) (and32 0xFFFF phase))
          + toU32 (toU32 (sub32 (morphedSample phase morph tbl 2)
              (quinticOut (morphedSample phase morph tbl 0)
                (morphedSample phase morph tbl 1) (morphedSample phase morph tbl 2)
                (morphedSample phase morph tbl 3) (morphedSample phase morph tbl 4)
                (morphedSample phase morph tbl 5) (and32 0xFFFF phase)))
            * toU32 interpOff))) 15,
          sub32 (morphedSample phase morph tbl 3) (morphedSample phase morph tbl 2)) := by
  have e0 := read_in_bounds tbl (leftIndex phase morph) (by omega)
  have e1 := read_in_bounds tbl (leftIndex phase morph + 1) (by omega)
  have e2 := read_in_bounds tbl (leftIndex phase morph + 2) (by omega)
  have e3 := read_in_bounds tbl (leftIndex phase morph + 3) (by omega)
  have e4 := read_in_bounds tbl (leftIndex phase morph + 4) (by omega)
  have e5 := read_in_bounds tbl (leftIndex phase morph + 5) (by omega)
  unfold leftIndex at e0 e1 e2 e3 e4 e5
  unfold getSampleQuinticSplineDeltaValue morphedSample leftIndex
  simp only [e0, e1, e2, e3, e4, e5, Option.bind_eq_bind, Option.some_bind, Option.pure_def,
    bind_pure_comp, Option.map_some', Function.comp, add_zero]


theorem usat15_eq (x : Int) :
    __USAT x 15 = if x > 32767 then 32767 else if x < 0 then 0 else x := by
  have h : sub32 (shl32 1 15) 1 = 32767 := by decide
  unfold __USAT
  rw [h]

theorem usat15_range (x : Int) : 0 ≤ __USAT x 15 ∧ __USAT x 15 ≤ 2 ^ 15 - 1 := by
  rw [usat15_eq]
  split_ifs <;> constructor <;> omega

theorem isI32_quinticOut (s0 s1 s2 s3 s4 s5 f : Int) : isI32 (quinticOut s0 s1 s2 s3 s4 s5 f) := by
  unfold quinticOut
  exact isI32_toI32 _

/-! ## Quintic spline evaluator -/

/-- C15: for every phase, morph and table with the six reads in bounds,
`getSampleQuinticSpline` and `getSampleQuinticSplineDeltaValue` return a value of the form
`__USAT(out, 15)`, which lies in `[0, 2^15 - 1]`. -/
theorem spline_sample_range (phase morph interpOff : Int) (tbl : List Int)
    (h : leftIndex phase morph + 5 < tbl.length) :
    (∃ out, (getSampleQuinticSpline phase morph tbl).map Prod.fst = some (__USAT out 15) ∧
      0 ≤ __USAT out 15 ∧ __USAT out 15 ≤ 2 ^ 15 - 1) ∧
    (∃ out, (getSampleQuinticSplineDeltaValue phase morph tbl interpOff).map Prod.fst
        = some (__USAT out 15) ∧
      0 ≤ __USAT out 15 ∧ __USAT out 15 ≤ 2 ^ 15 - 1) := by
  rw [spline_some phase morph tbl h, splineDeltaValue_some phase morph interpOff tbl h]
  simp only [Option.map_some']
  exact ⟨⟨_, rfl, usat15_range _⟩, ⟨_, rfl, usat15_range _⟩⟩

theorem spline_sample_range_witness :
    leftIndex 0 0 + 5 < ([0, 0, 7, 9, 11, 13] : List Int).length ∧
    (∃ out, (getSampleQuinticSpline 0 0 [0, 0, 7, 9, 11, 13]).map Prod.fst
        = some (__USAT out 15) ∧ 0 ≤ __USAT out 15 ∧ __USAT out 15 ≤ 2 ^ 15 - 1) ∧
    (∃ out, (getSampleQuinticSplineDeltaValue 0 0 [0, 0, 7, 9, 11, 13] 1).map Prod.fst
        = some (__USAT out 15) ∧ 0 ≤ __USAT out 15 ∧ __USAT out 15 ≤ 2 ^ 15 - 1) :=
  ⟨by decide, spline_sample_range 0 0 1 [0, 0, 7, 9, 11, 13] (by decide)⟩

theorem morphedSample_bounds (phase morph : Int) (tbl : List Int) (j : Nat) :
    -32768 ≤ morphedSample phase morph tbl j ∧ morphedSample phase morph tbl j ≤ 98302 := by
  unfold morphedSample
  exact prediff_bounds _ _

/-- C19: with the six reads in bounds, `getSampleQuinticSpline` writes a delta that is 0
or 1, and 1 exactly when the morphed `sample3` is below the morphed `sample2`, while
`getSampleQuinticSplineDeltaValue` writes the raw difference `sample3 - sample2`. -/
theorem spline_delta_outputs (phase morph interpOff : Int) (tbl : List Int)
    (h : leftIndex phase morph + 5 < tbl.length) :
    (∃ delta, (getSampleQuinticSpline phase morph tbl).map Prod.snd = some delta ∧
      (delta = 0 ∨ delta = 1) ∧
      (delta = 1 ↔ morphedSample phase morph tbl 3 < morphedSample phase morph tbl 2)) ∧
    (getSampleQuinticSplineDeltaValue phase morph tbl interpOff).map Prod.snd
      = some (morphedSample phase morph tbl 3 - morphedSample phase morph tbl 2) := by
  have hs := sign_bit_of_diff (morphedSample_bounds phase morph tbl 2)
    (morphedSample_bounds phase morph tbl 3)
  have hv : sub32 (morphedSample phase morph tbl 3) (morphedSample phase morph tbl 2)
      = morphedSample phase morph tbl 3 - morphedSample phase morph tbl 2 :=
    sub32_prediff _ _ _
  rw [spline_some phase morph tbl h, splineDeltaValue_some phase morph interpOff tbl h]
  simp only [Option.map_some']
  rw [hs.2, hv]
  refine ⟨⟨_, rfl, ?_, ?_⟩, rfl⟩
  · split_ifs
    · exact Or.inr rfl
    · exact Or.inl rfl
  · split_ifs with hlt
    · exact ⟨fun _ => by omega, fun _ => rfl⟩
    · exact ⟨fun hc => absurd hc (by norm_num), fun hc => absurd (by omega) hlt⟩

theorem spline_delta_outputs_witness :
    leftIndex 0 0 + 5 < ([11, 9, 7, 5, 3, 1] : List Int).length ∧
    (getSampleQuinticSplineDeltaValue 0 0 [11, 9, 7, 5, 3, 1] 0).map Prod.snd
      = some (morphedSample 0 0 [11, 9, 7, 5, 3, 1] 3 - morphedSample 0 0 [11, 9, 7, 5, 3, 1] 2) :=
  ⟨by decide, (spline_delta_outputs 0 0 0 [11, 9, 7, 5, 3, 1] (by decide)).2⟩

theorem crossfade_zero {q : Int} (s2 : Int) (hq : isI32 q) :
    toI32 (toU32 q + toU32 (toU32 (sub32 s2 q) * toU32 0)) = q := by
  have h0 : toU32 0 = 0 := by decide
  rw [h0, mul_zero]
  unfold isI32 at hq
  unfold toI32 toU32
  omega

theorem crossfade_one {q s2 : Int} (hs : isI32 s2) :
    toI32 (toU32 q + toU32 (toU32 (sub32 s2 q) * toU32 1)) = s2 := by
  have h1 : toU32 1 = 1 := by decide
  rw [h1, mul_one]
  unfold isI32 at hs
  unfold sub32 toI32 toU32
  omega

theorem isI32_morphedSample (phase morph : Int) (tbl : List Int) (j : Nat) :
    isI32 (morphedSample phase morph tbl j) := by
  have h := morphedSample_bounds phase morph tbl j
  unfold isI32
  omega

theorem crossfade_eq (q s2 io : Int) :
    toI32 (toU32 q + toU32 (toU32 (sub32 s2 q) * toU32 io)) = toI32 (q + (s2 - q) * io) := by
  have hd : toU32 (sub32 s2 q) = (s2 - q) % 2 ^ 32 := by
    unfold toU32 sub32 toI32
    omega
  have hm : toU32 (toU32 (sub32 s2 q) * toU32 io) = ((s2 - q) * io) % 2 ^ 32 := by
    rw [hd]
    unfold toU32
    rw [← Int.mul_emod]
  rw [hm]
  generalize (s2 - q) * io = p
  unfold toI32 toU32
  omega

/-- C20: with the six reads in bounds, `getSampleQuinticSplineDeltaValue` returns
`__USAT(q + (sample2 - q) * interpOff, 15)` (the sum reduced to 32 bits), where `q` is the
quintic accumulator that `getSampleQuinticSpline` saturates; so it returns the same sample as
`getSampleQuinticSpline` when `interpOff = 0` and `__USAT(sample2, 15)` when
`interpOff = 1`. -/
theorem spline_interpOff_endpoints (phase morph : Int) (tbl : List Int)
    (h : leftIndex phase morph + 5 < tbl.length) :
    (∃ q : Int, (getSampleQuinticSpline phase morph tbl).map Prod.fst = some (__USAT q 15) ∧
      ∀ interpOff : Int,
        (getSampleQuinticSplineDeltaValue phase morph tbl interpOff).map Prod.fst
          = some (__USAT (toI32 (q + (morphedSample phase morph tbl 2 - q) * interpOff)) 15)) ∧
    (getSampleQuinticSplineDeltaValue phase morph tbl 0).map Prod.fst
      = (getSampleQuinticSpline phase morph tbl).map Prod.fst ∧
    (getSampleQuinticSplineDeltaValue phase morph tbl 1).map Prod.fst
      = some (__USAT (morphedSample phase morph tbl 2) 15) := by
  refine ⟨⟨quinticOut (morphedSample phase morph tbl 0) (morphedSample phase morph tbl 1)
    (morphedSample phase morph tbl 2) (morphedSample phase morph tbl 3)
    (morphedSample phase morph tbl 4) (morphedSample phase morph tbl 5)
    (and32 0xFFFF phase), ?_, ?_⟩, ?_⟩
  · rw [spline_some phase morph tbl h]
    simp only [Option.map_some']
  · intro interpOff
    rw [splineDeltaValue_some phase morph interpOff tbl h, crossfade_eq]
    simp only [Option.map_some']
  · rw [spline_some phase morph tbl h, splineDeltaValue_some phase morph 0 tbl h,
      splineDeltaValue_some phase morph 1 tbl h,
      crossfade_zero _ (isI32_quinticOut _ _ _ _ _ _ _),
      crossfade_one (isI32_morphedSample _ _ _ 2)]
    simp only [Option.map_some', and_self]


theorem spline_interpOff_endpoints_witness :
    leftIndex 0x8000 0 + 5 < ([1, 3, 5, 7, 9, 11] : List Int).length ∧
    (getSampleQuinticSplineDeltaValue 0x8000 0 [1, 3, 5, 7, 9, 11] 0).map Prod.fst
      = (getSampleQuinticSpline 0x8000 0 [1, 3, 5, 7, 9, 11]).map Prod.fst ∧
    (getSampleQuinticSplineDeltaValue 0x8000 0 [1, 3, 5, 7, 9, 11] 1).map Prod.fst
      = some (__USAT (morphedSample 0x8000 0 [1, 3, 5, 7, 9, 11] 2) 15) :=
  ⟨by decide, (spline_interpOff_endpoints 0x8000 0 [1, 3, 5, 7, 9, 11] (by decide)).2⟩

theorem quinticC_exact (s0 s1 s2 s3 s4 s5 : Int)
    (h0 : -32768 ≤ s0 ∧ s0 ≤ 98302) (h1 : -32768 ≤ s1 ∧ s1 ≤ 98302)
    (h2 : -32768 ≤ s2 ∧ s2 ≤ 98302) (h3 : -32768 ≤ s3 ∧ s3 ≤ 98302)
    (h4 : -32768 ≤ s4 ∧ s4 ≤ 98302) (h5 : -32768 ≤ s5 ∧ s5 ≤ 98302) :
    quinticC1 s0 s1 s3 s4 = (s3 - s1) * 16 + (s0 - s4) * 2 ∧
    quinticC2 s0 s1 s2 s3 s4 = (s3 + s1) * 16 - s0 - s2 * 30 - s4 ∧
    quinticC3 s0 s1 s2 s3 s4 s5
      = s3 * 66 - s2 * 70 - s4 * 33 + s1 * 39 + s5 * 7 - s0 * 9 ∧
    quinticC4 s0 s1 s2 s3 s4 s5
      = s2 * 126 - s3 * 124 + s4 * 61 - s1 * 64 - s5 * 12 + s0 * 13 ∧
    quinticC5 s0 s1 s2 s3 s4 s5 = (s3 - s2) * 50 + (s1 - s4) * 25 + (s5 - s0) * 5 := by
  unfold quinticC1 quinticC2 quinticC3 quinticC4 quinticC5 add32 sub32 mul32 toI32
  refine ⟨?_, ?_, ?_, ?_, ?_⟩ <;> omega

theorem fix16_mul_zero_left {g : Int} (hg : isI32 g) : fix16_mul 0 g = 0 := by
  rw [fix16_mul_eq isI32_zero hg, zero_mul]
  decide

theorem fix16_mul_zero_right {f : Int} (hf : isI32 f) : fix16_mul f 0 = 0 := by
  rw [fix16_mul_eq hf isI32_zero, mul_zero]
  decide

theorem fix24_mul_eq (a b : Int) (ha : isI32 a) (hb : isI32 b) :
    fix24_mul a b = toI32 (a * b / 2 ^ 24) := by
  unfold fix24_mul
  simp only [widen_mul ha hb]
  rw [asr_eq_div]

theorem quinticOut_frac_zero (s0 s1 s2 s3 s4 s5 : Int) (h2 : isI32 s2) :
    quinticOut s0 s1 s2 s3 s4 s5 0 = s2 := by
  have h24 : fix24_mul 699051 0 = 0 := by decide
  have key : ∀ x y : Int, fix16_mul 0 (add32 x y) = 0 :=
    fun x y => fix16_mul_zero_left (isI32_toI32 (x + y))
  unfold quinticOut
  simp only [key, h24]
  unfold add32
  rw [add_zero, toI32_eq_self h2]


theorem morphedSample_two (phase morph : Int) (tbl : List Int) :
    morphedSample phase morph tbl 2
      = fast_15_16_lerp_prediff (toI32 (tbl.getD (leftIndex phase morph + 2) 0))
          (and32 morph 0xFFFF) := rfl

theorem prediff_frac_zero (w : Int) : fast_15_16_lerp_prediff (toI32 w) 0 = w % 2 ^ 16 := by
  have h0 : toI32 0 = 0 := by decide
  rw [prediff_eq, mul_zero, h0]
  unfold toI32
  omega

/-- C16: for every phase whose low 16 bits are zero and with the six reads in bounds,
`getSampleQuinticSpline` returns `__USAT(sample2, 15)` with
`sample2 = fast_15_16_lerp_prediff(table[(morph>>16)*517 + (phase>>16) + 2], morph & 0xFFFF)`;
in particular at `phase = 0`, `morph = 0` it returns the base value (low 16 bits) of the word
at index 2 whenever that value is at most 32767. -/
theorem spline_at_zero_fraction (phase morph : Int) (tbl : List Int)
    (hp : phase % 2 ^ 16 = 0) (h : leftIndex phase morph + 5 < tbl.length) :
    (getSampleQuinticSpline phase morph tbl).map Prod.fst
      = some (__USAT (fast_15_16_lerp_prediff
          (toI32 (tbl.getD ((lsr32 morph 16 * 517 + lsr32 phase 16).toNat + 2) 0))
          (and32 morph 0xFFFF)) 15) ∧
    (phase = 0 → morph = 0 → tbl.getD 2 0 % 2 ^ 16 ≤ 32767 →
      (getSampleQuinticSpline phase morph tbl).map Prod.fst = some (tbl.getD 2 0 % 2 ^ 16)) := by
  have hout : (getSampleQuinticSpline phase morph tbl).map Prod.fst
      = some (__USAT (morphedSample phase morph tbl 2) 15) := by
    rw [spline_some phase morph tbl h, and32_low16_comm, hp,
      quinticOut_frac_zero _ _ _ _ _ _ (isI32_morphedSample phase morph tbl 2)]
    simp only [Option.map_some']
  refine ⟨hout, ?_⟩
  intro h0 hm hb
  subst h0
  subst hm
  have hl : leftIndex 0 0 = 0 := by decide
  have hz : and32 0 0xFFFF = 0 := by decide
  have hs : morphedSample 0 0 tbl 2 = tbl.getD 2 0 % 2 ^ 16 := by
    rw [morphedSample_two, hl, hz, prediff_frac_zero]
  have hnn : 0 ≤ tbl.getD 2 0 % 2 ^ 16 := Int.emod_nonneg _ (by norm_num)
  rw [hout, hs, usat15_eq, if_neg (by omega), if_neg (by omega)]


theorem spline_at_zero_fraction_witness :
    (0 : Int) % 2 ^ 16 = 0 ∧ leftIndex 0 0 + 5 < ([0, 0, 7, 9, 11, 13] : List Int).length ∧
    (getSampleQuinticSpline 0 0 [0, 0, 7, 9, 11, 13]).map Prod.fst
      = some (([0, 0, 7, 9, 11, 13] : List Int).getD 2 0 % 2 ^ 16) :=
  ⟨by decide, by decide,
    (spline_at_zero_fraction 0 0 [0, 0, 7, 9, 11, 13] (by decide) (by decide)).2 rfl rfl
      (by decide)⟩

theorem isI32_fix16_mul (a b : Int) : isI32 (fix16_mul a b) := by
  unfold fix16_mul
  exact isI32_toI32 _

theorem isI32_fix24_mul (a b : Int) : isI32 (fix24_mul a b) := by
  unfold fix24_mul
  exact isI32_toI32 _

theorem quinticOut_ramp {s d f : Int} (hs : 0 ≤ s ∧ s ≤ 32767)
    (he : 0 ≤ s + 5 * d ∧ s + 5 * d ≤ 32767) (hf : isI32 f) :
    quinticC2 s (s + d) (s + 2 * d) (s + 3 * d) (s + 4 * d) = 0 ∧
    quinticC3 s (s + d) (s + 2 * d) (s + 3 * d) (s + 4 * d) (s + 5 * d) = 0 ∧
    quinticC4 s (s + d) (s + 2 * d) (s + 3 * d) (s + 4 * d) (s + 5 * d) = 0 ∧
    quinticC5 s (s + d) (s + 2 * d) (s + 3 * d) (s + 4 * d) (s + 5 * d) = 0 ∧
    quinticC1 s (s + d) (s + 3 * d) (s + 4 * d) = 24 * d ∧
    quinticOut s (s + d) (s + 2 * d) (s + 3 * d) (s + 4 * d) (s + 5 * d) f
      = s + 2 * d + fix24_mul 699051 (fix16_mul f (24 * d)) := by
  have hx := quinticC_exact s (s + d) (s + 2 * d) (s + 3 * d) (s + 4 * d) (s + 5 * d)
    (by omega) (by omega) (by omega) (by omega) (by omega) (by omega)
  have c1 : quinticC1 s (s + d) (s + 3 * d) (s + 4 * d) = 24 * d := by
    rw [hx.1]; ring
  have c2 : quinticC2 s (s + d) (s + 2 * d) (s + 3 * d) (s + 4 * d) = 0 := by
    rw [hx.2.1]; ring
  have c3 : quinticC3 s (s + d) (s + 2 * d) (s + 3 * d) (s + 4 * d) (s + 5 * d) = 0 := by
    rw [hx.2.2.1]; ring
  have c4 : quinticC4 s (s + d) (s + 2 * d) (s + 3 * d) (s + 4 * d) (s + 5 * d) = 0 := by
    rw [hx.2.2.2.1]; ring
  have c5 : quinticC5 s (s + d) (s + 2 * d) (s + 3 * d) (s + 4 * d) (s + 5 * d) = 0 := by
    rw [hx.2.2.2.2]; ring
  refine ⟨c2, c3, c4, c5, c1, ?_⟩
  have a00 : add32 0 0 = 0 := by decide
  have a24 : add32 (24 * d) 0 = 24 * d := by
    unfold add32
    rw [add_zero]
    apply toI32_eq_self
    unfold isI32
    omega
  have hx1 := isI32_fix16_mul f (24 * d)
  have hv := fix24_mul_eq 699051 (fix16_mul f (24 * d)) (by decide) hx1
  unfold quinticOut
  simp only [c1, c2, c3, c4, c5, fix16_mul_zero_right hf, a00, a24]
  rw [hv]
  generalize fix16_mul f (24 * d) = x at hx1
  unfold isI32 at hx1
  unfold add32 toI32
  omega


theorem fix16_mul_last (g : Int) (hg : -2 ^ 30 ≤ g ∧ g ≤ 2 ^ 30) :
    fix16_mul 65535 g = 65535 * g / 2 ^ 16 := by
  rw [fix16_mul_eq (by decide) (by unfold isI32; omega)]
  apply toI32_eq_self
  unfold isI32
  omega

theorem div65535_bounds (X : Int) :
    65536 * (65535 * X / 2 ^ 16) ≤ 65535 * X ∧
    65535 * X < 65536 * (65535 * X / 2 ^ 16) + 65536 := by
  omega

theorem add32_exact (a b : Int) (h : -2 ^ 30 ≤ a + b ∧ a + b ≤ 2 ^ 30) : add32 a b = a + b := by
  unfold add32
  apply toI32_eq_self
  unfold isI32
  omega

theorem cascade_last (C1 C2 C3 C4 C5 : Int)
    (hb1 : -589806 ≤ C1 ∧ C1 ≤ 589806) (hb2 : -1048544 ≤ C2 ∧ C2 ≤ 1048544)
    (hb3 : -3669904 ≤ C3 ∧ C3 ≤ 3669904) (hb4 : -6553400 ≤ C4 ∧ C4 ≤ 6553400)
    (hb5 : -2621360 ≤ C5 ∧ C5 ≤ 2621360)
    (hP : -1179612 ≤ C1 + 2 * C2 + 3 * C3 + 4 * C4 + 5 * C5 ∧
      C1 + 2 * C2 + 3 * C3 + 4 * C4 + 5 * C5 ≤ 1179612) :
    ∃ m1 : Int,
      fix16_mul 65535 (add32 C1 (fix16_mul 65535 (add32 C2 (fix16_mul 65535
        (add32 C3 (fix16_mul 65535 (add32 C4 (fix16_mul 65535 C5)))))))) = m1 ∧
      C1 + C2 + C3 + C4 + C5 - 23 ≤ m1 ∧ m1 ≤ C1 + C2 + C3 + C4 + C5 + 18 := by
  rw [fix16_mul_last C5 (by omega)]
  obtain ⟨l5, u5⟩ := div65535_bounds C5
  generalize 65535 * C5 / 2 ^ 16 = m5 at l5 u5 ⊢
  rw [add32_exact C4 m5 (by omega), fix16_mul_last (C4 + m5) (by omega)]
  obtain ⟨l4, u4⟩ := div65535_bounds (C4 + m5)
  generalize 65535 * (C4 + m5) / 2 ^ 16 = m4 at l4 u4 ⊢
  rw [add32_exact C3 m4 (by omega), fix16_mul_last (C3 + m4) (by omega)]
  obtain ⟨l3, u3⟩ := div65535_bounds (C3 + m4)
  generalize 65535 * (C3 + m4) / 2 ^ 16 = m3 at l3 u3 ⊢
  rw [add32_exact C2 m3 (by omega), fix16_mul_last (C2 + m3) (by omega)]
  obtain ⟨l2, u2⟩ := div65535_bounds (C2 + m3)
  generalize 65535 * (C2 + m3) / 2 ^ 16 = m2 at l2 u2 ⊢
  rw [add32_exact C1 m2 (by omega), fix16_mul_last (C1 + m2) (by omega)]
  obtain ⟨l1, u1⟩ := div65535_bounds (C1 + m2)
  generalize 65535 * (C1 + m2) / 2 ^ 16 = m1 at l1 u1 ⊢
  refine ⟨m1, rfl, ?_, ?_⟩
  · have h : 65536 * (C1 + C2 + C3 + C4 + C5 - m1) ≤ 1572863 := by linarith
    omega
  · have h : -1245183 ≤ 65536 * (C1 + C2 + C3 + C4 + C5 - m1) := by linarith
    omega

theorem quinticOut_last (s0 s1 s2 s3 s4 s5 : Int)
    (h0 : 0 ≤ s0 ∧ s0 ≤ 32767) (h1 : 0 ≤ s1 ∧ s1 ≤ 32767) (h2 : 0 ≤ s2 ∧ s2 ≤ 32767)
    (h3 : 0 ≤ s3 ∧ s3 ≤ 32767) (h4 : 0 ≤ s4 ∧ s4 ≤ 32767) (h5 : 0 ≤ s5 ∧ s5 ≤ 32767) :
    s3 - 1 ≤ quinticOut s0 s1 s2 s3 s4 s5 65535 ∧ quinticOut s0 s1 s2 s3 s4 s5 65535 ≤ s3 := by
  have hx := quinticC_exact s0 s1 s2 s3 s4 s5
    (by omega) (by omega) (by omega) (by omega) (by omega) (by omega)
  obtain ⟨c1, c2, c3, c4, c5⟩ := hx
  unfold quinticOut
  simp only []
  generalize quinticC1 s0 s1 s3 s4 = C1 at c1 ⊢
  generalize quinticC2 s0 s1 s2 s3 s4 = C2 at c2 ⊢
  generalize quinticC3 s0 s1 s2 s3 s4 s5 = C3 at c3 ⊢
  generalize quinticC4 s0 s1 s2 s3 s4 s5 = C4 at c4 ⊢
  generalize quinticC5 s0 s1 s2 s3 s4 s5 = C5 at c5 ⊢
  have hS : C1 + C2 + C3 + C4 + C5 = 24 * (s3 - s2) := by rw [c1, c2, c3, c4, c5]; ring
  have hPe : C1 + 2 * C2 + 3 * C3 + 4 * C4 + 5 * C5 = 2 * s1 - 16 * s2 + 16 * s4 - 2 * s5 := by
    rw [c1, c2, c3, c4, c5]; ring
  obtain ⟨m1, hm1, lo, hi⟩ := cascade_last C1 C2 C3 C4 C5
    (by omega) (by omega) (by omega) (by omega) (by omega) (by omega)
  rw [hm1, fix24_mul_eq 699051 m1 (by decide) (by unfold isI32; omega)]
  clear c1 c2 c3 c4 c5 hPe hm1
  have hv1 : s3 - s2 - 1 ≤ 699051 * m1 / 2 ^ 24 :=
    Int.le_ediv_of_mul_le (by norm_num) (by linarith)
  have hv2 : 699051 * m1 / 2 ^ 24 < s3 - s2 + 1 :=
    Int.ediv_lt_of_lt_mul (by norm_num) (by linarith)
  generalize 699051 * m1 / 2 ^ 24 = v at hv1 hv2
  unfold add32 toI32
  omega


/-- C17: when the six morphed samples form a ramp `sample_j = s + j*d` with all values in
`[0, 32767]`, the coefficient groups C2..C5 of the quintic vanish and
`getSampleQuinticSpline` returns `__USAT(sample2 + fix24_mul(699051, fix16_mul(f, 24*d)), 15)`
for the phase fraction `f`; at `f = 0x8000` the result `r` is within 1 of the midpoint of
`sample2` and `sample3`, that is `|2*r - (sample2 + sample3)| ≤ 2`. -/
theorem spline_on_ramp (phase morph : Int) (tbl : List Int) (s d : Int)
    (h : leftIndex phase morph + 5 < tbl.length)
    (hr : ∀ j : Nat, j ≤ 5 → morphedSample phase morph tbl j = s + j * d)
    (hs : 0 ≤ s ∧ s ≤ 32767) (he : 0 ≤ s + 5 * d ∧ s + 5 * d ≤ 32767) :
    quinticC2 (morphedSample phase morph tbl 0) (morphedSample phase morph tbl 1)
      (morphedSample phase morph tbl 2) (morphedSample phase morph tbl 3)
      (morphedSample phase morph tbl 4) = 0 ∧
    quinticC3 (morphedSample phase morph tbl 0) (morphedSample phase morph tbl 1)
      (morphedSample phase morph tbl 2) (morphedSample phase morph tbl 3)
      (morphedSample phase morph tbl 4) (morphedSample phase morph tbl 5) = 0 ∧
    quinticC4 (morphedSample phase morph tbl 0) (morphedSample phase morph tbl 1)
      (morphedSample phase morph tbl 2) (morphedSample phase morph tbl 3)
      (morphedSample phase morph tbl 4) (morphedSample phase morph tbl 5) = 0 ∧
    quinticC5 (morphedSample phase morph tbl 0) (morphedSample phase morph tbl 1)
      (morphedSample phase morph tbl 2) (morphedSample phase morph tbl 3)
      (morphedSample phase morph tbl 4) (morphedSample phase morph tbl 5) = 0 ∧
    (getSampleQuinticSpline phase morph tbl).map Prod.fst
      = some (__USAT (morphedSample phase morph tbl 2
          + fix24_mul 699051 (fix16_mul (phase % 2 ^ 16) (24 * d))) 15) ∧
    (phase % 2 ^ 16 = 0x8000 →
      ∃ r, (getSampleQuinticSpline phase morph tbl).map Prod.fst = some r ∧
        |2 * r - (morphedSample phase morph tbl 2 + morphedSample phase morph tbl 3)| ≤ 2) := by
  have e0 : morphedSample phase morph tbl 0 = s := by
    have := hr 0 (by norm_num); simpa using this
  have e1 : morphedSample phase morph tbl 1 = s + d := by
    have := hr 1 (by norm_num); simpa using this
  have e2 : morphedSample phase morph tbl 2 = s + 2 * d := by
    have := hr 2 (by norm_num); simpa using this
  have e3 : morphedSample phase morph tbl 3 = s + 3 * d := by
    have := hr 3 (by norm_num); simpa using this
  have e4 : morphedSample phase morph tbl 4 = s + 4 * d := by
    have := hr 4 (by norm_num); simpa using this
  have e5 : morphedSample phase morph tbl 5 = s + 5 * d := by
    have := hr 5 (by norm_num); simpa using this
  have hf : isI32 (phase % 2 ^ 16) := by unfold isI32; omega
  obtain ⟨c2, c3, c4, c5, _, hq⟩ := quinticOut_ramp hs he hf
  have hout : (getSampleQuinticSpline phase morph tbl).map Prod.fst
      = some (__USAT (s + 2 * d + fix24_mul 699051 (fix16_mul (phase % 2 ^ 16) (24 * d))) 15) := by
    rw [spline_some phase morph tbl h, and32_low16_comm, e0, e1, e2, e3, e4, e5, hq]
    simp only [Option.map_some']
  rw [e0, e1, e2, e3, e4, e5]
  refine ⟨c2, c3, c4, c5, hout, ?_⟩
  intro hhalf
  refine ⟨_, hout, ?_⟩
  have hm : fix16_mul (phase % 2 ^ 16) (24 * d) = 12 * d := by
    rw [hhalf, fix16_mul_eq (by decide) (by unfold isI32; omega)]
    unfold toI32
    omega
  have hv : fix24_mul 699051 (12 * d) = 699051 * (12 * d) / 2 ^ 24 := by
    rw [fix24_mul_eq 699051 (12 * d) (by decide) (by unfold isI32; omega)]
    apply toI32_eq_self
    unfold isI32
    omega
  rw [hm, hv, usat15_eq, abs_le]
  split_ifs <;> constructor <;> omega


set_option maxRecDepth 20000 in
theorem spline_on_ramp_witness :
    leftIndex 0x8000 0 + 5 < ([1, 3, 5, 7, 9, 11] : List Int).length ∧
    (0x8000 : Int) % 2 ^ 16 = 0x8000 ∧
    ∃ r, (getSampleQuinticSpline 0x8000 0 [1, 3, 5, 7, 9, 11]).map Prod.fst = some r ∧
      |2 * r - (morphedSample 0x8000 0 [1, 3, 5, 7, 9, 11] 2
        + morphedSample 0x8000 0 [1, 3, 5, 7, 9, 11] 3)| ≤ 2 :=
  ⟨by decide, by decide,
    (spline_on_ramp 0x8000 0 [1, 3, 5, 7, 9, 11] 1 2 (by decide) (by decide) (by decide)
      (by decide)).2.2.2.2.2 (by decide)⟩

theorem leftIndex_cell (fam i f : Nat) (hfam : fam ≤ 65535) (hi : i ≤ 65535) (hf : f ≤ 65535) :
    leftIndex ((i : Int) * 65536 + f) ((fam : Int) * 65536) = fam * 517 + i := by
  unfold leftIndex lsr32 toU32
  omega

theorem morphedSample_cell (tbl : List Int) (fam i f j : Nat) (hfam : fam ≤ 65535)
    (hi : i ≤ 65535) (hf : f ≤ 65535) :
    morphedSample ((i : Int) * 65536 + f) ((fam : Int) * 65536) tbl j
      = tbl.getD (fam * 517 + i + j) 0 % 2 ^ 16 := by
  have hm : and32 ((fam : Int) * 65536) 0xFFFF = 0 := by
    rw [and32_low16]
    omega
  unfold morphedSample
  rw [leftIndex_cell fam i f hfam hi hf, hm, prediff_frac_zero]

/-- C18: for a table whose base values (low 16 bits) around cell `i` of table `fam` lie
in `[0, 32767]`, with morph fraction 0, the value of `getSampleQuinticSpline` at the last
fractional position of cell `i` (fraction `0xFFFF`) is the value at the first fractional
position of cell `i + 1` (fraction 0) or one unit below it; the two differ by at most 2. -/
theorem spline_cell_boundary (tbl : List Int) (fam i : Nat) (hfam : fam ≤ 65535)
    (hi : i + 1 ≤ 65535) (hlen : fam * 517 + i + 6 < tbl.length)
    (hbase : ∀ j : Nat, j ≤ 6 → tbl.getD (fam * 517 + i + j) 0 % 2 ^ 16 ≤ 32767) :
    ∃ r1 r2 : Int,
      (getSampleQuinticSpline ((i : Int) * 65536 + 65535) ((fam : Int) * 65536) tbl).map Prod.fst
        = some r1 ∧
      (getSampleQuinticSpline (((i + 1 : Nat) : Int) * 65536) ((fam : Int) * 65536) tbl).map
        Prod.fst = some r2 ∧
      r2 = tbl.getD (fam * 517 + i + 3) 0 % 2 ^ 16 ∧
      r2 - 1 ≤ r1 ∧ r1 ≤ r2 ∧ |r1 - r2| ≤ 2 := by
  have hnn : ∀ j : Nat, 0 ≤ tbl.getD (fam * 517 + i + j) 0 % 2 ^ 16 :=
    fun j => Int.emod_nonneg _ (by norm_num)
  have hl1 := leftIndex_cell fam i 65535 hfam (by omega) (by norm_num)
  have hl2 := leftIndex_cell fam (i + 1) 0 hfam hi (by norm_num)
  have hp1 : (((i : Int) * 65536 + ((65535 : Nat) : Int))) % 2 ^ 16 = 65535 := by omega
  have hp2 : ((((i + 1 : Nat) : Int)) * 65536 + ((0 : Nat) : Int)) % 2 ^ 16 = 0 := by omega
  have hs1 := spline_some ((i : Int) * 65536 + ((65535 : Nat) : Int)) ((fam : Int) * 65536) tbl
    (by rw [hl1]; omega)
  have hs2 := spline_some (((i + 1 : Nat) : Int) * 65536 + ((0 : Nat) : Int))
    ((fam : Int) * 65536) tbl (by rw [hl2]; omega)
  have hidx : fam * 517 + (i + 1) + 2 = fam * 517 + i + 3 := by omega
  rw [and32_low16_comm, hp1] at hs1
  rw [and32_low16_comm, hp2,
    quinticOut_frac_zero _ _ _ _ _ _ (isI32_morphedSample _ _ _ 2),
    morphedSample_cell tbl fam (i + 1) 0 2 hfam hi (by norm_num), hidx] at hs2
  simp only [morphedSample_cell tbl fam i 65535 _ hfam (show i ≤ 65535 by omega)
    (show 65535 ≤ 65535 by norm_num)] at hs1
  simp only [Nat.cast_ofNat] at hs1
  simp only [Nat.cast_zero, add_zero] at hs2
  have hq := quinticOut_last (tbl.getD (fam * 517 + i + 0) 0 % 2 ^ 16)
    (tbl.getD (fam * 517 + i + 1) 0 % 2 ^ 16) (tbl.getD (fam * 517 + i + 2) 0 % 2 ^ 16)
    (tbl.getD (fam * 517 + i + 3) 0 % 2 ^ 16) (tbl.getD (fam * 517 + i + 4) 0 % 2 ^ 16)
    (tbl.getD (fam * 517 + i + 5) 0 % 2 ^ 16)
    ⟨hnn 0, hbase 0 (by norm_num)⟩ ⟨hnn 1, hbase 1 (by norm_num)⟩
    ⟨hnn 2, hbase 2 (by norm_num)⟩ ⟨hnn 3, hbase 3 (by norm_num)⟩
    ⟨hnn 4, hbase 4 (by norm_num)⟩ ⟨hnn 5, hbase 5 (by norm_num)⟩
  have h3 := hbase 3 (by norm_num)
  have h3n := hnn 3
  rw [hs1, hs2]
  simp only [Option.map_some']
  refine ⟨_, _, rfl, rfl, ?_⟩
  rw [usat15_eq, usat15_eq, abs_le]
  generalize quinticOut _ _ _ _ _ _ 65535 = q at hq
  generalize tbl.getD (fam * 517 + i + 3) 0 % 2 ^ 16 = b3 at hq h3 h3n
  split_ifs <;> omega

theorem spline_cell_boundary_witness :
    (0 : Nat) ≤ 65535 ∧ 0 + 1 ≤ 65535 ∧
    0 * 517 + 0 + 6 < ([5, 9, 100, 32767, 0, 30000, 8] : List Int).length ∧
    ∃ r1 r2 : Int,
      (getSampleQuinticSpline (((0 : Nat) : Int) * 65536 + 65535) (((0 : Nat) : Int) * 65536)
        [5, 9, 100, 32767, 0, 30000, 8]).map Prod.fst = some r1 ∧
      (getSampleQuinticSpline (((0 + 1 : Nat) : Int) * 65536) (((0 : Nat) : Int) * 65536)
        [5, 9, 100, 32767, 0, 30000, 8]).map Prod.fst = some r2 ∧
      r2 = ([5, 9, 100, 32767, 0, 30000, 8] : List Int).getD (0 * 517 + 0 + 3) 0 % 2 ^ 16 ∧
      r2 - 1 ≤ r1 ∧ r1 ≤ r2 ∧ |r1 - r2| ≤ 2 :=
  ⟨by decide, by decide, by decide,
    spline_cell_boundary [5, 9, 100, 32767, 0, 30000, 8] 0 0 (by decide) (by decide)
      (by decide) (by decide)⟩

/-! ## Spline table bounds -/

theorem lsr32_nonneg (x : Int) (n : Nat) : 0 ≤ lsr32 x n := by
  unfold lsr32 toU32
  exact Int.ediv_nonneg (Int.emod_nonneg _ (by norm_num)) (by positivity)

theorem leftIndex_cast (phase morph : Int) :
    ((leftIndex phase morph : Nat) : Int) = lsr32 morph 16 * 517 + lsr32 phase 16 := by
  have h1 := lsr32_nonneg morph 16
  have h2 := lsr32_nonneg phase 16
  unfold leftIndex
  omega

theorem spline_depends_on_six (phase morph : Int) (tbl tbl2 : List Int)
    (h : ∀ j : Nat, j ≤ 5 →
      tbl2[leftIndex phase morph + j]? = tbl[leftIndex phase morph + j]?) :
    getSampleQuinticSpline phase morph tbl2 = getSampleQuinticSpline phase morph tbl := by
  have e0 := h 0 (by norm_num)
  have e1 := h 1 (by norm_num)
  have e2 := h 2 (by norm_num)
  have e3 := h 3 (by norm_num)
  have e4 := h 4 (by norm_num)
  have e5 := h 5 (by norm_num)
  rw [Nat.add_zero] at e0
  unfold leftIndex at e0 e1 e2 e3 e4 e5
  unfold getSampleQuinticSpline
  simp only [e0, e1, e2, e3, e4, e5]

/-- C21: for a table-family array of 9 x 517 words, every phase with `(phase >> 16) ≤ 511`
and every morph with `(morph >> 16) ≤ 8`, the spline evaluator reads the six words at indices
`(morph >> 16)*517 + (phase >> 16) + j`, `j = 0..5` (its result depends on no other word);
all six lie inside the array and inside table `morph >> 16`, and the evaluation returns a
result. -/
theorem spline_reads_in_bounds (phase morph : Int) (tbl : List Int)
    (hlen : tbl.length = 9 * 517) (hp : lsr32 phase 16 ≤ 511) (hm : lsr32 morph 16 ≤ 8) :
    ((leftIndex phase morph : Nat) : Int) = lsr32 morph 16 * 517 + lsr32 phase 16 ∧
    (∀ j : Nat, j ≤ 5 →
      leftIndex phase morph + j < tbl.length ∧
      lsr32 morph 16 * 517 ≤ ((leftIndex phase morph + j : Nat) : Int) ∧
      ((leftIndex phase morph + j : Nat) : Int) < (lsr32 morph 16 + 1) * 517) ∧
    (getSampleQuinticSpline phase morph tbl).isSome = true ∧
    (∀ tbl2 : List Int,
      (∀ j : Nat, j ≤ 5 →
        tbl2[leftIndex phase morph + j]? = tbl[leftIndex phase morph + j]?) →
      getSampleQuinticSpline phase morph tbl2 = getSampleQuinticSpline phase morph tbl) := by
  have hc := leftIndex_cast phase morph
  have h1 := lsr32_nonneg morph 16
  have h2 := lsr32_nonneg phase 16
  refine ⟨hc, ?_, ?_, fun tbl2 h => spline_depends_on_six phase morph tbl tbl2 h⟩
  · intro j hj
    refine ⟨by omega, ?_, ?_⟩
    · push_cast
      omega
    · push_cast
      omega
  · rw [spline_some phase morph tbl (by omega)]
    rfl

theorem spline_reads_in_bounds_witness :
    (List.replicate (9 * 517) (7 : Int)).length = 9 * 517 ∧
    lsr32 0x01FFFFFF 16 ≤ 511 ∧ lsr32 0x0008FFFF 16 ≤ 8 ∧
    (getSampleQuinticSpline 0x01FFFFFF 0x0008FFFF (List.replicate (9 * 517) (7 : Int))).isSome
      = true :=
  ⟨List.length_replicate _ _, by decide, by decide,
    (spline_reads_in_bounds 0x01FFFFFF 0x0008FFFF (List.replicate (9 * 517) 7)
      (List.length_replicate _ _) (by decide) (by decide)).2.2.1⟩

/-! ## Fold and wrap -/

theorem and32_one (w : Int) : and32 w 1 = w % 2 := by
  have hm : bits32 1 = 2 ^ 1 - 1 := by decide
  unfold and32
  rw [hm, Nat.and_pow_two_sub_one_eq_mod, Int.ofNat_eq_coe]
  push_cast
  rw [bits32_cast]
  unfold toI32
  omega

theorem and32_low25 (w : Int) : and32 w 0x1FFFFFF = w % 2 ^ 25 := by
  have hm : bits32 0x1FFFFFF = 2 ^ 25 - 1 := by decide
  unfold and32
  rw [hm, Nat.and_pow_two_sub_one_eq_mod, Int.ofNat_eq_coe]
  push_cast
  rw [bits32_cast]
  unfold toI32
  omega

theorem foldSignal16Bit_eq (x : Int) :
    foldSignal16Bit x = if x / 2 ^ 16 % 2 = 1 then 65535 - x % 2 ^ 16 else x % 2 ^ 16 := by
  unfold foldSignal16Bit sub32
  rw [and32_one, asr_eq_div, and32_low16]
  unfold toI32
  split_ifs <;> omega

/-- C22: for every `x`, `wrapSignal16Bit(x)` is the non-negative residue `x mod 2^16`, lies
in `[0, 65536)` and is idempotent. -/
theorem wrapSignal16Bit_spec (x : Int) :
    wrapSignal16Bit x = x % 2 ^ 16 ∧
    0 ≤ wrapSignal16Bit x ∧ wrapSignal16Bit x < 65536 ∧
    wrapSignal16Bit (wrapSignal16Bit x) = wrapSignal16Bit x := by
  unfold wrapSignal16Bit
  rw [and32_low16, and32_low16]
  omega

/-- C23: for every `x`, `foldSignal16Bit(x)` lies in `[0, 65536)`, and
`foldSignal16Bit(x) = foldSignal16Bit(x + 2*65536)` with the addition on `int32_t`. -/
theorem foldSignal16Bit_range_period (x : Int) :
    0 ≤ foldSignal16Bit x ∧ foldSignal16Bit x < 65536 ∧
    foldSignal16Bit (add32 x (2 * 65536)) = foldSignal16Bit x := by
  rw [foldSignal16Bit_eq, foldSignal16Bit_eq]
  unfold add32 toI32
  refine ⟨?_, ?_, ?_⟩
  · split_ifs <;> omega
  · split_ifs <;> omega
  · split_ifs <;> omega

/-- C24: for every `x`, `foldSignal16Bit(x)` is the triangle fold of period `2^17`: with
`r = x mod 2^17` the result is `r` when `r < 65536`, and `131071 - r`, which is
`65535 - (x mod 2^16)`, when `r ≥ 65536`. -/
theorem foldSignal16Bit_triangle (x : Int) :
    (x % 2 ^ 17 < 65536 → foldSignal16Bit x = x % 2 ^ 17) ∧
    (65536 ≤ x % 2 ^ 17 →
      foldSignal16Bit x = 131071 - x % 2 ^ 17 ∧ foldSignal16Bit x = 65535 - x % 2 ^ 16) := by
  rw [foldSignal16Bit_eq]
  constructor
  · intro h
    split_ifs <;> omega
  · intro h
    split_ifs <;> omega

theorem foldSignal16Bit_triangle_witness :
    (-70000 : Int) % 2 ^ 17 < 65536 ∧ foldSignal16Bit (-70000) = -70000 % 2 ^ 17 ∧
    65536 ≤ (70000 : Int) % 2 ^ 17 ∧ foldSignal16Bit 70000 = 131071 - 70000 % 2 ^ 17 :=
  ⟨by decide, (foldSignal16Bit_triangle (-70000)).1 (by decide), by decide,
    ((foldSignal16Bit_triangle 70000).2 (by decide)).1⟩

/-- Closed form of the hardware `foldSignal25Bit`: the mirrored low 25 bits when bit 25 is
set, and one less than the low 25 bits (clamped at 0) when bit 25 is clear. -/
theorem foldSignal25Bit_hw_eq (x : Int) :
    F373.foldSignal25Bit x
      = if x / 2 ^ 25 % 2 = 1 then 0x1FFFFFF - x % 2 ^ 25
        else if x % 2 ^ 25 = 0 then 0 else x % 2 ^ 25 - 1 := by
  unfold F373.foldSignal25Bit F373.__USAT F373.stdlib_abs shl32 sub32 neg32
  rw [asr_eq_div]
  unfold toU32 toI32
  split_ifs <;> omega

/-- Closed form of the portable `foldSignal25Bit` on the same 32-bit pattern: the mirrored
low 25 bits when bit 25 is set, the low 25 bits themselves when it is clear. -/
theorem foldSignal25Bit_eq (x : Int) :
    foldSignal25Bit (toI32 x)
      = if x / 2 ^ 25 % 2 = 1 then 0x1FFFFFF - x % 2 ^ 25 else x % 2 ^ 25 := by
  unfold foldSignal25Bit sub32
  rw [and32_one, asr_eq_div, and32_low25]
  unfold toI32
  split_ifs <;> omega

/-- C25 fails on the code: at `phaseIn = 1` the hardware form
`__USAT((abs((int32_t) phaseIn << 6) - 1) >> 6, 25)` returns 0, while the bit-inspection
form returns 1. -/
theorem foldSignal25Bit_forms_differ :
    F373.foldSignal25Bit 1 = 0 ∧ foldSignal25Bit (toI32 1) = 1 ∧
    F373.foldSignal25Bit 1 ≠ foldSignal25Bit (toI32 1) := by
  decide

/-! ## Sine oscillator -/

theorem toU32_toI32 (x : Int) : toU32 (toI32 x) = x % 2 ^ 32 := by
  unfold toU32 toI32
  omega

theorem toU32_range (x : Int) : 0 ≤ toU32 x ∧ toU32 x < 2 ^ 32 := by
  unfold toU32
  omega

theorem phase_index (P : Int) (hP : 0 ≤ P ∧ P < 2 ^ 32) :
    toI32 (lsr32 P 20) = P / 2 ^ 20 ∧
    and32 (toI32 (lsr32 P 4)) 0xFFFF = P / 2 ^ 4 % 2 ^ 16 := by
  rw [and32_low16]
  unfold lsr32 toU32 toI32
  omega

theorem table_read_some (tbl : List Int) (P : Int) (hP : 0 ≤ P ∧ P < 2 ^ 32)
    (hlen : 4096 ≤ tbl.length) (f : Int → Int) :
    ((tbl[(P / 2 ^ 20).toNat]?).map f).isSome = true := by
  have hi : (P / 2 ^ 20).toNat < tbl.length := by omega
  rw [List.getElem?_eq_getElem hi]
  rfl

/-- C26: for every oscillator state and every `pmInput`, `Sine::updatePM(pmInput)` sets
`pm` to `pmInput - lastPM` on `int32_t` and `lastPM` to `pmInput`, and leaves `freq`,
`phase` and the table pointer unchanged. -/
theorem updatePM_frame (s : Sine) (pmInput : Int) :
    (s.updatePM pmInput).pm = toI32 (pmInput - s.lastPM) ∧
    (s.updatePM pmInput).lastPM = pmInput ∧
    (s.updatePM pmInput).freq = s.freq ∧
    (s.updatePM pmInput).phase = s.phase ∧
    (s.updatePM pmInput).tableRead = s.tableRead :=
  ⟨rfl, rfl, rfl, rfl, rfl⟩

theorem evaluatePM_phase (s : Sine) :
    s.evaluatePM.1.phase = (s.phase + s.freq + s.pm) % 2 ^ 32 := by
  show toU32 (s.phase + toU32 (add32 s.freq s.pm)) = _
  unfold add32
  rw [toU32_toI32]
  unfold toU32
  omega

theorem evaluatePM_value (s : Sine) :
    s.evaluatePM.2
      = (s.tableRead[(s.evaluatePM.1.phase / 2 ^ 20).toNat]?).map
          (fun w => fast_15_16_lerp_prediff w (s.evaluatePM.1.phase / 2 ^ 4 % 2 ^ 16)) := by
  have h := phase_index (toU32 (s.phase + toU32 (add32 s.freq s.pm))) (toU32_range _)
  show (s.tableRead[(toI32 (lsr32 (toU32 (s.phase + toU32 (add32 s.freq s.pm))) 20)).toNat]?).map
      (fun w => fast_15_16_lerp_prediff w
        (and32 (toI32 (lsr32 (toU32 (s.phase + toU32 (add32 s.freq s.pm))) 4)) 0xFFFF)) = _
  rw [h.1, h.2]
  rfl

/-- C27: for every oscillator state, `Sine::evaluatePM` sets `phase` to
`(phase + freq + pm) mod 2^32`, leaves `freq`, `pm`, `lastPM` and the table pointer
unchanged, and returns
`fast_15_16_lerp_prediff(tableRead[newPhase >> 20], (newPhase >> 4) & 0xFFFF)` for the new
phase; the read is inside a table of at least 4096 words. -/
theorem evaluatePM_spec (s : Sine) :
    s.evaluatePM.1.phase = (s.phase + s.freq + s.pm) % 2 ^ 32 ∧
    s.evaluatePM.1.freq = s.freq ∧ s.evaluatePM.1.pm = s.pm ∧
    s.evaluatePM.1.lastPM = s.lastPM ∧ s.evaluatePM.1.tableRead = s.tableRead ∧
    s.evaluatePM.2
      = (s.tableRead[(s.evaluatePM.1.phase / 2 ^ 20).toNat]?).map
          (fun w => fast_15_16_lerp_prediff w (s.evaluatePM.1.phase / 2 ^ 4 % 2 ^ 16)) ∧
    (4096 ≤ s.tableRead.length → s.evaluatePM.2.isSome = true) := by
  refine ⟨evaluatePM_phase s, rfl, rfl, rfl, rfl, evaluatePM_value s, ?_⟩
  intro hlen
  rw [evaluatePM_value]
  exact table_read_some _ _ (by rw [evaluatePM_phase]; omega) hlen _

theorem evaluatePM_spec_witness :
    4096 ≤ (⟨List.replicate 4096 0, 5, 7, 1, 0⟩ : Sine).tableRead.length ∧
    (⟨List.replicate 4096 0, 5, 7, 1, 0⟩ : Sine).evaluatePM.2.isSome = true :=
  ⟨ge_of_eq (List.length_replicate _ _),
    (evaluatePM_spec ⟨List.replicate 4096 0, 5, 7, 1, 0⟩).2.2.2.2.2.2
      (ge_of_eq (List.length_replicate _ _))⟩

theorem iterate_evaluatePM (s : Sine) (n : Nat) :
    ((fun t : Sine => t.evaluatePM.1)^[n] s).freq = s.freq ∧
    ((fun t : Sine => t.evaluatePM.1)^[n] s).pm = s.pm ∧
    ((fun t : Sine => t.evaluatePM.1)^[n] s).phase % 2 ^ 32
      = (s.phase + n * (s.freq + s.pm)) % 2 ^ 32 := by
  induction n with
  | zero => simp
  | succ k ih =>
    rw [Function.iterate_succ_apply']
    obtain ⟨hf, hp, hph⟩ := ih
    refine ⟨hf, hp, ?_⟩
    rw [evaluatePM_phase, hf, hp]
    push_cast
    have he : s.phase + (↑k + 1) * (s.freq + s.pm)
        = s.phase + ↑k * (s.freq + s.pm) + (s.freq + s.pm) := by ring
    rw [he]
    generalize (k : Int) * (s.freq + s.pm) = q at hph
    omega

theorem iterate_evaluatePM_phase (s : Sine) (hph : 0 ≤ s.phase ∧ s.phase < 2 ^ 32) (n : Nat) :
    ((fun t : Sine => t.evaluatePM.1)^[n] s).phase
      = (s.phase + n * (s.freq + s.pm)) % 2 ^ 32 := by
  cases n with
  | zero =>
    simp only [Function.iterate_zero, id_eq, Nat.cast_zero, zero_mul, add_zero]
    omega
  | succ k =>
    obtain ⟨hf, hp, hk⟩ := iterate_evaluatePM s k
    rw [Function.iterate_succ_apply', evaluatePM_phase, hf, hp]
    push_cast
    have he : s.phase + (↑k + 1) * (s.freq + s.pm)
        = s.phase + ↑k * (s.freq + s.pm) + (s.freq + s.pm) := by ring
    rw [he]
    generalize (k : Int) * (s.freq + s.pm) = q at hk
    omega

/-- C28: for an oscillator with `pm = 0` and constant `freq = F` (and `phase` a `uint32_t`),
after `n` calls of `evaluatePM` the phase is `(phase0 + n*F) mod 2^32`; for `F > 0` dividing
`2^32` and starting phase 0, after exactly `2^32 / F` calls the phase is 0 again. -/
theorem evaluatePM_phase_after (s : Sine) (hpm : s.pm = 0)
    (hph : 0 ≤ s.phase ∧ s.phase < 2 ^ 32) :
    (∀ n : Nat,
      ((fun t : Sine => t.evaluatePM.1)^[n] s).phase = (s.phase + n * s.freq) % 2 ^ 32) ∧
    (0 < s.freq → s.freq ∣ 2 ^ 32 → s.phase = 0 →
      ((fun t : Sine => t.evaluatePM.1)^[(2 ^ 32 / s.freq).toNat] s).phase = 0) := by
  have key : ∀ n : Nat,
      ((fun t : Sine => t.evaluatePM.1)^[n] s).phase = (s.phase + n * s.freq) % 2 ^ 32 := by
    intro n
    rw [iterate_evaluatePM_phase s hph n, hpm, add_zero]
  refine ⟨key, ?_⟩
  intro hF hdvd h0
  have hq : 0 < (2 : Int) ^ 32 / s.freq :=
    Int.ediv_pos_of_pos_of_dvd (by norm_num) (le_of_lt hF) hdvd
  rw [key, h0, Int.toNat_of_nonneg (le_of_lt hq), Int.ediv_mul_cancel hdvd]
  norm_num

theorem evaluatePM_phase_after_witness :
    (⟨[], 1073741824, 0, 0, 5⟩ : Sine).pm = 0 ∧
    (0 ≤ (⟨[], 1073741824, 0, 0, 5⟩ : Sine).phase ∧
      (⟨[], 1073741824, 0, 0, 5⟩ : Sine).phase < 2 ^ 32) ∧
    ((fun t : Sine => t.evaluatePM.1)^[(2 ^ 32 / (1073741824 : Int)).toNat]
      (⟨[], 1073741824, 0, 0, 5⟩ : Sine)).phase = 0 :=
  ⟨rfl, by decide,
    (evaluatePM_phase_after ⟨[], 1073741824, 0, 0, 5⟩ rfl (by decide)).2 (by decide)
      (by decide) rfl⟩

theorem evaluatePMFM_value (s : Sine) (fm : Int) :
    (s.evaluatePMFM fm).2
      = (s.tableRead[((s.evaluatePMFM fm).1.phase / 2 ^ 20).toNat]?).map
          (fun w => fast_15_16_lerp_prediff w ((s.evaluatePMFM fm).1.phase / 2 ^ 4 % 2 ^ 16)) := by
  have h := phase_index (toU32 (s.phase + toU32 (add32 (fix16_mul s.freq fm) s.pm)))
    (toU32_range _)
  show (s.tableRead[(toI32 (lsr32 (toU32 (s.phase
      + toU32 (add32 (fix16_mul s.freq fm) s.pm))) 20)).toNat]?).map
      (fun w => fast_15_16_lerp_prediff w (and32 (toI32 (lsr32 (toU32 (s.phase
        + toU32 (add32 (fix16_mul s.freq fm) s.pm))) 4)) 0xFFFF)) = _
  rw [h.1, h.2]
  rfl

/-- C29: for every oscillator state and every `fm`, `Sine::evaluatePMFM(fm)` sets `phase`
to `(phase + fix16_mul(freq, fm) + pm) mod 2^32`, the multiplier applied to `freq` only, and
leaves `freq`, `pm`, `lastPM` and the table pointer unchanged; the sample is read at the new
phase. -/
theorem evaluatePMFM_spec (s : Sine) (fm : Int) :
    (s.evaluatePMFM fm).1.phase = (s.phase + fix16_mul s.freq fm + s.pm) % 2 ^ 32 ∧
    (s.evaluatePMFM fm).1.freq = s.freq ∧ (s.evaluatePMFM fm).1.pm = s.pm ∧
    (s.evaluatePMFM fm).1.lastPM = s.lastPM ∧
    (s.evaluatePMFM fm).1.tableRead = s.tableRead ∧
    (s.evaluatePMFM fm).2
      = (s.tableRead[((s.evaluatePMFM fm).1.phase / 2 ^ 20).toNat]?).map
          (fun w => fast_15_16_lerp_prediff w
            ((s.evaluatePMFM fm).1.phase / 2 ^ 4 % 2 ^ 16)) := by
  refine ⟨?_, rfl, rfl, rfl, rfl, evaluatePMFM_value s fm⟩
  show toU32 (s.phase + toU32 (add32 (fix16_mul s.freq fm) s.pm)) = _
  unfold add32
  rw [toU32_toI32]
  unfold toU32
  omega

theorem evaluateSineBeat_value (s : Sine) (newIndex : Int) :
    (s.evaluateSineBeat newIndex).2
      = (s.tableRead[((s.evaluateSineBeat newIndex).1.phase / 2 ^ 20).toNat]?).map
          (fun w => asr (fast_15_16_lerp_prediff w
            ((s.evaluateSineBeat newIndex).1.phase / 2 ^ 4 % 2 ^ 16)) 7) := by
  have h := phase_index (toU32 (mul32 newIndex s.freq)) (toU32_range _)
  show (s.tableRead[(toI32 (lsr32 (toU32 (mul32 newIndex s.freq)) 20)).toNat]?).map
      (fun w => asr (fast_15_16_lerp_prediff w
        (and32 (toI32 (lsr32 (toU32 (mul32 newIndex s.freq)) 4)) 0xFFFF)) 7) = _
  rw [h.1, h.2]
  rfl

/-- C30: for every oscillator state and every `newIndex`, `Sine::evaluateSineBeat(newIndex)`
sets `phase` to `(newIndex * freq) mod 2^32` and returns the interpolated table value at
that phase shifted right by 7; neither depends on the previous `phase`, `pm` or `lastPM`,
and a second call with the same index gives the same state and the same value. -/
theorem evaluateSineBeat_spec (s : Sine) (newIndex : Int) :
    (s.evaluateSineBeat newIndex).1.phase = (newIndex * s.freq) % 2 ^ 32 ∧
    (s.evaluateSineBeat newIndex).2
      = (s.tableRead[((s.evaluateSineBeat newIndex).1.phase / 2 ^ 20).toNat]?).map
          (fun w => asr (fast_15_16_lerp_prediff w
            ((s.evaluateSineBeat newIndex).1.phase / 2 ^ 4 % 2 ^ 16)) 7) ∧
    (s.evaluateSineBeat newIndex).1.evaluateSineBeat newIndex = s.evaluateSineBeat newIndex ∧
    (∀ phase pm lastPM : Int,
      ((⟨s.tableRead, s.freq, phase, pm, lastPM⟩ : Sine).evaluateSineBeat newIndex).1.phase
        = (s.evaluateSineBeat newIndex).1.phase ∧
      ((⟨s.tableRead, s.freq, phase, pm, lastPM⟩ : Sine).evaluateSineBeat newIndex).2
        = (s.evaluateSineBeat newIndex).2) := by
  refine ⟨?_, evaluateSineBeat_value s newIndex, rfl, fun _ _ _ => ⟨rfl, rfl⟩⟩
  show toU32 (mul32 newIndex s.freq) = _
  unfold mul32
  rw [toU32_toI32]

/-! ## Flash sine table -/

set_option maxRecDepth 8000 in
theorem big_sine_0_length : big_sine_0.length = 256 := by decide

set_option maxRecDepth 8000 in
theorem big_sine_1_length : big_sine_1.length = 256 := by decide

set_option maxRecDepth 8000 in
theorem big_sine_2_length : big_sine_2.length = 256 := by decide

set_option maxRecDepth 8000 in
theorem big_sine_3_length : big_sine_3.length = 256 := by decide

set_option maxRecDepth 8000 in
theorem big_sine_4_length : big_sine_4.length = 256 := by decide

set_option maxRecDepth 8000 in
theorem big_sine_5_length : big_sine_5.length = 256 := by decide

set_option maxRecDepth 8000 in
theorem big_sine_6_length : big_sine_6.length = 256 := by decide

set_option maxRecDepth 8000 in
theorem big_sine_7_length : big_sine_7.length = 256 := by decide

set_option maxRecDepth 8000 in
theorem big_sine_8_length : big_sine_8.length = 256 := by decide

set_option maxRecDepth 8000 in
theorem big_sine_9_length : big_sine_9.length = 256 := by decide

set_option maxRecDepth 8000 in
theorem big_sine_10_length : big_sine_10.length = 256 := by decide

set_option maxRecDepth 8000 in
theorem big_sine_11_length : big_sine_11.length = 256 := by decide

set_option maxRecDepth 8000 in
theorem big_sine_12_length : big_sine_12.length = 256 := by decide

set_option maxRecDepth 8000 in
theorem big_sine_13_length : big_sine_13.length = 256 := by decide

set_option maxRecDepth 8000 in
theorem big_sine_14_length : big_sine_14.length = 256 := by decide

set_option maxRecDepth 8000 in
theorem big_sine_15_length : big_sine_15.length = 256 := by decide

theorem big_sine_16_length : big_sine_16.length = 1 := by decide

theorem flash_index (phase : Int) :
    0 ≤ toI32 (lsr32 phase 20) ∧ toI32 (lsr32 phase 20) ≤ 4095 ∧
    add32 (toI32 (lsr32 phase 20)) 1 = toI32 (lsr32 phase 20) + 1 ∧
    0 ≤ and32 (toI32 (lsr32 phase 4)) 0xFFFF ∧ and32 (toI32 (lsr32 phase 4)) 0xFFFF ≤ 65535 := by
  rw [and32_low16]
  unfold add32 lsr32 toU32 toI32
  omega

/-! ## Hardware and portable interpolation -/

theorem toI16_eq_self {x : Int} (h : -32768 ≤ x ∧ x ≤ 32767) : F373.toI16 x = x := by
  unfold F373.toI16
  omega

theorem hw_lerp_eq (in0 in1 f : Int) (hd : -32768 ≤ sub32 in1 in0 ∧ sub32 in1 in0 ≤ 32767)
    (hf : 0 ≤ f ∧ f ≤ 65535) :
    F373.fast_15_16_lerp in0 in1 f = fast_15_16_lerp in0 in1 f := by
  have hq : -32768 * 65535 ≤ sub32 in1 in0 * f ∧ sub32 in1 in0 * f ≤ 32767 * 65535 := by
    constructor <;> nlinarith [hd.1, hd.2, hf.1, hf.2]
  unfold F373.fast_15_16_lerp F373.SMLAWB fast_15_16_lerp add32 mul32
  rw [toI16_eq_self hd, asr_eq_div, asr_eq_div, mul_comm f]
  generalize sub32 in1 in0 * f = q at hq ⊢
  have h1 : toI32 q = q := toI32_eq_self (by unfold isI32; omega)
  rw [h1]
  congr 1
  omega

theorem hw_prediff_eq (w f : Int) (hw : isI32 w) (hf : 0 ≤ f ∧ f ≤ 65535) :
    F373.fast_15_16_lerp_prediff w f = fast_15_16_lerp_prediff w f := by
  have hd : -32768 ≤ w / 2 ^ 16 ∧ w / 2 ^ 16 ≤ 32767 := by
    unfold isI32 at hw
    omega
  have hq : -32768 * 65535 ≤ w / 2 ^ 16 * f ∧ w / 2 ^ 16 * f ≤ 32767 * 65535 := by
    constructor <;> nlinarith [hd.1, hd.2, hf.1, hf.2]
  unfold F373.fast_15_16_lerp_prediff F373.SMLAWT fast_15_16_lerp_prediff add32 mul32
  rw [asr_eq_div, asr_eq_div, asr_eq_div, toI16_eq_self hd, mul_comm f]
  generalize w / 2 ^ 16 * f = q at hq ⊢
  generalize and32 w 0xFFFF = a
  have h1 : toI32 q = q := toI32_eq_self (by unfold isI32; omega)
  rw [h1]
  congr 1
  omega

theorem prediff_packed (a d f : Int) (ha : 0 ≤ a ∧ a ≤ 65535)
    (hd : -32768 ≤ d ∧ d ≤ 32767) (hf : 0 ≤ f ∧ f ≤ 65535) :
    fast_15_16_lerp_prediff (or32 a (shl32 d 16)) f = a + d * f / 2 ^ 16 := by
  have hq : -32768 * 65535 ≤ d * f ∧ d * f ≤ 32767 * 65535 := by
    constructor <;> nlinarith [hd.1, hd.2, hf.1, hf.2]
  have hw1 : (d * 2 ^ 16 + a) % 2 ^ 16 = a := by omega
  have hw2 : (d * 2 ^ 16 + a) / 2 ^ 16 = d := by omega
  rw [pack_word ha hd, prediff_eq, hw1, hw2, toI32_eq_self (by unfold isI32; omega)]

/-! ## Sine oscillator: modulation -/

theorem fix16_mul_one (freq : Int) (h : isI32 freq) : fix16_mul freq 65536 = freq := by
  rw [fix16_mul_eq h (by decide)]
  have : freq * 65536 / 2 ^ 16 = freq := by omega
  rw [this]
  exact toI32_eq_self h

theorem pmTrace_sum (xs : List Int) : ∀ s : Sine,
    ((s.pmTrace xs).sum - (xs.getLastD s.lastPM - s.lastPM)) % 2 ^ 32 = 0 := by
  induction xs with
  | nil => intro s; simp [Sine.pmTrace]
  | cons x xs ih =>
    intro s
    have h := ih (s.updatePM x)
    have hl : (s.updatePM x).lastPM = x := rfl
    have hp : (s.updatePM x).pm = sub32 x s.lastPM := rfl
    rw [hl] at h
    simp only [Sine.pmTrace, List.sum_cons, List.getLastD_cons, hp]
    unfold sub32 toI32
    omega

theorem runPM_phase (xs : List Int) : ∀ s : Sine, s.freq = 0 →
    ((s.runPM xs).phase - (s.phase + (xs.getLastD s.lastPM - s.lastPM))) % 2 ^ 32 = 0 ∧
    (xs ≠ [] → 0 ≤ (s.runPM xs).phase ∧ (s.runPM xs).phase < 2 ^ 32) := by
  induction xs with
  | nil => intro s _; simp [Sine.runPM]
  | cons x xs ih =>
    intro s hs
    have hf : ((s.updatePM x).evaluatePM.1).freq = 0 := hs
    have hl : ((s.updatePM x).evaluatePM.1).lastPM = x := rfl
    have hp : ((s.updatePM x).evaluatePM.1).phase
        = (s.phase + s.freq + sub32 x s.lastPM) % 2 ^ 32 := evaluatePM_phase (s.updatePM x)
    have h := ih _ hf
    have e : s.runPM (x :: xs) = ((s.updatePM x).evaluatePM.1).runPM xs := rfl
    rw [e, List.getLastD_cons]
    constructor
    · have h1 := h.1
      rw [hl, hp, hs] at h1
      unfold sub32 toI32 at h1
      omega
    · intro _
      by_cases hx : xs = []
      · subst hx
        show 0 ≤ ((s.updatePM x).evaluatePM.1).phase ∧ ((s.updatePM x).evaluatePM.1).phase < 2 ^ 32
        rw [hp]
        omega
      · exact h.2 hx


/-! ## Claims on the flash sine table, the interpolation forms and the oscillator -/

theorem big_sine_length : big_sine.length = 4097 := by
  simp only [big_sine, List.length_append, big_sine_0_length, big_sine_1_length, big_sine_2_length, big_sine_3_length,
    big_sine_4_length, big_sine_5_length, big_sine_6_length, big_sine_7_length,
    big_sine_8_length, big_sine_9_length, big_sine_10_length, big_sine_11_length,
    big_sine_12_length, big_sine_13_length, big_sine_14_length, big_sine_15_length,
    big_sine_16_length]

/-- Claim C33: for every 32-bit phase, `Sine::evaluateFromFlash` uses the index
`phase >> 20`, which lies in `[0, 4095]`, and the fraction `(phase >> 4) & 0xFFFF`, which
lies in `[0, 65535]`; the table `big_sine` has 4097 entries, so the reads `big_sine[index]`
and `big_sine[index + 1]` are both inside it and the function returns the interpolation of
the two entries, in the portable and in the hardware build. -/
theorem evaluateFromFlash_reads_in_table (phase : Int) :
    big_sine.length = 4097 ∧
    toI32 (lsr32 phase 20) = toU32 phase / 2 ^ 20 ∧
    (0 ≤ toI32 (lsr32 phase 20) ∧ toI32 (lsr32 phase 20) ≤ 4095) ∧
    and32 (toI32 (lsr32 phase 4)) 0xFFFF = toU32 phase / 2 ^ 4 % 2 ^ 16 ∧
    (0 ≤ and32 (toI32 (lsr32 phase 4)) 0xFFFF ∧ and32 (toI32 (lsr32 phase 4)) 0xFFFF ≤ 65535) ∧
    (toI32 (lsr32 phase 20)).toNat < big_sine.length ∧
    (add32 (toI32 (lsr32 phase 20)) 1).toNat = (toI32 (lsr32 phase 20)).toNat + 1 ∧
    (add32 (toI32 (lsr32 phase 20)) 1).toNat < big_sine.length ∧
    ∃ in0 in1 : Int,
      big_sine[(toI32 (lsr32 phase 20)).toNat]? = some in0 ∧
      big_sine[(add32 (toI32 (lsr32 phase 20)) 1).toNat]? = some in1 ∧
      Sine.evaluateFromFlash phase
        = some (fast_15_16_lerp in0 in1 (and32 (toI32 (lsr32 phase 4)) 0xFFFF)) ∧
      F373.Sine.evaluateFromFlash phase
        = some (F373.fast_15_16_lerp in0 in1 (and32 (toI32 (lsr32 phase 4)) 0xFFFF)) := by
  have hi := flash_index phase
  have hlen := big_sine_length
  have h0 : (toI32 (lsr32 phase 20)).toNat < big_sine.length := by omega
  have h1 : (add32 (toI32 (lsr32 phase 20)) 1).toNat < big_sine.length := by omega
  have hx : toI32 (lsr32 phase 20) = toU32 phase / 2 ^ 20 := by
    unfold lsr32 toU32 toI32
    omega
  have hfr : and32 (toI32 (lsr32 phase 4)) 0xFFFF = toU32 phase / 2 ^ 4 % 2 ^ 16 := by
    rw [and32_low16]
    unfold lsr32 toU32 toI32
    omega
  refine ⟨hlen, hx, ⟨hi.1, hi.2.1⟩, hfr, ⟨hi.2.2.2.1, hi.2.2.2.2⟩, h0, by omega, h1,
    big_sine[(toI32 (lsr32 phase 20)).toNat], big_sine[(add32 (toI32 (lsr32 phase 20)) 1).toNat],
    List.getElem?_eq_getElem h0, List.getElem?_eq_getElem h1, ?_, ?_⟩
  · unfold Sine.evaluateFromFlash
    simp only [List.getElem?_eq_getElem h0, List.getElem?_eq_getElem h1]
  · unfold F373.Sine.evaluateFromFlash
    simp only [List.getElem?_eq_getElem h0, List.getElem?_eq_getElem h1]

/-- Claim C34: for every fraction `f` in `[0, 65535]` the hardware (`SMLAWB`) form of
`fast_15_16_lerp` returns the same value as the portable form whenever the `int32_t`
difference `in1 - in0` fits in a signed 16-bit halfword, and the hardware (`SMLAWT`) form of
`fast_15_16_lerp_prediff` returns the same value as the portable form for every 32-bit
word. -/
theorem hw_fast_15_16_forms_eq_portable (f : Int) (hf : 0 ≤ f ∧ f ≤ 65535) :
    (∀ in0 in1 : Int, -32768 ≤ sub32 in1 in0 ∧ sub32 in1 in0 ≤ 32767 →
      F373.fast_15_16_lerp in0 in1 f = fast_15_16_lerp in0 in1 f) ∧
    (∀ w : Int, isI32 w →
      F373.fast_15_16_lerp_prediff w f = fast_15_16_lerp_prediff w f) :=
  ⟨fun in0 in1 hd => hw_lerp_eq in0 in1 f hd hf, fun w hw => hw_prediff_eq w f hw hf⟩

theorem hw_fast_15_16_forms_eq_portable_witness :
    (0 ≤ (40000 : Int) ∧ (40000 : Int) ≤ 65535) ∧
    (-32768 ≤ sub32 (-20000) 1000 ∧ sub32 (-20000) 1000 ≤ 32767) ∧
    isI32 (-1234567890) ∧
    F373.fast_15_16_lerp 1000 (-20000) 40000 = fast_15_16_lerp 1000 (-20000) 40000 ∧
    F373.fast_15_16_lerp_prediff (-1234567890) 40000
      = fast_15_16_lerp_prediff (-1234567890) 40000 :=
  ⟨by decide, by decide, by decide,
    (hw_fast_15_16_forms_eq_portable 40000 (by decide)).1 1000 (-20000) (by decide),
    (hw_fast_15_16_forms_eq_portable 40000 (by decide)).2 (-1234567890) (by decide)⟩

/-- Claim C35: for a packed word with base `a` in `[0, 65535]` and signed 16-bit delta `d`,
and every fraction `f` in `[0, 65535]`, `fast_15_16_lerp_prediff` stays between its
endpoints, `min(a, a + d) <= result <= max(a, a + d)`, and returns `a` when `f = 0`. -/
theorem prediff_no_overshoot (a d f : Int) (ha : 0 ≤ a ∧ a ≤ 65535)
    (hd : -32768 ≤ d ∧ d ≤ 32767) (hf : 0 ≤ f ∧ f ≤ 65535) :
    min a (a + d) ≤ fast_15_16_lerp_prediff (or32 a (shl32 d 16)) f ∧
    fast_15_16_lerp_prediff (or32 a (shl32 d 16)) f ≤ max a (a + d) ∧
    fast_15_16_lerp_prediff (or32 a (shl32 d 16)) 0 = a := by
  rw [prediff_packed a d f ha hd hf, prediff_packed a d 0 ha hd (by decide)]
  have hq : (0 ≤ d → 0 ≤ d * f ∧ d * f ≤ d * 65535) ∧
      (d ≤ 0 → d * 65535 ≤ d * f ∧ d * f ≤ 0) := by
    constructor
    · intro h0
      constructor <;> nlinarith [hf.1, hf.2]
    · intro h0
      constructor <;> nlinarith [hf.1, hf.2]
  generalize d * f = q at hq
  rw [mul_zero]
  refine ⟨?_, ?_, by omega⟩
  · rcases le_total 0 d with h | h
    · rw [min_eq_left (by omega)]
      have := hq.1 h
      omega
    · rw [min_eq_right (by omega)]
      have := hq.2 h
      omega
  · rcases le_total 0 d with h | h
    · rw [max_eq_right (by omega)]
      have := hq.1 h
      omega
    · rw [max_eq_left (by omega)]
      have := hq.2 h
      omega

theorem prediff_no_overshoot_witness :
    (0 ≤ (100 : Int) ∧ (100 : Int) ≤ 65535) ∧ (-32768 ≤ (-50 : Int) ∧ (-50 : Int) ≤ 32767) ∧
    (0 ≤ (65535 : Int) ∧ (65535 : Int) ≤ 65535) ∧
    min (100 : Int) (100 + -50) ≤ fast_15_16_lerp_prediff (or32 100 (shl32 (-50) 16)) 65535 ∧
    fast_15_16_lerp_prediff (or32 100 (shl32 (-50) 16)) 65535 ≤ max (100 : Int) (100 + -50) ∧
    fast_15_16_lerp_prediff (or32 100 (shl32 (-50) 16)) 0 = 100 :=
  ⟨by decide, by decide, by decide,
    prediff_no_overshoot 100 (-50) 65535 (by decide) (by decide) (by decide)⟩

/-- Claim C36: the five integer coefficient groups of the nested quintic of
`getSampleQuinticSpline` sum to `24 * (sample3 - sample2)`: in `int32_t` arithmetic for all
six sample values, and exactly for samples in the range `[-32768, 98302]` that the evaluator
produces; hence the polynomial read in exact arithmetic with the scale constant `1/24`
equals `sample2` at fraction 0 and `sample3` at fraction 1. -/
theorem quintic_groups_sum (s0 s1 s2 s3 s4 s5 : Int) :
    toI32 (quinticC1 s0 s1 s3 s4 + quinticC2 s0 s1 s2 s3 s4 + quinticC3 s0 s1 s2 s3 s4 s5
      + quinticC4 s0 s1 s2 s3 s4 s5 + quinticC5 s0 s1 s2 s3 s4 s5) = toI32 (24 * (s3 - s2)) ∧
    ((-32768 ≤ s0 ∧ s0 ≤ 98302) → (-32768 ≤ s1 ∧ s1 ≤ 98302) → (-32768 ≤ s2 ∧ s2 ≤ 98302) →
      (-32768 ≤ s3 ∧ s3 ≤ 98302) → (-32768 ≤ s4 ∧ s4 ≤ 98302) → (-32768 ≤ s5 ∧ s5 ≤ 98302) →
      quinticC1 s0 s1 s3 s4 + quinticC2 s0 s1 s2 s3 s4 + quinticC3 s0 s1 s2 s3 s4 s5
        + quinticC4 s0 s1 s2 s3 s4 s5 + quinticC5 s0 s1 s2 s3 s4 s5 = 24 * (s3 - s2)) ∧
    quinticExact s0 s1 s2 s3 s4 s5 0 = s2 ∧
    quinticExact s0 s1 s2 s3 s4 s5 1 = s3 := by
  refine ⟨?_, ?_, ?_, ?_⟩
  · unfold quinticC1 quinticC2 quinticC3 quinticC4 quinticC5 add32 sub32 mul32 toI32
    omega
  · intro h0 h1 h2 h3 h4 h5
    obtain ⟨e1, e2, e3, e4, e5⟩ := quinticC_exact s0 s1 s2 s3 s4 s5 h0 h1 h2 h3 h4 h5
    rw [e1, e2, e3, e4, e5]
    ring
  · unfold quinticExact
    ring
  · unfold quinticExact
    ring

theorem quintic_groups_sum_witness :
    (-32768 ≤ (10 : Int) ∧ (10 : Int) ≤ 98302) ∧ (-32768 ≤ (-20 : Int) ∧ (-20 : Int) ≤ 98302) ∧
    (-32768 ≤ (30 : Int) ∧ (30 : Int) ≤ 98302) ∧ (-32768 ≤ (47 : Int) ∧ (47 : Int) ≤ 98302) ∧
    (-32768 ≤ (5 : Int) ∧ (5 : Int) ≤ 98302) ∧ (-32768 ≤ (98302 : Int) ∧ (98302 : Int) ≤ 98302) ∧
    quinticC1 10 (-20) 47 5 + quinticC2 10 (-20) 30 47 5 + quinticC3 10 (-20) 30 47 5 98302
      + quinticC4 10 (-20) 30 47 5 98302 + quinticC5 10 (-20) 30 47 5 98302 = 24 * (47 - 30) :=
  ⟨by decide, by decide, by decide, by decide, by decide, by decide,
    (quintic_groups_sum 10 (-20) 30 47 5 98302).2.1 (by decide) (by decide) (by decide)
      (by decide) (by decide) (by decide)⟩

/-- Claim C38: starting from `lastPM = L0`, after the calls `updatePM(x_1)`, ...,
`updatePM(x_n)` (`n >= 1`) the sum of the successive `pm` values is congruent to
`x_n - L0` modulo `2^32`; and if `evaluatePM` is called once after each update with
`freq = 0`, the phase ends at `(phase0 + x_n - L0) mod 2^32`. -/
theorem updatePM_no_drift (s : Sine) (x : Int) (xs : List Int) :
    (s.pmTrace (x :: xs)).sum % 2 ^ 32
      = ((x :: xs).getLast (List.cons_ne_nil x xs) - s.lastPM) % 2 ^ 32 ∧
    (s.freq = 0 → (s.runPM (x :: xs)).phase
      = (s.phase + (x :: xs).getLast (List.cons_ne_nil x xs) - s.lastPM) % 2 ^ 32) := by
  have hl : (x :: xs).getLast (List.cons_ne_nil x xs) = (x :: xs).getLastD s.lastPM := by
    rw [List.getLastD_cons, List.getLast_eq_getLastD]
  rw [hl]
  constructor
  · have h := pmTrace_sum (x :: xs) s
    omega
  · intro hs
    have h := runPM_phase (x :: xs) s hs
    have h2 := h.2 (List.cons_ne_nil x xs)
    have h1 := h.1
    omega

theorem updatePM_no_drift_witness :
    (⟨[], 0, 4294967000, 7, 100⟩ : Sine).freq = 0 ∧
    ((⟨[], 0, 4294967000, 7, 100⟩ : Sine).runPM [5, -2147483648, 2147483647, 900]).phase
      = (4294967000 + 900 - 100) % 2 ^ 32 :=
  ⟨rfl, (updatePM_no_drift ⟨[], 0, 4294967000, 7, 100⟩ 5 [-2147483648, 2147483647, 900]).2 rfl⟩

/-- Claim C39: for every oscillator state with a signed 32-bit `freq`,
`fix16_mul(freq, 65536) = freq`, so `evaluatePMFM(65536)` leaves the same state (the same new
phase) and returns the same sample as `evaluatePM`. -/
theorem evaluatePMFM_unity (s : Sine) (h : isI32 s.freq) :
    fix16_mul s.freq 65536 = s.freq ∧
    (s.evaluatePMFM 65536).1.phase = s.evaluatePM.1.phase ∧
    (s.evaluatePMFM 65536).2 = s.evaluatePM.2 ∧
    s.evaluatePMFM 65536 = s.evaluatePM := by
  have e : s.evaluatePMFM 65536 = s.evaluatePM := by
    unfold Sine.evaluatePMFM Sine.evaluatePM
    rw [fix16_mul_one s.freq h]
  exact ⟨fix16_mul_one s.freq h, by rw [e], by rw [e], e⟩

theorem evaluatePMFM_unity_witness :
    isI32 (⟨List.replicate 4096 0, -2147483648, 12345, 77, 3⟩ : Sine).freq ∧
    fix16_mul (⟨List.replicate 4096 0, -2147483648, 12345, 77, 3⟩ : Sine).freq 65536
      = (⟨List.replicate 4096 0, -2147483648, 12345, 77, 3⟩ : Sine).freq :=
  ⟨by decide, (evaluatePMFM_unity ⟨List.replicate 4096 0, -2147483648, 12345, 77, 3⟩
    (by decide)).1⟩

/-! ## Sync3 scale tables -/

/-- Claim C40: in each of the eight `Sync3Scale` tables (`perfect`, `simpleRhythms`, `ints`,
`circleFifths`, `fourthsFifths`, `minorArp`, `evenOdds`, `bP`) the second and third arrays
have 32 entries, and at each of the 32 positions `i` the second array entry (the ratio
denominator) is at least 1 and the third array entry equals
`floor((2^32 - 1) / denominator[i])`. -/
theorem sync3_reciprocal_tables :
    ∀ s ∈ [ViaSync3.perfect, ViaSync3.simpleRhythms, ViaSync3.ints, ViaSync3.circleFifths,
        ViaSync3.fourthsFifths, ViaSync3.minorArp, ViaSync3.evenOdds, ViaSync3.bP],
      s.denominators.length = 32 ∧ s.reciprocals.length = 32 ∧
      ∀ i : Fin 32, 1 ≤ s.denominators.getD i 0 ∧
        s.reciprocals.getD i 0 = (2 ^ 32 - 1) / s.denominators.getD i 0 := by
  decide

theorem sync3_reciprocal_tables_witness :
    ViaSync3.bP ∈ [ViaSync3.perfect, ViaSync3.simpleRhythms, ViaSync3.ints,
      ViaSync3.circleFifths, ViaSync3.fourthsFifths, ViaSync3.minorArp, ViaSync3.evenOdds,
      ViaSync3.bP] ∧
    ViaSync3.bP.denominators.length = 32 ∧ ViaSync3.bP.reciprocals.length = 32 ∧
    ∀ i : Fin 32, 1 ≤ ViaSync3.bP.denominators.getD i 0 ∧
      ViaSync3.bP.reciprocals.getD i 0 = (2 ^ 32 - 1) / ViaSync3.bP.denominators.getD i 0 :=
  ⟨by simp, sync3_reciprocal_tables ViaSync3.bP (by simp)⟩

/-! ## Envelope render -/

theorem and32_low4 (w : Int) : and32 w 15 = w % 2 ^ 4 := by
  have hm : bits32 15 = 2 ^ 4 - 1 := by decide
  unfold and32
  rw [hm, Nat.and_pow_two_sub_one_eq_mod, Int.ofNat_eq_coe]
  push_cast
  rw [bits32_cast]
  unfold toI32
  omega

theorem and32_low3 (w : Int) : and32 w 7 = w % 2 ^ 3 := by
  have hm : bits32 7 = 2 ^ 3 - 1 := by decide
  unfold and32
  rw [hm, Nat.and_pow_two_sub_one_eq_mod, Int.ofNat_eq_coe]
  push_cast
  rw [bits32_cast]
  unfold toI32
  omega

theorem hw_usat12_range (x : Int) : 0 ≤ F373.__USAT x 12 ∧ F373.__USAT x 12 ≤ 4095 := by
  unfold F373.__USAT
  split_ifs
  all_goals omega

theorem hw_usat12_id {x : Int} (h : 0 ≤ x ∧ x ≤ 4095) : F373.__USAT x 12 = x := by
  unfold F373.__USAT
  split_ifs
  all_goals omega

theorem render_level (a : Int) :
    lsr32 (toU32 a) 4 = toU32 a / 16 ∧
    toI32 (lsr32 (and32 (toU32 a) 15) 1) = toU32 a % 16 / 2 := by
  rw [and32_low4]
  unfold lsr32 toU32 toI32
  omega

theorem render_sample (a c : Int) :
    toI32 (toU32 (lsr32 (toU32 a) 4 + (if c < toI32 (lsr32 (and32 (toU32 a) 15) 1) then 1 else 0)))
      = if c < toU32 a % 16 / 2 then toU32 a / 16 + 1 else toU32 a / 16 := by
  rw [(render_level a).1, (render_level a).2]
  unfold toU32 toI32
  split_ifs
  all_goals omega

theorem add32_succ (x : Int) (h : -2 ^ 31 ≤ x ∧ x + 1 < 2 ^ 31) : add32 x 1 = x + 1 := by
  unfold add32 toI32
  omega

theorem sub32_pred (x : Int) (h : -2 ^ 31 < x ∧ x < 2 ^ 31) : sub32 x 1 = x - 1 := by
  unfold sub32 toI32
  omega

theorem dither_step (k : Int) : and32 (add32 (k % 8) 1) 7 = (k + 1) % 8 := by
  rw [and32_low3]
  unfold add32 toI32
  omega

theorem renderBody_iterate (aL bL aPW bPW lgo : Int) (v0 : ViaAtsr) (wp N : Int)
    (hwp : isI32 wp) (hN : N < 2 ^ 31) (hov : wp + N < 2 ^ 31) :
    ∀ k : Nat, (k : Int) ≤ N →
      ((F373.renderBody aL bL aPW bPW lgo)^[k] ⟨v0, wp, 0, N⟩).writePosition = wp + k ∧
      ((F373.renderBody aL bL aPW bPW lgo)^[k] ⟨v0, wp, 0, N⟩).ditherCounter = k % 8 ∧
      ((F373.renderBody aL bL aPW bPW lgo)^[k] ⟨v0, wp, 0, N⟩).samplesRemaining = N - k ∧
      (∀ j : Int, ((F373.renderBody aL bL aPW bPW lgo)^[k] ⟨v0, wp, 0, N⟩).v.dac1Samples j
        = if wp ≤ j ∧ j < wp + k then
            F373.__USAT (toI32 (toU32 (aL + (if (j - wp) % 8 < aPW then 1 else 0)))) 12
          else v0.dac1Samples j) ∧
      (∀ j : Int, ((F373.renderBody aL bL aPW bPW lgo)^[k] ⟨v0, wp, 0, N⟩).v.dac2Samples j
        = if wp ≤ j ∧ j < wp + k then
            F373.__USAT (toI32 (toU32 (bL + (if (j - wp) % 8 < bPW then 1 else 0)))) 12
          else v0.dac2Samples j) ∧
      (∀ j : Int, ((F373.renderBody aL bL aPW bPW lgo)^[k] ⟨v0, wp, 0, N⟩).v.dac3Samples j
        = if wp ≤ j ∧ j < wp + k then lgo else v0.dac3Samples j) := by
  intro k
  induction k with
  | zero =>
    intro _
    simp only [Function.iterate_zero, id_eq, Nat.cast_zero, add_zero, sub_zero]
    refine ⟨trivial, by decide, trivial, ?_, ?_, ?_⟩
    all_goals
      intro j
      rw [if_neg (by omega)]
  | succ k ih =>
    intro hk
    have hk' : (k : Int) ≤ N := by push_cast at hk; omega
    obtain ⟨h1, h2, h3, h4, h5, h6⟩ := ih hk'
    rw [Function.iterate_succ_apply']
    generalize (F373.renderBody aL bL aPW bPW lgo)^[k] ⟨v0, wp, 0, N⟩ = st at h1 h2 h3 h4 h5 h6 ⊢
    unfold isI32 at hwp
    push_cast at hk ⊢
    have e1 := add32_succ (wp + k) (by omega)
    have e2 := dither_step k
    have e3 := sub32_pred (N - k) (by omega)
    have hd : (wp + (k : Int) - wp) % 8 = (k : Int) % 8 := by omega
    refine ⟨?_, ?_, ?_, ?_⟩
    · show add32 st.writePosition 1 = _
      rw [h1, e1]
      ring
    · show and32 (add32 st.ditherCounter 1) 7 = _
      rw [h2, e2]
    · show sub32 st.samplesRemaining 1 = _
      rw [h3, e3]
      ring
    clear ih e1 e2 e3
    refine ⟨?_, ?_, ?_⟩
    · intro j
      show Function.update st.v.dac1Samples st.writePosition _ j = _
      rw [Function.update_apply, h1, h2, h4]
      by_cases hj : j = wp + k
      · rw [if_pos hj, if_pos (show wp ≤ j ∧ j < wp + ((k : Int) + 1) by omega), hj, hd]
      · rw [if_neg hj]
        by_cases hr : wp ≤ j ∧ j < wp + k
        · rw [if_pos hr, if_pos (show wp ≤ j ∧ j < wp + ((k : Int) + 1) by omega)]
        · rw [if_neg hr, if_neg (show ¬(wp ≤ j ∧ j < wp + ((k : Int) + 1)) by omega)]
    · intro j
      show Function.update st.v.dac2Samples st.writePosition _ j = _
      rw [Function.update_apply, h1, h2, h5]
      by_cases hj : j = wp + k
      · rw [if_pos hj, if_pos (show wp ≤ j ∧ j < wp + ((k : Int) + 1) by omega), hj, hd]
      · rw [if_neg hj]
        by_cases hr : wp ≤ j ∧ j < wp + k
        · rw [if_pos hr, if_pos (show wp ≤ j ∧ j < wp + ((k : Int) + 1) by omega)]
        · rw [if_neg hr, if_neg (show ¬(wp ≤ j ∧ j < wp + ((k : Int) + 1)) by omega)]
    · intro j
      show Function.update st.v.dac3Samples st.writePosition _ j = _
      rw [Function.update_apply, h1, h6]
      by_cases hj : j = wp + k
      · rw [if_pos hj, if_pos (show wp ≤ j ∧ j < wp + ((k : Int) + 1) by omega)]
      · rw [if_neg hj]
        by_cases hr : wp ≤ j ∧ j < wp + k
        · rw [if_pos hr, if_pos (show wp ≤ j ∧ j < wp + ((k : Int) + 1) by omega)]
        · rw [if_neg hr, if_neg (show ¬(wp ≤ j ∧ j < wp + ((k : Int) + 1)) by omega)]

theorem renderLoop_eq (aL bL aPW bPW lgo : Int) :
    ∀ (fuel n : Nat) (st : F373.RenderBlock), st.samplesRemaining = (n : Int) →
      (n : Int) < 2 ^ 31 →
      F373.renderLoop aL bL aPW bPW lgo fuel st
        = if n ≤ fuel then some ((F373.renderBody aL bL aPW bPW lgo)^[n] st) else none := by
  intro fuel
  induction fuel with
  | zero =>
    intro n st hs hn
    unfold F373.renderLoop
    by_cases h0 : n = 0
    · subst h0
      rw [if_pos (by simpa using hs), if_pos (le_refl _)]
      rfl
    · rw [if_neg (by omega), if_neg (by omega)]
  | succ fuel ih =>
    intro n st hs hn
    unfold F373.renderLoop
    by_cases h0 : n = 0
    · subst h0
      rw [if_pos (by simpa using hs), if_pos (by omega)]
      rfl
    · obtain ⟨m, rfl⟩ := Nat.exists_eq_succ_of_ne_zero h0
      have hb : (F373.renderBody aL bL aPW bPW lgo st).samplesRemaining = (m : Int) := by
        show sub32 st.samplesRemaining 1 = _
        rw [hs]
        push_cast at hn ⊢
        unfold sub32 toI32
        omega
      rw [if_neg (by omega), ih m _ hb (by push_cast at hn; omega), Function.iterate_succ_apply]
      by_cases hm : m ≤ fuel
      · rw [if_pos hm, if_pos (by omega)]
      · rw [if_neg hm, if_neg (by omega)]

theorem loopGate_frame_aux (v : ViaAtsr) (g c : Int) :
    ({ v with gateLowCountdown := c, lastLoop := g } : ViaAtsr).dac3Calibration
      = v.dac3Calibration ∧
    ({ v with gateLowCountdown := c, lastLoop := g } : ViaAtsr).dac1Samples = v.dac1Samples ∧
    ({ v with gateLowCountdown := c, lastLoop := g } : ViaAtsr).dac2Samples = v.dac2Samples ∧
    ({ v with gateLowCountdown := c, lastLoop := g } : ViaAtsr).dac3Samples = v.dac3Samples :=
  ⟨rfl, rfl, rfl, rfl⟩

theorem loopGate_frame (v : ViaAtsr) :
    v.loopGate.1.dac3Calibration = v.dac3Calibration ∧
    v.loopGate.1.dac1Samples = v.dac1Samples ∧ v.loopGate.1.dac2Samples = v.dac2Samples ∧
    v.loopGate.1.dac3Samples = v.dac3Samples := by
  delta ViaAtsr.loopGate
  exact loopGate_frame_aux v _ _

theorem render_unfold (v : ViaAtsr) (N wp : Int) (fuel : Nat) :
    F373.ViaAtsr.render v N wp fuel
      = (F373.renderLoop (lsr32 (toU32 v.aLevel) 4) (lsr32 (toU32 v.bLevel) 4)
          (toI32 (lsr32 (and32 (toU32 v.aLevel) 15) 1))
          (toI32 (lsr32 (and32 (toU32 v.bLevel) 15) 1))
          (F373.__USAT (sub32 (sub32 2048 v.dac3Calibration) (mul32 v.loopGate.2 2048)) 12) fuel
          ⟨v.loopGate.1, wp, 0, toI32 N⟩).map (fun st => st.v) := by
  delta F373.ViaAtsr.render
  rfl

/-- The block written by the hardware render: the loop ends after exactly `N` passes, and
the result holds the dithered levels and the loop gate level at positions
`writePosition .. writePosition + N - 1`, the other positions unchanged. -/
theorem render_result (v : ViaAtsr) (N wp : Int) (hN : 0 ≤ N ∧ N < 2 ^ 31) (hwp : isI32 wp)
    (hov : wp + N < 2 ^ 31) :
    ∃ v1 : ViaAtsr,
      (∀ fuel : Nat, F373.ViaAtsr.render v N wp fuel
        = if N.toNat ≤ fuel then some v1 else none) ∧
      (∀ j : Int, v1.dac1Samples j
        = if wp ≤ j ∧ j < wp + N then
            F373.__USAT (if (j - wp) % 8 < toU32 v.aLevel % 16 / 2 then toU32 v.aLevel / 16 + 1
              else toU32 v.aLevel / 16) 12
          else v.dac1Samples j) ∧
      (∀ j : Int, v1.dac2Samples j
        = if wp ≤ j ∧ j < wp + N then
            F373.__USAT (if (j - wp) % 8 < toU32 v.bLevel % 16 / 2 then toU32 v.bLevel / 16 + 1
              else toU32 v.bLevel / 16) 12
          else v.dac2Samples j) ∧
      (∀ j : Int, v1.dac3Samples j
        = if wp ≤ j ∧ j < wp + N then
            F373.__USAT (sub32 (sub32 2048 v.dac3Calibration) (mul32 v.loopGate.2 2048)) 12
          else v.dac3Samples j) := by
  have hNn : ((N.toNat : Nat) : Int) = N := Int.toNat_of_nonneg hN.1
  have fr := loopGate_frame v
  have hI : toI32 N = N := toI32_eq_self (by unfold isI32; omega)
  have inv := renderBody_iterate (lsr32 (toU32 v.aLevel) 4) (lsr32 (toU32 v.bLevel) 4)
    (toI32 (lsr32 (and32 (toU32 v.aLevel) 15) 1)) (toI32 (lsr32 (and32 (toU32 v.bLevel) 15) 1))
    (F373.__USAT (sub32 (sub32 2048 v.dac3Calibration) (mul32 v.loopGate.2 2048)) 12)
    v.loopGate.1 wp N hwp hN.2 hov N.toNat (by omega)
  rw [hNn] at inv
  obtain ⟨-, -, -, i1, i2, i3⟩ := inv
  refine ⟨((F373.renderBody (lsr32 (toU32 v.aLevel) 4) (lsr32 (toU32 v.bLevel) 4)
    (toI32 (lsr32 (and32 (toU32 v.aLevel) 15) 1)) (toI32 (lsr32 (and32 (toU32 v.bLevel) 15) 1))
    (F373.__USAT (sub32 (sub32 2048 v.dac3Calibration) (mul32 v.loopGate.2 2048)) 12))^[N.toNat]
    ⟨v.loopGate.1, wp, 0, N⟩).v, ?_, ?_, ?_, ?_⟩
  · intro fuel
    rw [render_unfold, hI, renderLoop_eq _ _ _ _ _ fuel N.toNat _ hNn.symm (by omega)]
    by_cases hf : N.toNat ≤ fuel
    · rw [if_pos hf, if_pos hf, Option.map_some']
    · rw [if_neg hf, if_neg hf, Option.map_none']
  · intro j
    rw [i1 j, render_sample v.aLevel _, fr.2.1]
  · intro j
    rw [i2 j, render_sample v.bLevel _, fr.2.2.1]
  · intro j
    rw [i3 j, fr.2.2.2]

theorem virtual_render_dac (v : ViaAtsr) :
    (ViaAtsr.render v).dac1Samples 0 = toU32 v.aLevel / 2 ∧
    (ViaAtsr.render v).dac2Samples 0 = toU32 v.bLevel / 2 := by
  delta ViaAtsr.render
  constructor
  · show Function.update v.dac1Samples 0 (lsr32 v.aLevel 1) 0 = _
    rw [Function.update_same]
    rfl
  · show Function.update v.dac2Samples 0 (lsr32 v.bLevel 1) 0 = _
    rw [Function.update_same]
    rfl

theorem dither_sum (f : Int → Int) (L p : Int) (hp : 0 ≤ p ∧ p ≤ 7)
    (hf : ∀ k : Nat, k < 8 → f k = L + (if (k : Int) < p then 1 else 0)) :
    ∑ k ∈ Finset.range 8, f k = 8 * L + p := by
  simp only [Finset.sum_range_succ, Finset.sum_range_zero, zero_add]
  rw [hf 0 (by decide), hf 1 (by decide), hf 2 (by decide), hf 3 (by decide), hf 4 (by decide),
    hf 5 (by decide), hf 6 (by decide), hf 7 (by decide)]
  obtain ⟨h0, h7⟩ := hp
  interval_cases p <;> simp <;> ring

/-- Claim C31: in the hardware block render of `ViaAtsr::render`, for every `aLevel`,
`bLevel`, `dac3Calibration` and gate state, the render returns and every sample it has
written to `dac1Samples`, `dac2Samples` and `dac3Samples` (positions `writePosition + i`,
`0 <= i < N`) lies in `[0, 4095]`. -/
theorem render_samples_in_range (v : ViaAtsr) (N wp : Int) (hN : 0 ≤ N ∧ N < 2 ^ 31)
    (hwp : isI32 wp) (hov : wp + N < 2 ^ 31) :
    ∃ v1 : ViaAtsr, F373.ViaAtsr.render v N wp N.toNat = some v1 ∧
      ∀ i : Int, 0 ≤ i → i < N →
        (0 ≤ v1.dac1Samples (wp + i) ∧ v1.dac1Samples (wp + i) ≤ 4095) ∧
        (0 ≤ v1.dac2Samples (wp + i) ∧ v1.dac2Samples (wp + i) ≤ 4095) ∧
        (0 ≤ v1.dac3Samples (wp + i) ∧ v1.dac3Samples (wp + i) ≤ 4095) := by
  obtain ⟨v1, hr, h1, h2, h3⟩ := render_result v N wp hN hwp hov
  refine ⟨v1, ?_, ?_⟩
  · rw [hr, if_pos (le_refl _)]
  · intro i hi0 hiN
    have hc : wp ≤ wp + i ∧ wp + i < wp + N := by omega
    rw [h1, h2, h3, if_pos hc, if_pos hc, if_pos hc]
    exact ⟨hw_usat12_range _, hw_usat12_range _, hw_usat12_range _⟩

theorem render_samples_in_range_witness :
    (0 ≤ (16 : Int) ∧ (16 : Int) < 2 ^ 31) ∧ isI32 24 ∧ (24 : Int) + 16 < 2 ^ 31 ∧
    ∃ v1 : ViaAtsr,
      F373.ViaAtsr.render ⟨4294967295, 70000, 0, 0, 0, 1, 1, 0, -5000, fun _ => 9999,
        fun _ => -1, fun _ => 0⟩ 16 24 (16 : Int).toNat = some v1 ∧
      ∀ i : Int, 0 ≤ i → i < 16 →
        (0 ≤ v1.dac1Samples (24 + i) ∧ v1.dac1Samples (24 + i) ≤ 4095) ∧
        (0 ≤ v1.dac2Samples (24 + i) ∧ v1.dac2Samples (24 + i) ≤ 4095) ∧
        (0 ≤ v1.dac3Samples (24 + i) ∧ v1.dac3Samples (24 + i) ≤ 4095) :=
  ⟨by decide, by decide, by decide,
    render_samples_in_range ⟨4294967295, 70000, 0, 0, 0, 1, 1, 0, -5000, fun _ => 9999,
      fun _ => -1, fun _ => 0⟩ 16 24 (by decide) (by decide) (by decide)⟩

/-- Claim C32: in the hardware block render with block size `N = VIA_ATSR_BUFFER_SIZE >= 0`
the loop ends after exactly `N` passes (it has not ended within fewer, and it has ended
within `N`), and the `i`-th sample (`0 <= i < N`) is written at index `writePosition + i`: on
DAC1 it is `USAT12((aLevel >> 4) + 1)` when `(i mod 8) < ((aLevel & 15) >> 1)` and
`USAT12(aLevel >> 4)` otherwise, likewise on DAC2 with `bLevel`, and DAC3 receives the same
`loopGateOut` at every position; the positions outside the block keep their contents. -/
theorem render_block_spec (v : ViaAtsr) (N wp : Int) (hN : 0 ≤ N ∧ N < 2 ^ 31)
    (hwp : isI32 wp) (hov : wp + N < 2 ^ 31) :
    ∃ v1 : ViaAtsr,
      (∀ fuel : Nat, fuel < N.toNat → F373.ViaAtsr.render v N wp fuel = none) ∧
      (∀ fuel : Nat, N.toNat ≤ fuel → F373.ViaAtsr.render v N wp fuel = some v1) ∧
      (∀ i : Int, 0 ≤ i → i < N →
        v1.dac1Samples (wp + i)
          = (if i % 8 < toU32 v.aLevel % 16 / 2 then F373.__USAT (toU32 v.aLevel / 16 + 1) 12
            else F373.__USAT (toU32 v.aLevel / 16) 12) ∧
        v1.dac2Samples (wp + i)
          = (if i % 8 < toU32 v.bLevel % 16 / 2 then F373.__USAT (toU32 v.bLevel / 16 + 1) 12
            else F373.__USAT (toU32 v.bLevel / 16) 12) ∧
        v1.dac3Samples (wp + i)
          = F373.__USAT (sub32 (sub32 2048 v.dac3Calibration) (mul32 v.loopGate.2 2048)) 12) ∧
      (∀ j : Int, j < wp ∨ wp + N ≤ j →
        v1.dac1Samples j = v.dac1Samples j ∧ v1.dac2Samples j = v.dac2Samples j ∧
        v1.dac3Samples j = v.dac3Samples j) := by
  obtain ⟨v1, hr, h1, h2, h3⟩ := render_result v N wp hN hwp hov
  refine ⟨v1, ?_, ?_, ?_, ?_⟩
  · intro fuel hf
    rw [hr, if_neg (by omega)]
  · intro fuel hf
    rw [hr, if_pos hf]
  · intro i hi0 hiN
    have hc : wp ≤ wp + i ∧ wp + i < wp + N := by omega
    have hi : (wp + i - wp) % 8 = i % 8 := by rw [add_sub_cancel_left]
    rw [h1, h2, h3, if_pos hc, if_pos hc, if_pos hc, hi]
    refine ⟨?_, ?_, rfl⟩
    · split_ifs <;> rfl
    · split_ifs <;> rfl
  · intro j hj
    have hc : ¬(wp ≤ j ∧ j < wp + N) := by omega
    rw [h1, h2, h3, if_neg hc, if_neg hc, if_neg hc]
    exact ⟨rfl, rfl, rfl⟩

theorem render_block_spec_witness :
    (0 ≤ (16 : Int) ∧ (16 : Int) < 2 ^ 31) ∧ isI32 24 ∧ (24 : Int) + 16 < 2 ^ 31 ∧
    ∃ v1 : ViaAtsr,
      (∀ fuel : Nat, fuel < (16 : Int).toNat →
        F373.ViaAtsr.render ⟨43981, 70000, 0, 0, 0, 1, 1, 0, 40, fun _ => 9999,
          fun _ => -1, fun _ => 0⟩ 16 24 fuel = none) ∧
      (∀ fuel : Nat, (16 : Int).toNat ≤ fuel →
        F373.ViaAtsr.render ⟨43981, 70000, 0, 0, 0, 1, 1, 0, 40, fun _ => 9999,
          fun _ => -1, fun _ => 0⟩ 16 24 fuel = some v1) :=
  ⟨by decide, by decide, by decide,
    (render_block_spec ⟨43981, 70000, 0, 0, 0, 1, 1, 0, 40, fun _ => 9999,
      fun _ => -1, fun _ => 0⟩ 16 24 (by decide) (by decide) (by decide)).imp
      (fun _ h => ⟨h.1, h.2.1⟩)⟩

/-- Claim C37: for every level `aLevel` with `(aLevel >> 4) <= 4094`, the sum of the 8 DAC1
samples written at block offsets `8m .. 8m+7` of the hardware render equals `aLevel >> 1`,
the value the virtual build writes to `dac1Samples[0]`; likewise for `bLevel` on DAC2. -/
theorem dither_sum_eq_virtual (v : ViaAtsr) (N wp m : Int) (hN : 0 ≤ N ∧ N < 2 ^ 31)
    (hwp : isI32 wp) (hov : wp + N < 2 ^ 31) (hm : 0 ≤ m ∧ 8 * m + 8 ≤ N) :
    ∃ v1 : ViaAtsr, F373.ViaAtsr.render v N wp N.toNat = some v1 ∧
      (toU32 v.aLevel / 16 ≤ 4094 →
        ∑ k ∈ Finset.range 8, v1.dac1Samples (wp + 8 * m + (k : Int)) = toU32 v.aLevel / 2 ∧
        ∑ k ∈ Finset.range 8, v1.dac1Samples (wp + 8 * m + (k : Int))
          = (ViaAtsr.render v).dac1Samples 0) ∧
      (toU32 v.bLevel / 16 ≤ 4094 →
        ∑ k ∈ Finset.range 8, v1.dac2Samples (wp + 8 * m + (k : Int)) = toU32 v.bLevel / 2 ∧
        ∑ k ∈ Finset.range 8, v1.dac2Samples (wp + 8 * m + (k : Int))
          = (ViaAtsr.render v).dac2Samples 0) := by
  obtain ⟨v1, hr, h1, h2, h3⟩ := render_result v N wp hN hwp hov
  have hv := virtual_render_dac v
  have key : ∀ (d e : Int → Int) (A : Int), 0 ≤ A → A / 16 ≤ 4094 →
      (∀ j : Int, d j = if wp ≤ j ∧ j < wp + N then
        F373.__USAT (if (j - wp) % 8 < A % 16 / 2 then A / 16 + 1 else A / 16) 12
        else e j) →
      ∑ k ∈ Finset.range 8, d (wp + 8 * m + (k : Int)) = A / 2 := by
    intro d e A hA0 hA hd
    rw [dither_sum (fun k => d (wp + 8 * m + k)) (A / 16) (A % 16 / 2) (by omega)]
    · omega
    · intro k hk
      have hc : wp ≤ wp + 8 * m + (k : Int) ∧ wp + 8 * m + (k : Int) < wp + N := by omega
      have hi : (wp + 8 * m + (k : Int) - wp) % 8 = (k : Int) := by omega
      show d (wp + 8 * m + (k : Int)) = _
      rw [hd, if_pos hc, hi]
      split_ifs
      · exact hw_usat12_id (by omega)
      · rw [add_zero]
        exact hw_usat12_id (by omega)
  refine ⟨v1, by rw [hr, if_pos (le_refl _)], ?_, ?_⟩
  · intro ha
    have hs := key v1.dac1Samples v.dac1Samples (toU32 v.aLevel) (toU32_range _).1 ha h1
    exact ⟨hs, by rw [hs, hv.1]⟩
  · intro hb
    have hs := key v1.dac2Samples v.dac2Samples (toU32 v.bLevel) (toU32_range _).1 hb h2
    exact ⟨hs, by rw [hs, hv.2]⟩

theorem dither_sum_eq_virtual_witness :
    (0 ≤ (16 : Int) ∧ (16 : Int) < 2 ^ 31) ∧ isI32 24 ∧ (24 : Int) + 16 < 2 ^ 31 ∧
    (0 ≤ (1 : Int) ∧ 8 * (1 : Int) + 8 ≤ 16) ∧
    toU32 (⟨43981, 65519, 0, 0, 0, 1, 1, 0, 40, fun _ => 9999, fun _ => -1,
      fun _ => 0⟩ : ViaAtsr).aLevel / 16 ≤ 4094 ∧
    toU32 (⟨43981, 65519, 0, 0, 0, 1, 1, 0, 40, fun _ => 9999, fun _ => -1,
      fun _ => 0⟩ : ViaAtsr).bLevel / 16 ≤ 4094 ∧
    ∃ v1 : ViaAtsr,
      F373.ViaAtsr.render ⟨43981, 65519, 0, 0, 0, 1, 1, 0, 40, fun _ => 9999, fun _ => -1,
        fun _ => 0⟩ 16 24 (16 : Int).toNat = some v1 ∧
      ∑ k ∈ Finset.range 8, v1.dac1Samples (24 + 8 * 1 + (k : Int)) = toU32 43981 / 2 ∧
      ∑ k ∈ Finset.range 8, v1.dac2Samples (24 + 8 * 1 + (k : Int)) = toU32 65519 / 2 :=
  ⟨by decide, by decide, by decide, by decide, by decide, by decide,
    (dither_sum_eq_virtual ⟨43981, 65519, 0, 0, 0, 1, 1, 0, 40, fun _ => 9999, fun _ => -1,
      fun _ => 0⟩ 16 24 1 (by decide) (by decide) (by decide) (by decide)).imp
      (fun _ h => ⟨h.1, (h.2.1 (by decide)).1, (h.2.2 (by decide)).1⟩)⟩

end Via
